import Mathlib

/-!
Verification development for `sorrell/profiler`.

A shallow embedding of the profiler (`src/profiler/*.go`) and of its Postgres
adapter (`src/db/postgres.go`), followed by theorems about the embedded code.

Conventions of the embedding

* Go strings are sequences of Unicode code points (`String`).
* A Go `error` is its message; the nil error is `none`.
* A Go `map[string]T` is an association list that keeps one entry per key; the
  order of the list stands for one iteration order of the map.
* The relational store is a catalog of tables held in the state `Store`, and
  every method of `db.DBConn` is a function on that state.
-/

namespace Profiler

/-! ## The join of the orchestrator (`profiler.go`, `waitForTableChannels`) -/

/-- A Go `error`: `none` is nil, `some msg` an error with its message. -/
abbrev GoError := Option String

/-- How a call of `waitForTableChannels` ends.  The channel is unbuffered and is
closed only after the join has returned, so `range errChan` either receives the
next outcome a task sends or, when no task is left to send, waits forever. -/
inductive JoinResult where
  /-- The loop is waiting on the channel and no task is left to send. -/
  | blocked (received : Nat)
  /-- The function returned `err` after receiving `received` outcomes;
  `pending` are the outcomes of the tasks whose send was never received. -/
  | returned (err : GoError) (received : Nat) (pending : List GoError)
  deriving DecidableEq, Repr

/-- The loop of `waitForTableChannels`: `arrivals` are the outcomes the tasks
send, in the order in which the channel hands them over, `tablesProfiled` is
the counter of the source and `received` counts the receives. -/
def waitLoop (totalResults : Nat) : List GoError → Nat → Nat → JoinResult
  | [], _, received => .blocked received
  | some err :: rest, _, received => .returned (some err) (received + 1) rest
  | none :: rest, tablesProfiled, received =>
      if tablesProfiled + 1 ≥ totalResults then
        .returned none (received + 1) rest
      else
        waitLoop totalResults rest (tablesProfiled + 1) (received + 1)

/-- Embeds `func (p *Profiler) waitForTableChannels(errChan chan error, totalResults int) error`. -/
def waitForTableChannels (arrivals : List GoError) (totalResults : Nat) : JoinResult :=
  waitLoop totalResults arrivals 0 0

/-! ## Identifier casing (`profilestore.go`, `handleNamingConvention`) -/

/-- The tables of Go's `unicode` package for runes above ASCII, which
`strings.Title` consults; the standard library is not part of the repository,
so they are parameters of the embedding. -/
structure UnicodeTables where
  /-- Embeds `unicode.To(unicode.TitleCase, r)` -/
  ToTitleCase : Char → Char
  /-- Embeds `unicode.IsLetter` -/
  IsLetter : Char → Bool
  /-- Embeds `unicode.IsDigit` -/
  IsDigit : Char → Bool
  /-- Embeds `unicode.IsSpace` -/
  IsSpace : Char → Bool

/-- Unicode tables that leave every rune above ASCII unchanged and unclassified. -/
def asciiOnlyTables : UnicodeTables :=
  { ToTitleCase := fun r => r, IsLetter := fun _ => false,
    IsDigit := fun _ => false, IsSpace := fun _ => false }

/-- The constants of package `profiler` that the source refers to and that are
declared in a file outside `src/`; they are parameters of the embedding. -/
structure PackageConstants where
  TABLE_COLUMN_PROFILE_PREFIX : String
  TABLE_CUSTOM_COLUMN_PROFILE_PREFIX : String
  TABLE_COLUMN_NAME_ID : String
  TABLE_CUSTOM_COLUMN_NAME_ID : String
  PROFILE_RECORD_ID : String

/-- Embeds `type ProfileStore struct`: the casing switch and the creation flag of the
source; the connection `dbConn` is the `Store` state threaded through the
methods.  `unicode` and `consts` are the parameters described above. -/
structure ProfileStore where
  UsePascalCase : Bool
  tablesHaveBeenCreated : Bool
  unicode : UnicodeTables
  consts : PackageConstants

/-- Embeds `strings.ContainsAny(s, chars)`: some code point of `chars` is in `s`. -/
def ContainsAny (s chars : String) : Bool :=
  chars.data.any (fun c => s.data.contains c)

/-- Embeds `strings.ReplaceAll(s, old, new)` for a pattern `old` of one code point. -/
def ReplaceAll (s : String) (old : Char) (new : String) : String :=
  ⟨s.data.flatMap (fun c => if c = old then new.data else [c])⟩

/-- Embeds `isSeparator` of Go's `strings` package. -/
def isSeparator (u : UnicodeTables) (r : Char) : Bool :=
  if r.toNat ≤ 0x7F then
    if '0'.toNat ≤ r.toNat ∧ r.toNat ≤ '9'.toNat then false
    else if 'a'.toNat ≤ r.toNat ∧ r.toNat ≤ 'z'.toNat then false
    else if 'A'.toNat ≤ r.toNat ∧ r.toNat ≤ 'Z'.toNat then false
    else if r = '_' then false
    else true
  else if u.IsLetter r || u.IsDigit r then false
  else u.IsSpace r

/-- Embeds `unicode.ToTitle`. -/
def ToTitle (u : UnicodeTables) (r : Char) : Char :=
  if r.toNat ≤ 0x7F then
    if 'a'.toNat ≤ r.toNat ∧ r.toNat ≤ 'z'.toNat then Char.ofNat (r.toNat - 32) else r
  else u.ToTitleCase r

/-- The mapping closure of `strings.Title`, with its remembered rune `prev`. -/
def titleLoop (u : UnicodeTables) : Char → List Char → List Char
  | _, [] => []
  | prev, r :: rs =>
      (if isSeparator u prev then ToTitle u r else r) :: titleLoop u r rs

/-- Embeds `strings.Title(s)`. -/
def Title (u : UnicodeTables) (s : String) : String :=
  ⟨titleLoop u ' ' s.data⟩

/-- Embeds `func (p *ProfileStore) convertSnakeCaseToPascalCase(name string) string`. -/
def convertSnakeCaseToPascalCase (p : ProfileStore) (name : String) : String :=
  if !ContainsAny "_" name then
    name
  else
    let name := ReplaceAll name '_' " "
    let name := Title p.unicode name
    let name := ReplaceAll name ' ' ""
    name

/-- Embeds `func (p *ProfileStore) handleNamingConvention(name string) string`. -/
def handleNamingConvention (p : ProfileStore) (name : String) : String :=
  if p.UsePascalCase then
    convertSnakeCaseToPascalCase p name
  else
    name

/-- Embeds `func (p *ProfileStore) getColumnProfileTableName(columnDataType string) string`. -/
def getColumnProfileTableName (p : ProfileStore) (columnDataType : String) : String :=
  let name := p.consts.TABLE_COLUMN_PROFILE_PREFIX ++ columnDataType
  handleNamingConvention p name

/-- Embeds `func (p *ProfileStore) getCustomColumnProfileTableName(columnDataType string) string`. -/
def getCustomColumnProfileTableName (p : ProfileStore) (columnDataType : String) : String :=
  let name := p.consts.TABLE_CUSTOM_COLUMN_PROFILE_PREFIX ++ columnDataType
  handleNamingConvention p name

/-- Embeds `strings.ToLower` on ASCII letters, as `DoesTableExist` applies it to a table name. -/
def ToLower (s : String) : String :=
  ⟨s.data.map Char.toLower⟩

/-- A profile store with the given casing switch, the ASCII-only tables and
sample values for the package constants. -/
def sampleProfileStore (usePascalCase : Bool) : ProfileStore :=
  { UsePascalCase := usePascalCase
    tablesHaveBeenCreated := false
    unicode := asciiOnlyTables
    consts :=
      { TABLE_COLUMN_PROFILE_PREFIX := "table_column_profile_"
        TABLE_CUSTOM_COLUMN_PROFILE_PREFIX := "table_custom_column_profile_"
        TABLE_COLUMN_NAME_ID := "table_column_name_id"
        TABLE_CUSTOM_COLUMN_NAME_ID := "table_custom_column_name_id"
        PROFILE_RECORD_ID := "profile_record_id" } }


/-! ## Go types and values (`reflect`) -/

/-- Embeds `reflect.Kind`. -/
inductive Kind where
  | Invalid | Bool | Int | Int8 | Int16 | Int32 | Int64
  | Uint | Uint8 | Uint16 | Uint32 | Uint64 | Uintptr
  | Float32 | Float64 | Complex64 | Complex128
  | Array | Chan | Func | Interface | Map | Pointer | Slice | String | Struct
  | UnsafePointer
  deriving DecidableEq, Repr

/-- The predeclared boolean, numeric and string types, and `unsafe.Pointer`. -/
inductive BasicType where
  | bool | int | int8 | int16 | int32 | int64
  | uint | uint8 | uint16 | uint32 | uint64 | uintptr
  | float32 | float64 | complex64 | complex128 | string | unsafePointer
  deriving DecidableEq, Repr

/-- A `reflect.Type`: a Go type up to identity.  Signatures, method sets and
field lists are kept as their printed form. -/
inductive GoType where
  | basic (b : BasicType)
  | named (pkgPath name : String) (underlying : GoType)
  | array (len : Nat) (elem : GoType)
  | chan (elem : GoType)
  | func (signature : String)
  | interface (methods : String)
  | map (key elem : GoType)
  | pointer (elem : GoType)
  | slice (elem : GoType)
  | struct (fields : String)
  deriving DecidableEq, Repr

/-- The kind of a predeclared type. -/
def BasicType.Kind : BasicType → Kind
  | .bool => .Bool | .int => .Int | .int8 => .Int8 | .int16 => .Int16
  | .int32 => .Int32 | .int64 => .Int64
  | .uint => .Uint | .uint8 => .Uint8 | .uint16 => .Uint16 | .uint32 => .Uint32
  | .uint64 => .Uint64 | .uintptr => .Uintptr
  | .float32 => .Float32 | .float64 => .Float64
  | .complex64 => .Complex64 | .complex128 => .Complex128
  | .string => .String | .unsafePointer => .UnsafePointer

/-- Embeds `func (t Type) Kind() Kind`. -/
def GoType.Kind : GoType → Kind
  | .basic b => b.Kind
  | .named _ _ u => u.Kind
  | .array _ _ => .Array
  | .chan _ => .Chan
  | .func _ => .Func
  | .interface _ => .Interface
  | .map _ _ => .Map
  | .pointer _ => .Pointer
  | .slice _ => .Slice
  | .struct _ => .Struct

/-- Embeds `func (t Type) Elem() Type`, defined for arrays, channels, maps, pointers and slices. -/
def GoType.Elem : GoType → Option GoType
  | .named _ _ u => u.Elem
  | .array _ e => some e
  | .chan e => some e
  | .map _ e => some e
  | .pointer e => some e
  | .slice e => some e
  | _ => none

/-- The type `time.Time`. -/
def timeTime : GoType :=
  .named "time" "Time" (.struct "wall uint64; ext int64; loc *Location")

/-- A non-nil `interface{}` value: a value together with its dynamic type. -/
inductive GoValue where
  /-- a Go `int` -/
  | int (n : Int)
  /-- a Go `string` -/
  | string (s : String)
  /-- a `time.Time`, as nanoseconds since the epoch -/
  | time (nanos : Int)
  /-- a `[]byte` -/
  | bytes (b : List Nat)
  /-- a value of any other dynamic type, by its printed form -/
  | other (t : GoType) (repr : String)
  deriving DecidableEq, Repr

/-- An `interface{}`: `none` is the nil interface. -/
abbrev GoInterface := Option GoValue

/-- Embeds `reflect.TypeOf(v)` for a non-nil `v`. -/
def GoValue.TypeOf : GoValue → GoType
  | .int _ => .basic .int
  | .string _ => .basic .string
  | .time _ => timeTime
  | .bytes _ => .slice (.basic .uint8)
  | .other t _ => t

/-! ## Type mapping (`postgres.go`, `convertTypeToSQLType`) -/

/-- Embeds `func isSameStructType(dataType reflect.Type, compareInterface interface{}) bool`. -/
def isSameStructType (dataType : GoType) (compareInterface : GoValue) : Bool :=
  dataType == compareInterface.TypeOf

/-- Embeds `func (p *PostgresConn) convertTypeToSQLType(dataType reflect.Type) (string, error)`;
`none` is the nil `reflect.Type`.  The message the default case prints is not
part of the result. -/
def convertTypeToSQLType (dataType : Option GoType) : Except String String :=
  match dataType with
  | none =>
      .error "data type is a nil pointer, this is likely due to a null value which cannot be interpreted to a data type"
  | some dataType =>
      match dataType.Kind with
      | .Int | .Int8 | .Int16 | .Int32 | .Int64 => .ok "int"
      | .String => .ok "text"
      | .Struct =>
          if isSameStructType dataType (.time 0) then .ok "timestamptz"
          else .error "no defined sql type for reflect type"
      | .Slice =>
          if (dataType.Elem.map GoType.Kind) = some Kind.Uint8 then .ok "numeric"
          else .error "no defined sql type for reflect type"
      | _ => .error "no defined sql type for reflect type"

/-- Embeds `func (p *ProfileStore) resolveDataType(data interface{}, dbScanType reflect.Type) reflect.Type`;
`data = none` is the nil interface. -/
def resolveDataType (data : GoInterface) (dbScanType : Option GoType) : Option GoType :=
  match data with
  | some v => some v.TypeOf
  | none => dbScanType

/-! ## Go maps with string keys -/

/-- A `map[string]T`: one entry per key, in one iteration order. -/
abbrev GoMap (β : Type) := List (String × β)

/-- The assignment `m[k] = v`. -/
def mapSet {β : Type} : GoMap β → String → β → GoMap β
  | [], k, v => [(k, v)]
  | (k0, v0) :: rest, k, v =>
      if k0 = k then (k, v) :: rest else (k0, v0) :: mapSet rest k v

/-- The keys of a map. -/
def mapKeys {β : Type} (m : GoMap β) : List String :=
  m.map Prod.fst

/-! ## Aggregate expressions (`postgres.go`, `ProfilesByType`) -/

/-- Embeds `func (p *PostgresConn) ProfilesByType(columnType string) map[string]string`. -/
def ProfilesByType (columnType : String) : GoMap String :=
  let profileColumns : GoMap String := []
  if columnType = "INT4" ∨ columnType = "NUMERIC" ∨ columnType = "INT2"
      ∨ columnType = "INT8" then
    let profileColumns := mapSet profileColumns "maximum" "max(%s)"
    let profileColumns := mapSet profileColumns "minimum" "min(%s)"
    let profileColumns := mapSet profileColumns "average" "avg(%s)"
    profileColumns
  else if columnType = "TIMESTAMP" ∨ columnType = "TIMESTAMPTZ" ∨ columnType = "DATE" then
    let profileColumns := mapSet profileColumns "maximum" "max(%s)"
    let profileColumns := mapSet profileColumns "minimum" "min(%s)"
    profileColumns
  else if columnType = "VARCHAR" ∨ columnType = "BPCHAR" ∨ columnType = "TEXT" then
    let profileColumns := mapSet profileColumns "max_length" "max(length(%s))"
    let profileColumns := mapSet profileColumns "avg_length" "avg(length(%s))"
    profileColumns
  else
    profileColumns

/-! ## The relational store behind `db.DBConn`

The Postgres adapter builds SQL text and runs it on the connection.  The
embedding runs the same statements on a catalog of tables.  Unquoted
identifiers are folded to lower case by the store, so the catalog is keyed by
folded names; a cell that was never written is NULL and matches no value.
Cell values are not checked against the declared SQL type of their column. -/

/-- Embeds `type DBColumnDefinition struct`; `ColumnType = none` is the nil `reflect.Type`. -/
structure DBColumnDefinition where
  ColumnName : String
  ColumnType : Option GoType
  deriving DecidableEq, Repr

/-- A row of a table: its `id` and the cells written by the insert; a cell
written from a nil value is NULL. -/
structure PgRow where
  id : Int
  cells : List (String × GoInterface)
  deriving DecidableEq, Repr

/-- A table of the catalog: its columns (the first is `id`), its rows in
insertion order and the last value drawn from the `id` sequence. -/
structure PgTable where
  columns : List String
  rows : List PgRow
  serial : Int
  deriving DecidableEq, Repr

/-- A call through the `db.DBConn` interface, with its arguments. -/
inductive DBCall where
  | DoesTableExist (tableName : String)
  | CreateTable (tableName : String) (columns : List DBColumnDefinition)
  | CreateTableIfNotExists (tableName : String) (columns : List DBColumnDefinition)
  | DoesTableColumnExist (tableName columnName : String)
  | AddTableColumn (tableName : String) (column : DBColumnDefinition)
  | InsertRowAndReturnID (tableName : String) (values : GoMap GoInterface)
  | GetRowsSelectWhere (tableName : String) (selects : List String)
      (wheres : GoMap GoInterface)
  deriving DecidableEq, Repr

/-- The state of a connection: the catalog, and the calls made through the
interface so far, oldest first. -/
structure Store where
  tables : List (String × PgTable)
  calls : List DBCall
  deriving DecidableEq, Repr

/-- How a Go function that returns `(T, error)` ends. -/
inductive Outcome (α : Type) where
  /-- it returned a value and the nil error -/
  | ok (a : α)
  /-- it returned a non-nil error -/
  | error (msg : String)
  /-- it panicked -/
  | panic (msg : String)
  deriving DecidableEq, Repr

/-- The table of the catalog that an identifier denotes. -/
def Store.table (s : Store) (tableName : String) : Option PgTable :=
  s.tables.lookup (ToLower tableName)

/-- The columns of the table that an identifier denotes; none when there is no such table. -/
def Store.columnsOf (s : Store) (tableName : String) : List String :=
  match s.table tableName with
  | some t => t.columns
  | none => []

/-- The rows of the table that an identifier denotes; none when there is no such table. -/
def Store.rowsOf (s : Store) (tableName : String) : List PgRow :=
  match s.table tableName with
  | some t => t.rows
  | none => []

/-- Writing a table of the catalog under a folded name. -/
def putTable : List (String × PgTable) → String → PgTable → List (String × PgTable)
  | [], k, t => [(k, t)]
  | (k0, t0) :: rest, k, t =>
      if k0 = k then (k, t) :: rest else (k0, t0) :: putTable rest k t

/-- Recording a call through the interface. -/
def Store.record (s : Store) (c : DBCall) : Store :=
  { s with calls := s.calls ++ [c] }

namespace PostgresConn

/-- Embeds `func (p *PostgresConn) DoesTableExist(tableName string) (bool, error)`:
`to_regclass` of the lower-cased name is the name for a table of the catalog
and NULL otherwise, and NULL does not scan into a string. -/
def DoesTableExist (s : Store) (tableName : String) : Bool × GoError :=
  let tableName := ToLower tableName
  match s.table tableName with
  | some _ => (true, none)
  | none => (false, some "sql: Scan error: converting NULL to string is unsupported")

/-- The SQL types of the columns of `CreateTable`, or the first conversion error. -/
def columnSQLTypes : List DBColumnDefinition → Except String (List String)
  | [] => .ok []
  | col :: rest =>
      match convertTypeToSQLType col.ColumnType with
      | .error err => .error err
      | .ok columnSQLType =>
          match columnSQLTypes rest with
          | .error err => .error err
          | .ok items => .ok ((col.ColumnName ++ " " ++ columnSQLType) :: items)

/-- Embeds `func (p *PostgresConn) CreateTable(tableName string, columns []DBColumnDefinition) error`:
the statement `create table t (id serial primary key, c1 ty1, ...)` fails
without columns, on a table that exists and on a column given twice. -/
def CreateTable (s : Store) (tableName : String) (columns : List DBColumnDefinition) :
    GoError × Store :=
  match columnSQLTypes columns with
  | .error err => (some err, s)
  | .ok _ =>
      let names := "id" :: columns.map (fun col => ToLower col.ColumnName)
      if columns = [] then (some "pq: syntax error", s)
      else if (s.table tableName).isSome then (some "pq: relation already exists", s)
      else if ¬ names.Nodup then (some "pq: column specified more than once", s)
      else
        let t : PgTable := { columns := names, rows := [], serial := 0 }
        (none, { s with tables := putTable s.tables (ToLower tableName) t })

/-- Embeds `func (p *PostgresConn) CreateTableIfNotExists(tableName string, columns []DBColumnDefinition) error`. -/
def CreateTableIfNotExists (s : Store) (tableName : String)
    (columns : List DBColumnDefinition) : GoError × Store :=
  match DoesTableExist s tableName with
  | (true, none) => (none, s)
  | _ => CreateTable s tableName columns

/-- Embeds `func (p *PostgresConn) DoesTableColumnExist(tableName string, columnName string) (bool, error)`:
the query `select c from t limit 1` is scanned as one row, so it fails on a
missing table, on a missing column and on a table without rows. -/
def DoesTableColumnExist (s : Store) (tableName columnName : String) : Bool × GoError :=
  match s.table tableName with
  | none => (false, some "pq: relation does not exist")
  | some t =>
      if ToLower columnName ∉ t.columns then (false, some "pq: column does not exist")
      else if t.rows = [] then (false, some "sql: no rows in result set")
      else (true, none)

/-- Embeds `func (p *PostgresConn) AddTableColumn(tableName string, column DBColumnDefinition) error`:
the statement `alter table t add column c ty` fails on a missing table and on
a column that exists. -/
def AddTableColumn (s : Store) (tableName : String) (column : DBColumnDefinition) :
    GoError × Store :=
  match convertTypeToSQLType column.ColumnType with
  | .error err => (some err, s)
  | .ok _ =>
      match s.table tableName with
      | none => (some "pq: relation does not exist", s)
      | some t =>
          if ToLower column.ColumnName ∈ t.columns then
            (some "pq: column already exists", s)
          else
            let t1 : PgTable := { t with columns := t.columns ++ [ToLower column.ColumnName] }
            (none, { s with tables := putTable s.tables (ToLower tableName) t1 })

/-- Embeds `func (p *PostgresConn) InsertRowAndReturnID(tableName string, values map[string]interface{}) int`:
the statement `insert into t (c1, ...) values ($1, ...) returning id` fails
without columns, on a missing table, on a missing column and on a column
given twice, and the function panics when the statement fails. -/
def InsertRowAndReturnID (s : Store) (tableName : String) (values : GoMap GoInterface) :
    Outcome Int × Store :=
  let insertColumns := values.map (fun kv => ToLower kv.1)
  match s.table tableName with
  | none => (.panic "pq: relation does not exist", s)
  | some t =>
      if values = [] then (.panic "pq: syntax error", s)
      else if ¬ (∀ c ∈ insertColumns, c ∈ t.columns) then
        (.panic "pq: column does not exist", s)
      else if ¬ insertColumns.Nodup then
        (.panic "pq: column specified more than once", s)
      else
        let newID := t.serial + 1
        let row : PgRow := { id := newID, cells := values.map (fun kv => (ToLower kv.1, kv.2)) }
        let t1 : PgTable := { t with rows := t.rows ++ [row], serial := newID }
        (.ok newID, { s with tables := putTable s.tables (ToLower tableName) t1 })

/-- A row satisfies `c1=$1 AND c2=$2 ...`; an equality with NULL on either side
is not satisfied. -/
def rowMatches (wheres : GoMap GoInterface) (r : PgRow) : Bool :=
  wheres.all (fun kv => kv.2.isSome && r.cells.lookup (ToLower kv.1) == some kv.2)

/-- Embeds `func (p *PostgresConn) GetRowsSelectWhere(tableName string, selects []string, wheres map[string]interface{}) (*sql.Rows, error)`:
the rows of the table that satisfy every equality; the query fails on a missing
table and on a missing column. -/
def GetRowsSelectWhere (s : Store) (tableName : String) (selects : List String)
    (wheres : GoMap GoInterface) : Except String (List PgRow) :=
  match s.table tableName with
  | none => .error "pq: relation does not exist"
  | some t =>
      if ¬ (∀ c ∈ selects, c = "*" ∨ ToLower c ∈ t.columns) then
        .error "pq: column does not exist"
      else if ¬ (∀ kv ∈ wheres, ToLower kv.1 ∈ t.columns) then
        .error "pq: column does not exist"
      else
        .ok (t.rows.filter (rowMatches wheres))

end PostgresConn

/-! ### Calls through the interface -/

namespace DBConn

/-- A call of `DoesTableExist` through the interface. -/
def DoesTableExist (s : Store) (tableName : String) : (Bool × GoError) × Store :=
  (PostgresConn.DoesTableExist s tableName, s.record (.DoesTableExist tableName))

/-- A call of `CreateTable` through the interface. -/
def CreateTable (s : Store) (tableName : String) (columns : List DBColumnDefinition) :
    GoError × Store :=
  let r := PostgresConn.CreateTable s tableName columns
  (r.1, r.2.record (.CreateTable tableName columns))

/-- A call of `CreateTableIfNotExists` through the interface. -/
def CreateTableIfNotExists (s : Store) (tableName : String)
    (columns : List DBColumnDefinition) : GoError × Store :=
  let r := PostgresConn.CreateTableIfNotExists s tableName columns
  (r.1, r.2.record (.CreateTableIfNotExists tableName columns))

/-- A call of `DoesTableColumnExist` through the interface. -/
def DoesTableColumnExist (s : Store) (tableName columnName : String) :
    (Bool × GoError) × Store :=
  (PostgresConn.DoesTableColumnExist s tableName columnName,
    s.record (.DoesTableColumnExist tableName columnName))

/-- A call of `AddTableColumn` through the interface. -/
def AddTableColumn (s : Store) (tableName : String) (column : DBColumnDefinition) :
    GoError × Store :=
  let r := PostgresConn.AddTableColumn s tableName column
  (r.1, r.2.record (.AddTableColumn tableName column))

/-- A call of `InsertRowAndReturnID` through the interface. -/
def InsertRowAndReturnID (s : Store) (tableName : String) (values : GoMap GoInterface) :
    Outcome Int × Store :=
  let r := PostgresConn.InsertRowAndReturnID s tableName values
  (r.1, r.2.record (.InsertRowAndReturnID tableName values))

/-- A call of `GetRowsSelectWhere` through the interface. -/
def GetRowsSelectWhere (s : Store) (tableName : String) (selects : List String)
    (wheres : GoMap GoInterface) : Except String (List PgRow) × Store :=
  (PostgresConn.GetRowsSelectWhere s tableName selects wheres,
    s.record (.GetRowsSelectWhere tableName selects wheres))

end DBConn

/-! ## The tables of the profile store (`profilestoretables.go`) -/

/-- A field of a struct type, with its struct tag as key and value pairs. -/
structure StructField where
  Name : String
  FieldType : GoType
  Tag : List (String × String)
  deriving DecidableEq, Repr

/-- A struct value handed over as `interface{}`: its fields in declaration
order, each with its value. -/
abbrev TableStruct := List (StructField × GoValue)

/-- The tag of every `ID` field; `table` is the tag of the struct's table name. -/
def idField (table : String) : StructField :=
  { Name := "ID", FieldType := .basic .int,
    Tag := [("db", "id"), ("table", table), ("primaryKey", "true")] }

/-- A field that carries only a `db` tag. -/
def dbField (name : String) (t : GoType) (column : String) : StructField :=
  { Name := name, FieldType := t, Tag := [("db", column)] }

/-- Embeds `type TableColumnName struct`. -/
def TableColumnName (ID TableNameID : Int) (TableColumnName : String)
    (TableColumnTypeID : Int) : TableStruct :=
  [ (idField "table_column_names", .int ID),
    (dbField "TableNameID" (.basic .int) "table_name_id", .int TableNameID),
    (dbField "TableColumnName" (.basic .string) "table_column_name", .string TableColumnName),
    (dbField "TableColumnTypeID" (.basic .int) "table_column_type_id", .int TableColumnTypeID) ]

/-- Embeds `type TableColumnType struct`. -/
def TableColumnType (ID : Int) (TableColumnType : String) : TableStruct :=
  [ (idField "table_column_types", .int ID),
    (dbField "TableColumnType" (.basic .string) "table_column_type", .string TableColumnType) ]

/-- Embeds `type TableName struct`. -/
def TableName (ID : Int) (TableName : String) : TableStruct :=
  [ (idField "table_names", .int ID),
    (dbField "TableName" (.basic .string) "table_name", .string TableName) ]

/-- Embeds `type TableProfile struct`. -/
def TableProfile (ID TableNameID TableRowCount ProfileRecordID : Int) : TableStruct :=
  [ (idField "table_profiles", .int ID),
    (dbField "TableNameID" (.basic .int) "table_name_id", .int TableNameID),
    (dbField "TableRowCount" (.basic .int) "table_row_count", .int TableRowCount),
    (dbField "ProfileRecordID" (.basic .int) "profile_record_id", .int ProfileRecordID) ]

/-- Embeds `type ProfileRecord struct`. -/
def ProfileRecord (ID : Int) (ProfileDate : Int) : TableStruct :=
  [ (idField "profile_records", .int ID),
    (dbField "ProfileDate" timeTime "profile_date", .time ProfileDate) ]

/-- Embeds `type TableCustomColumnName struct`. -/
def TableCustomColumnName (ID TableNameID : Int) (TableColumnName : String)
    (TableColumnTypeID : Int) (CustomColumnDefinition : String) : TableStruct :=
  [ (idField "table_custom_column_names", .int ID),
    (dbField "TableNameID" (.basic .int) "table_name_id", .int TableNameID),
    (dbField "TableColumnName" (.basic .string) "table_column_name", .string TableColumnName),
    (dbField "TableColumnTypeID" (.basic .int) "table_column_type_id", .int TableColumnTypeID),
    (dbField "CustomColumnDefinition" (.basic .string) "table_custom_column_definition",
      .string CustomColumnDefinition) ]

/-! ## The profile store (`profilestore.go`) -/

/-- Embeds `type ColumnProfileData struct`; `data = none` is a nil value and
`scanType = none` a nil `reflect.Type`. -/
structure ColumnProfileData where
  data : GoInterface
  name : String
  scanType : Option GoType
  deriving DecidableEq, Repr

/-- Embeds `func (p *ProfileStore) handleColumnDataNamingConvention(data map[string]interface{}) map[string]interface{}`. -/
def handleColumnDataNamingConvention {β : Type} (p : ProfileStore) (data : GoMap β) :
    GoMap β :=
  data.foldl (fun fixedData kv => mapSet fixedData (handleNamingConvention p kv.1) kv.2) []

/-- Embeds `func (p *ProfileStore) handleDBColumnDefinitionArrNamingConvention(definitions []db.DBColumnDefinition) []db.DBColumnDefinition`. -/
def handleDBColumnDefinitionArrNamingConvention (p : ProfileStore)
    (definitions : List DBColumnDefinition) : List DBColumnDefinition :=
  definitions.map
    (fun d => { d with ColumnName := handleNamingConvention p d.ColumnName })

/-- Embeds `func (p *ProfileStore) getTableNameFromStruct(tableStruct interface{}) (string, error)`. -/
def getTableNameFromStruct (p : ProfileStore) : TableStruct → Except String String
  | [] => .error "no table tag found on struct"
  | (field, _) :: rest =>
      match field.Tag.lookup "table" with
      | some tableName => .ok (handleNamingConvention p tableName)
      | none => getTableNameFromStruct p rest

/-- Embeds `func (p *ProfileStore) getColumnDataFromStructExcludePrimaryKey(tableStruct interface{}) ([]db.DBColumnDefinition, error)`. -/
def getColumnDataFromStructExcludePrimaryKey (p : ProfileStore) :
    TableStruct → List DBColumnDefinition
  | [] => []
  | (field, _) :: rest =>
      match field.Tag.lookup "db" with
      | some columnName =>
          if field.Tag.lookup "primaryKey" = some "true" then
            getColumnDataFromStructExcludePrimaryKey p rest
          else
            { ColumnName := handleNamingConvention p columnName,
              ColumnType := some field.FieldType }
              :: getColumnDataFromStructExcludePrimaryKey p rest
      | none => getColumnDataFromStructExcludePrimaryKey p rest

/-- Embeds `func (p *ProfileStore) createTableForProfileStoreTableStruct(tableStruct interface{}) error`. -/
def createTableForProfileStoreTableStruct (p : ProfileStore) (tableStruct : TableStruct)
    (s : Store) : GoError × Store :=
  match getTableNameFromStruct p tableStruct with
  | .error err => (some err, s)
  | .ok tableName =>
      let definitions := getColumnDataFromStructExcludePrimaryKey p tableStruct
      DBConn.CreateTableIfNotExists s tableName definitions

/-- The zero values `ProfileRecord{}`, `TableName{}`, ... in the order in which
`ScaffoldProfileStore` builds their tables. -/
def scaffoldStructs : List TableStruct :=
  [ ProfileRecord 0 0, TableName 0 "", TableProfile 0 0 0 0, TableColumnName 0 0 "" 0,
    TableCustomColumnName 0 0 "" 0 "", TableColumnType 0 "" ]

/-- The statements of `ScaffoldProfileStore` up to the first error. -/
def scaffoldLoop (p : ProfileStore) : List TableStruct → Store → GoError × Store
  | [], s => (none, s)
  | tableStruct :: rest, s =>
      match createTableForProfileStoreTableStruct p tableStruct s with
      | (some err, s1) => (some err, s1)
      | (none, s1) => scaffoldLoop p rest s1

/-- Embeds `func (p *ProfileStore) ScaffoldProfileStore() error`. -/
def ScaffoldProfileStore (p : ProfileStore) (s : Store) : GoError × ProfileStore × Store :=
  match scaffoldLoop p scaffoldStructs s with
  | (some err, s1) => (some err, p, s1)
  | (none, s1) => (none, { p with tablesHaveBeenCreated := true }, s1)

/-- Embeds `func (p *ProfileStore) getOrInsertTableRowID(tableName string, values map[string]interface{}) (int, error)`. -/
def getOrInsertTableRowID (p : ProfileStore) (tableName : String)
    (values : GoMap GoInterface) (s : Store) : Outcome Int × Store :=
  let tableName := handleNamingConvention p tableName
  let values := handleColumnDataNamingConvention p values
  match DBConn.GetRowsSelectWhere s tableName ["id"] values with
  | (.error err, s1) => (.error err, s1)
  | (.ok rows, s1) =>
      match rows with
      | row :: _ => (.ok row.id, s1)
      | [] => DBConn.InsertRowAndReturnID s1 tableName values

/-- The map `columnDataMap` that `getOrInsertTableRowIDFromStruct` fills from
the fields of the struct. -/
def columnDataMapFromStruct (p : ProfileStore) :
    TableStruct → GoMap GoInterface → GoMap GoInterface
  | [], columnDataMap => columnDataMap
  | (field, value) :: rest, columnDataMap =>
      match field.Tag.lookup "db" with
      | some columnName =>
          if field.Tag.lookup "primaryKey" = some "true" then
            columnDataMapFromStruct p rest columnDataMap
          else
            columnDataMapFromStruct p rest
              (mapSet columnDataMap (handleNamingConvention p columnName) (some value))
      | none => columnDataMapFromStruct p rest columnDataMap

/-- Embeds `func (p *ProfileStore) getOrInsertTableRowIDFromStruct(tableStruct interface{}) (int, error)`. -/
def getOrInsertTableRowIDFromStruct (p : ProfileStore) (tableStruct : TableStruct)
    (s : Store) : Outcome Int × Store :=
  match getTableNameFromStruct p tableStruct with
  | .error err => (.error err, s)
  | .ok tableName =>
      let columnDataMap := columnDataMapFromStruct p tableStruct []
      getOrInsertTableRowID p tableName columnDataMap s

/-- Embeds `func (p *ProfileStore) RegisterTableColumn(tableNameID int, columnTypeID int, columnName string) (int, error)`. -/
def RegisterTableColumn (p : ProfileStore) (tableNameID columnTypeID : Int)
    (columnName : String) (s : Store) : Outcome Int × Store :=
  getOrInsertTableRowIDFromStruct p (TableColumnName 0 tableNameID columnName columnTypeID) s

/-- Embeds `func (p *ProfileStore) RegisterTableCustomColumn(tableNameID int, columnTypeID int, columnName string, columnDefinition string) (int, error)`. -/
def RegisterTableCustomColumn (p : ProfileStore) (tableNameID columnTypeID : Int)
    (columnName columnDefinition : String) (s : Store) : Outcome Int × Store :=
  getOrInsertTableRowIDFromStruct p
    (TableCustomColumnName 0 tableNameID columnName columnTypeID columnDefinition) s

/-- Embeds `func (p *ProfileStore) RegisterTable(tableName string) (int, error)`. -/
def RegisterTable (p : ProfileStore) (tableName : String) (s : Store) : Outcome Int × Store :=
  getOrInsertTableRowIDFromStruct p (TableName 0 tableName) s

/-- Embeds `func (p *ProfileStore) RegisterTableColumnType(columnDataType string) (int, error)`;
the mutex orders whole calls, and a call is one step here. -/
def RegisterTableColumnType (p : ProfileStore) (columnDataType : String) (s : Store) :
    Outcome Int × Store :=
  getOrInsertTableRowIDFromStruct p (TableColumnType 0 columnDataType) s

/-- Embeds `func (p *ProfileStore) RecordTableProfile(tableNameID int, rowCount int, profileID int) (int, error)`. -/
def RecordTableProfile (p : ProfileStore) (tableNameID rowCount profileID : Int) (s : Store) :
    Outcome Int × Store :=
  getOrInsertTableRowIDFromStruct p (TableProfile 0 tableNameID rowCount profileID) s

/-- The column definitions that `StoreColumnProfileData` builds before the
casing conversion. -/
def profileColumnDefinitions (p : ProfileStore) (profileResults : List ColumnProfileData) :
    List DBColumnDefinition :=
  [ { ColumnName := p.consts.TABLE_COLUMN_NAME_ID, ColumnType := some (.basic .int) },
    { ColumnName := p.consts.PROFILE_RECORD_ID, ColumnType := some (.basic .int) } ]
  ++ profileResults.map (fun data =>
      { ColumnName := data.name, ColumnType := resolveDataType data.data data.scanType })

/-- The loop of `StoreColumnProfileData` over the results when the table
exists: every missing column is added, up to the first error. -/
def ensureProfileColumns (p : ProfileStore) (profileTable : String) :
    List ColumnProfileData → Store → GoError × Store
  | [], s => (none, s)
  | data :: rest, s =>
      let columnName := handleNamingConvention p data.name
      match DBConn.DoesTableColumnExist s profileTable columnName with
      | ((columnExists, _), s1) =>
          if !columnExists then
            match DBConn.AddTableColumn s1 profileTable
                { ColumnName := columnName,
                  ColumnType := resolveDataType data.data data.scanType } with
            | (some err, s2) => (some err, s2)
            | (none, s2) => ensureProfileColumns p profileTable rest s2
          else
            ensureProfileColumns p profileTable rest s1

/-- The map `columnData` of `StoreColumnProfileData` before the casing conversion. -/
def profileColumnData (p : ProfileStore) (columnNamesID profileID : Int)
    (profileResults : List ColumnProfileData) : GoMap GoInterface :=
  let columnData : GoMap GoInterface :=
    mapSet (mapSet [] p.consts.TABLE_COLUMN_NAME_ID (some (.int columnNamesID)))
      p.consts.PROFILE_RECORD_ID (some (.int profileID))
  profileResults.foldl (fun columnData data => mapSet columnData data.name data.data)
    columnData

/-- The branch of `StoreColumnProfileData` on `tableExists`: the table is
created with all its columns, or every missing column is added to it. -/
def ensureProfileTable (p : ProfileStore) (profileTable : String)
    (columnDefinitions : List DBColumnDefinition) (profileResults : List ColumnProfileData)
    (tableExists : Bool) (s : Store) : GoError × Store :=
  if !tableExists then
    DBConn.CreateTable s profileTable columnDefinitions
  else
    ensureProfileColumns p profileTable profileResults s

/-- Embeds `func (p *ProfileStore) StoreColumnProfileData(columnNamesID int, columnType string, profileID int, profileResults []ColumnProfileData) error`. -/
def StoreColumnProfileData (p : ProfileStore) (columnNamesID : Int) (columnType : String)
    (profileID : Int) (profileResults : List ColumnProfileData) (s : Store) :
    Outcome Unit × Store :=
  let profileTable := getColumnProfileTableName p columnType
  let columnDefinitions :=
    handleDBColumnDefinitionArrNamingConvention p (profileColumnDefinitions p profileResults)
  let columnData :=
    handleColumnDataNamingConvention p
      (profileColumnData p columnNamesID profileID profileResults)
  match DBConn.DoesTableExist s profileTable with
  | ((tableExists, _), s1) =>
      match ensureProfileTable p profileTable columnDefinitions profileResults
          tableExists s1 with
      | (some err, s2) => (.error err, s2)
      | (none, s2) =>
          match DBConn.InsertRowAndReturnID s2 profileTable columnData with
          | (.panic msg, s3) => (.panic msg, s3)
          | (_, s3) => (.ok (), s3)

/-! ### Two fact writes at once

`StoreColumnProfileData` takes no lock (only `RegisterTableColumnType` locks
`p.mux`), so the calls that two tasks make through `p.dbConn` inside it can
alternate.  The function is cut at the point between its test on the table
and what it does with the answer. -/

/-- The first part of `StoreColumnProfileData`, up to
`tableExists, _ := p.dbConn.DoesTableExist(profileTable)`. -/
def StoreColumnProfileData.tableExists (p : ProfileStore) (columnType : String) (s : Store) :
    Bool × Store :=
  match DBConn.DoesTableExist s (getColumnProfileTableName p columnType) with
  | ((tableExists, _), s1) => (tableExists, s1)

/-- The second part of `StoreColumnProfileData`, from `if !tableExists` on. -/
def StoreColumnProfileData.afterCheck (p : ProfileStore) (columnNamesID : Int)
    (columnType : String) (profileID : Int) (profileResults : List ColumnProfileData)
    (tableExists : Bool) (s1 : Store) : Outcome Unit × Store :=
  let profileTable := getColumnProfileTableName p columnType
  let columnDefinitions :=
    handleDBColumnDefinitionArrNamingConvention p (profileColumnDefinitions p profileResults)
  let columnData :=
    handleColumnDataNamingConvention p
      (profileColumnData p columnNamesID profileID profileResults)
  match ensureProfileTable p profileTable columnDefinitions profileResults
      tableExists s1 with
  | (some err, s2) => (.error err, s2)
  | (none, s2) =>
      match DBConn.InsertRowAndReturnID s2 profileTable columnData with
      | (.panic msg, s3) => (.panic msg, s3)
      | (_, s3) => (.ok (), s3)

/-- Two calls of `StoreColumnProfileData` for columns of one driver type in one
run, by two tasks, in the schedule: test of the first, test of the second, rest
of the first, rest of the second.  The result is how the two calls ended. -/
def interleavedFactWrites (p : ProfileStore) (columnType : String) (profileID : Int)
    (columnNamesID1 : Int) (profileResults1 : List ColumnProfileData)
    (columnNamesID2 : Int) (profileResults2 : List ColumnProfileData) (s : Store) :
    (Outcome Unit × Outcome Unit) × Store :=
  let check1 := StoreColumnProfileData.tableExists p columnType s
  let check2 := StoreColumnProfileData.tableExists p columnType check1.2
  let rest1 := StoreColumnProfileData.afterCheck p columnNamesID1 columnType profileID
    profileResults1 check1.1 check2.2
  let rest2 := StoreColumnProfileData.afterCheck p columnNamesID2 columnType profileID
    profileResults2 check2.1 rest1.2
  ((rest1.1, rest2.1), rest2.2)

/-- The `CreateTable` calls of a log for a table. -/
def createTableCalls (calls : List DBCall) (tableName : String) : List DBCall :=
  calls.filter fun c =>
    match c with
    | .CreateTable t _ => t == tableName
    | _ => false

/-! ### Sample stores -/

/-- A store without tables and without calls. -/
def emptyStore : Store :=
  { tables := [], calls := [] }

/-- The results of one aggregate query: a maximum, and an average that is NULL. -/
def sampleResultsA : List ColumnProfileData :=
  [ { data := some (.int 5), name := "maximum", scanType := some (.basic .int64) },
    { data := none, name := "average", scanType := some (.slice (.basic .uint8)) } ]

/-- The results of another aggregate query: a maximum and a minimum. -/
def sampleResultsB : List ColumnProfileData :=
  [ { data := some (.int 9), name := "maximum", scanType := some (.basic .int64) },
    { data := some (.int 1), name := "minimum", scanType := some (.basic .int64) } ]

/-- The empty store after a first write of `INT4` facts. -/
def storeAfterFirstWrite : Store :=
  (StoreColumnProfileData (sampleProfileStore false) 7 "INT4" 1 sampleResultsA emptyStore).2

/-- The empty store after `ScaffoldProfileStore` in default mode. -/
def scaffoldedStore : Store :=
  (ScaffoldProfileStore (sampleProfileStore false) emptyStore).2.2

/-- The scaffolded store after two tasks have registered the driver type
`NUMERIC`, one call after the other as the mutex orders them. -/
def storeWithTypeRegistered : Store :=
  (RegisterTableColumnType (sampleProfileStore false) "NUMERIC"
    (RegisterTableColumnType (sampleProfileStore false) "NUMERIC" scaffoldedStore).2).2

/-- The natural key of the table `orders` in `table_names`. -/
def sampleKey : GoMap GoInterface :=
  [("table_name", some (.string "orders"))]

/-! ### The identifier forms the specification speaks of -/

/-- The spec's "lowercase ASCII word": a non-empty run of the letters `a`-`z`. -/
def specLowercaseWord (w : List Char) : Prop :=
  w ≠ [] ∧ ∀ c ∈ w, 97 ≤ c.toNat ∧ c.toNat ≤ 122

/-- Words joined by single occurrences of a separating character. -/
def joinWords (sep : Char) : List (List Char) → List Char
  | [] => []
  | [w] => w
  | w :: ws => w ++ sep :: joinWords sep ws

/-- The spec's "separator-word form": the words joined by single underscores. -/
def specSeparatorWordForm (ws : List (List Char)) : String :=
  ⟨joinWords '_' ws⟩

/-- A word with its first letter upper-cased. -/
def specCapitalize : List Char → List Char
  | [] => []
  | c :: cs => c.toUpper :: cs

/-- The spec's "capitalized-concatenated form": the words concatenated without
separators, each with its first letter upper-cased. -/
def specCapitalizedConcatenated (ws : List (List Char)) : String :=
  ⟨(ws.map specCapitalize).flatten⟩

/-! ## The orchestrator (`profiler.go`, `customdefinitions.go`) -/

/-- Embeds `type CustomColumnDefition struct`. -/
structure CustomColumnDefition where
  ColumnName : String
  ColumnDefinition : String
  deriving DecidableEq, Repr

/-- Embeds `type TableDefinition struct`. -/
structure TableDefinition where
  TableName : String
  Columns : List String
  CustomColumns : List CustomColumnDefition
  deriving DecidableEq, Repr

/-- Embeds `type ProfileDefinition struct`. -/
structure ProfileDefinition where
  FullProfileTables : List String
  CustomProfileTables : List TableDefinition
  deriving DecidableEq, Repr

/-- Embeds `func (p *ProfileStore) NewProfile() (int, error)`; `now` is the value of
`time.Now()`. -/
def NewProfile (p : ProfileStore) (now : Int) (s : Store) : Outcome Int × Store :=
  getOrInsertTableRowIDFromStruct p (ProfileRecord 0 now) s

/-- A goroutine that the orchestrator starts with `go`, with its arguments. -/
inductive Task where
  | profileTableChannel (tableName : String) (profileID : Int)
  | profileTableCustomColumnsChannel (tableDef : TableDefinition) (profileID : Int)
  deriving DecidableEq, Repr

/-- How a call of the orchestrator ends. -/
inductive RunEnd where
  /-- it returned this error (nil on success) -/
  | returned (err : GoError)
  /-- it waits on the channel forever: no task is left to send -/
  | blocked
  /-- it panicked -/
  | panicked (msg : String)
  deriving DecidableEq, Repr

/-- What a call of the orchestrator did: the goroutines it started, in order,
the number of outcomes it received, how it ended, and the store after the
calls that the orchestrator made itself. -/
structure Run where
  started : List Task
  received : Nat
  outcome : RunEnd
  store : Store
  deriving DecidableEq, Repr

/-- The join returned the nil error. -/
def JoinResult.returnedNil : JoinResult → Bool
  | .returned none _ _ => true
  | _ => false

/-- Embeds `func (p *Profiler) ProfileTablesByName(tableNames []string) error`;
`arrivals` are the outcomes that the started tasks send, in the order in which
the channel hands them over. -/
def ProfileTablesByName (p : ProfileStore) (tableNames : List String) (now : Int) (s : Store)
    (arrivals : List GoError) : Run :=
  match NewProfile p now s with
  | (.error err, s1) => { started := [], received := 0, outcome := .returned (some err), store := s1 }
  | (.panic msg, s1) => { started := [], received := 0, outcome := .panicked msg, store := s1 }
  | (.ok profileID, s1) =>
      let started := tableNames.map (fun tableName => Task.profileTableChannel tableName profileID)
      match waitForTableChannels arrivals tableNames.length with
      | .blocked received =>
          { started := started, received := received, outcome := .blocked, store := s1 }
      | .returned err received _ =>
          { started := started, received := received, outcome := .returned err, store := s1 }

/-- Embeds `func (p *Profiler) RunProfile(profile ProfileDefinition) error`;
`fullArrivals` and `customArrivals` are the outcomes that the tasks of the two
phases send, in the order in which the channel hands them over. -/
def RunProfile (p : ProfileStore) (profile : ProfileDefinition) (now : Int) (s : Store)
    (fullArrivals customArrivals : List GoError) : Run :=
  match NewProfile p now s with
  | (.error err, s1) => { started := [], received := 0, outcome := .returned (some err), store := s1 }
  | (.panic msg, s1) => { started := [], received := 0, outcome := .panicked msg, store := s1 }
  | (.ok profileID, s1) =>
      let fullTasks :=
        profile.FullProfileTables.map
          (fun tableName => Task.profileTableChannel tableName profileID)
      let customTasks :=
        profile.CustomProfileTables.map
          (fun table => Task.profileTableCustomColumnsChannel table profileID)
      let full : JoinResult :=
        if profile.FullProfileTables.length > 0 then
          waitForTableChannels fullArrivals profile.FullProfileTables.length
        else .returned none 0 []
      match full with
      | .blocked received =>
          { started := fullTasks, received := received, outcome := .blocked, store := s1 }
      | .returned (some err) received _ =>
          { started := fullTasks, received := received, outcome := .returned (some err),
            store := s1 }
      | .returned none received _ =>
          if profile.CustomProfileTables.length > 0 then
            match waitForTableChannels customArrivals profile.CustomProfileTables.length with
            | .blocked received2 =>
                { started := fullTasks ++ customTasks, received := received + received2,
                  outcome := .blocked, store := s1 }
            | .returned err received2 _ =>
                { started := fullTasks ++ customTasks, received := received + received2,
                  outcome := .returned err, store := s1 }
          else
            { started := fullTasks, received := received, outcome := .returned none,
              store := s1 }

/-- A profile definition with one full table and one custom table. -/
def sampleProfileDefinition : ProfileDefinition :=
  { FullProfileTables := ["missing"],
    CustomProfileTables :=
      [ { TableName := "orders", Columns := [],
          CustomColumns := [{ ColumnName := "tax_ratio", ColumnDefinition := "tax/total" }] } ] }

/-! ## The tasks (`profiler.go`) -/

/-- What a task reads from a `*sql.ColumnType`. -/
structure ColumnType where
  Name : String
  DatabaseTypeName : String
  ScanType : Option GoType
  deriving DecidableEq, Repr

/-- The `*sql.Rows` of a query: the result of `rows.ColumnTypes()` and the rows
in the order in which `rows.Next()` steps through them. -/
structure Rows where
  ColumnTypes : Except String (List ColumnType)
  data : List (List GoInterface)

/-- The target database, given by the answers of its connection to the
queries of the tasks; the tasks only read it. -/
structure TargetDB where
  /-- the answer to `select * from t limit 1` -/
  GetSelectAllColumnsSingle : String → Except String Rows
  /-- the answer to `select c1,c2,... from t limit 1` -/
  GetSelectSingle : String → List String → Except String Rows
  /-- the answer to `select e1,e2,... from t`; `GetRowsSelect` panics when it
  gets no connection -/
  GetRowsSelect : String → List String → Outcome Rows

/-- Embeds `func (p *PostgresConn) GetTableRowCount(tableName string) (int, error)`: the
first row of the count query is scanned into an `int`. -/
def TargetDB.GetTableRowCount (T : TargetDB) (tableName : String) : Outcome Int :=
  match T.GetRowsSelect tableName ["count(*) as count"] with
  | .error err => .error err
  | .panic msg => .panic msg
  | .ok rows =>
      match rows.data with
      | [some (.int count)] :: _ => .ok count
      | _ => .error "sql: Scan error"

/-- A call that a task makes on `p.targetDBConn` or on `p.profileStore`. -/
inductive ProfilerCall where
  | GetSelectAllColumnsSingle (tableName : String)
  | GetSelectSingle (tableName : String) (selects : List String)
  | GetRowsSelect (tableName : String) (selects : List String)
  | GetTableRowCount (tableName : String)
  | RegisterTable (tableName : String)
  | RegisterTableColumnType (columnDataType : String)
  | RegisterTableColumn (tableNameID columnTypeID : Int) (columnName : String)
  | RegisterTableCustomColumn (tableNameID columnTypeID : Int)
      (columnName columnDefinition : String)
  | RecordTableProfile (tableNameID rowCount profileID : Int)
  | StoreColumnProfileData (columnNamesID : Int) (columnType : String) (profileID : Int)
      (profileResults : List ColumnProfileData)
  | StoreCustomColumnProfileData (columnNamesID : Int) (columnType : ColumnType)
      (profileID : Int) (profileValue : GoInterface)
  deriving DecidableEq, Repr

/-- A call of a task together with how it ended. -/
structure Step where
  call : ProfilerCall
  result : Outcome Unit
  deriving DecidableEq, Repr

/-- The state that a task works on: the profile store, and the calls that the
task has made so far on either connection, oldest first. -/
structure World where
  store : Store
  steps : List Step
  deriving DecidableEq, Repr

/-- How a call ended, without the value it returned. -/
def Outcome.void {α : Type} : Outcome α → Outcome Unit
  | .ok _ => .ok ()
  | .error msg => .error msg
  | .panic msg => .panic msg

/-- The outcome of a method that returns `(T, error)` and does not panic. -/
def Outcome.ofExcept {α : Type} : Except String α → Outcome α
  | .ok a => .ok a
  | .error err => .error err

/-- A query on the target connection, recorded as a step. -/
def World.query {α : Type} (w : World) (call : ProfilerCall) (answer : Outcome α) :
    Outcome α × World :=
  (answer, { w with steps := w.steps ++ [{ call := call, result := answer.void }] })

/-- A call of a method of the profile store, recorded as a step. -/
def World.onStore {α : Type} (w : World) (call : ProfilerCall)
    (method : Store → Outcome α × Store) : Outcome α × World :=
  let r := method w.store
  (r.1, { store := r.2, steps := w.steps ++ [{ call := call, result := r.1.void }] })

/-- Embeds `func (p *ProfileStore) StoreCustomColumnProfileData(columnNamesID int, columnType *sql.ColumnType, profileID int, profileValue interface{}) error`. -/
def StoreCustomColumnProfileData (p : ProfileStore) (columnNamesID : Int)
    (columnType : ColumnType) (profileID : Int) (profileValue : GoInterface) (s : Store) :
    Outcome Unit × Store :=
  let profileTable := getCustomColumnProfileTableName p columnType.DatabaseTypeName
  let columnDefinitions : List DBColumnDefinition :=
    [ { ColumnName := p.consts.TABLE_CUSTOM_COLUMN_NAME_ID, ColumnType := some (.basic .int) },
      { ColumnName := p.consts.PROFILE_RECORD_ID, ColumnType := some (.basic .int) },
      { ColumnName := "value",
        ColumnType := resolveDataType profileValue columnType.ScanType } ]
  let columnDefinitions := handleDBColumnDefinitionArrNamingConvention p columnDefinitions
  match DBConn.DoesTableExist s profileTable with
  | ((tableExists, _), s1) =>
      let created : GoError × Store :=
        if !tableExists then DBConn.CreateTable s1 profileTable columnDefinitions
        else (none, s1)
      match created with
      | (some err, s2) => (.error err, s2)
      | (none, s2) =>
          let columnData : GoMap GoInterface :=
            mapSet (mapSet (mapSet [] p.consts.TABLE_CUSTOM_COLUMN_NAME_ID
              (some (.int columnNamesID))) p.consts.PROFILE_RECORD_ID (some (.int profileID)))
              "value" profileValue
          let columnData := handleColumnDataNamingConvention p columnData
          match DBConn.InsertRowAndReturnID s2 profileTable columnData with
          | (.panic msg, s3) => (.panic msg, s3)
          | (_, s3) => (.ok (), s3)

/-- The verbs `%s` of a format filled with one argument, as `fmt.Sprintf(format, arg)`
does: the first takes the argument, a later one has none. -/
def sprintfLoop (arg : List Char) : List Char → Bool → List Char
  | '%' :: 's' :: rest, used =>
      (if used then "%!s(MISSING)".data else arg) ++ sprintfLoop arg rest true
  | c :: rest, used => c :: sprintfLoop arg rest used
  | [], _ => []

/-- Embeds `fmt.Sprintf(format, arg)` for a format whose verbs are `%s`. -/
def Sprintf (format arg : String) : String :=
  ⟨sprintfLoop arg.data format.data false⟩

/-- The values that `rows.Scan` leaves in `n` destinations that start as nil:
the first row when there is one with `n` values, and nil values otherwise (the
task does not look at the error of `Scan`). -/
def scanFirstRow (n : Nat) (data : List (List GoInterface)) : List GoInterface :=
  match data with
  | row :: _ => if row.length = n then row else List.replicate n none
  | [] => List.replicate n none

/-- The `profileResults` that `handleProfileTableColumn` builds from the
columns and the scanned values of the aggregate query. -/
def profileResultsOf (profileColumnData : List ColumnType) (profileValues : List GoInterface) :
    List ColumnProfileData :=
  (profileValues.zip profileColumnData).map
    (fun vc => { data := vc.1, name := vc.2.Name, scanType := vc.2.ScanType })

/-- A call of a method of the profile store followed by
`if err != nil { return err }` and by the rest of the function, which gets the
value that the method returned; a panic of the method ends the function. -/
def World.callStore {α : Type} (w : World) (call : ProfilerCall)
    (method : Store → Outcome α × Store) (rest : α → World → Outcome Unit × World) :
    Outcome Unit × World :=
  match w.onStore call method with
  | (.error err, w1) => (.error err, w1)
  | (.panic msg, w1) => (.panic msg, w1)
  | (.ok a, w1) => rest a w1

/-- A query on the target connection followed by `if err != nil { return err }`
and by the rest of the function, which gets the answer; a panic of the query
ends the function. -/
def World.callTarget {α : Type} (w : World) (call : ProfilerCall) (answer : Outcome α)
    (rest : α → World → Outcome Unit × World) : Outcome Unit × World :=
  match w.query call answer with
  | (.error err, w1) => (.error err, w1)
  | (.panic msg, w1) => (.panic msg, w1)
  | (.ok a, w1) => rest a w1

/-- A call of a function of the task followed by `if err != nil { return err }`
and by the rest of the calling function; a panic of the called function ends
the calling function. -/
def andThen (r : Outcome Unit × World) (rest : World → Outcome Unit × World) :
    Outcome Unit × World :=
  match r with
  | (.error err, w1) => (.error err, w1)
  | (.panic msg, w1) => (.panic msg, w1)
  | (.ok _, w1) => rest w1

/-- Embeds `func (p *Profiler) handleProfileTableColumn(tableName TableName, profileID int, columnData *sql.ColumnType) error`;
the struct `tableName` is given by its two fields. -/
def handleProfileTableColumn (T : TargetDB) (p : ProfileStore) (tableNameID : Int)
    (tableName : String) (profileID : Int) (columnData : ColumnType) (w : World) :
    Outcome Unit × World :=
  w.callStore (.RegisterTableColumnType columnData.DatabaseTypeName)
    (RegisterTableColumnType p columnData.DatabaseTypeName) fun columnTypeID w1 =>
  w1.callStore (.RegisterTableColumn tableNameID columnTypeID columnData.Name)
    (RegisterTableColumn p tableNameID columnTypeID columnData.Name) fun columnNamesID w2 =>
  let columnNameEscaped := "\"" ++ columnData.Name ++ "\""
  let profiles := ProfilesByType columnData.DatabaseTypeName
  let profileSelects := profiles.map
    (fun cp => Sprintf cp.2 columnNameEscaped ++ " as \"" ++ cp.1 ++ "\"")
  w2.callTarget (.GetRowsSelect tableName profileSelects)
    (T.GetRowsSelect tableName profileSelects) fun rows w3 =>
  match rows.ColumnTypes with
  | .error err => (.error err, w3)
  | .ok profileColumnData =>
      let profileValues := scanFirstRow profileColumnData.length rows.data
      let profileResults := profileResultsOf profileColumnData profileValues
      w3.callStore
        (.StoreColumnProfileData columnNamesID columnData.DatabaseTypeName profileID
          profileResults)
        (StoreColumnProfileData p columnNamesID columnData.DatabaseTypeName profileID
          profileResults)
        fun _ w4 => (.ok (), w4)

/-- Embeds `func (p *Profiler) handleProfileTableColumns(tableName TableName, profileID int, columnsData []*sql.ColumnType) error`. -/
def handleProfileTableColumns (T : TargetDB) (p : ProfileStore) (tableNameID : Int)
    (tableName : String) (profileID : Int) : List ColumnType → World → Outcome Unit × World
  | [], w => (.ok (), w)
  | columnData :: rest, w =>
      andThen (handleProfileTableColumn T p tableNameID tableName profileID columnData w)
        (handleProfileTableColumns T p tableNameID tableName profileID rest)

/-- Embeds `func (p *Profiler) recordTableRowCount(tableName TableName, profileID int) error`. -/
def recordTableRowCount (T : TargetDB) (p : ProfileStore) (tableNameID : Int)
    (tableName : String) (profileID : Int) (w : World) : Outcome Unit × World :=
  w.callTarget (.GetTableRowCount tableName) (T.GetTableRowCount tableName)
    fun rowCount w1 =>
  w1.callStore (.RecordTableProfile tableNameID rowCount profileID)
    (RecordTableProfile p tableNameID rowCount profileID) fun _ w2 => (.ok (), w2)

/-- Embeds `func (p *Profiler) profileTableWithColumnsData(tableName string, profileID int, columnsData []*sql.ColumnType) error`. -/
def profileTableWithColumnsData (T : TargetDB) (p : ProfileStore) (tableName : String)
    (profileID : Int) (columnsData : List ColumnType) (w : World) : Outcome Unit × World :=
  w.callStore (.RegisterTable tableName) (RegisterTable p tableName) fun tableNameID w1 =>
  andThen (recordTableRowCount T p tableNameID tableName profileID w1)
    (handleProfileTableColumns T p tableNameID tableName profileID columnsData)

/-- Embeds `func (p *Profiler) profileTable(tableName string, profileID int) error`, the
task of a full table. -/
def profileTable (T : TargetDB) (p : ProfileStore) (tableName : String) (profileID : Int)
    (w : World) : Outcome Unit × World :=
  w.callTarget (.GetSelectAllColumnsSingle tableName)
    (.ofExcept (T.GetSelectAllColumnsSingle tableName))
    fun rows w1 =>
  match rows.ColumnTypes with
  | .error err => (.error err, w1)
  | .ok columnsData => profileTableWithColumnsData T p tableName profileID columnsData w1

/-- Embeds `func (p *Profiler) profileTableDefinedColumns(tableName string, profileID int, columns []string) error`. -/
def profileTableDefinedColumns (T : TargetDB) (p : ProfileStore) (tableName : String)
    (profileID : Int) (columns : List String) (w : World) : Outcome Unit × World :=
  w.callTarget (.GetSelectSingle tableName columns)
    (.ofExcept (T.GetSelectSingle tableName columns))
    fun rows w1 =>
  match rows.ColumnTypes with
  | .error err => (.error err, w1)
  | .ok columnsData => profileTableWithColumnsData T p tableName profileID columnsData w1

/-- The search of `profileTableCustomColumns` for the definition of a result
column: the first custom column whose lower-cased name is the column's name. -/
def customColumnDefinition (customColumns : List CustomColumnDefition) (name : String) :
    String :=
  match customColumns.find? (fun col => ToLower col.ColumnName == name) with
  | some col => col.ColumnDefinition
  | none => ""

/-- The loop of `profileTableCustomColumns` over the result columns and their
sampled values. -/
def customColumnsLoop (p : ProfileStore) (tableDef : TableDefinition) (tableNameID : Int)
    (profileID : Int) : List (ColumnType × GoInterface) → World → Outcome Unit × World
  | [], w => (.ok (), w)
  | (columnData, profileValue) :: rest, w =>
      w.callStore (.RegisterTableColumnType columnData.DatabaseTypeName)
        (RegisterTableColumnType p columnData.DatabaseTypeName) fun columnTypeID w1 =>
      let colDefinition := customColumnDefinition tableDef.CustomColumns columnData.Name
      w1.callStore
        (.RegisterTableCustomColumn tableNameID columnTypeID columnData.Name colDefinition)
        (RegisterTableCustomColumn p tableNameID columnTypeID columnData.Name colDefinition)
        fun columnNamesID w2 =>
      w2.callStore
        (.StoreCustomColumnProfileData columnNamesID columnData profileID profileValue)
        (StoreCustomColumnProfileData p columnNamesID columnData profileID profileValue)
        fun _ w3 => customColumnsLoop p tableDef tableNameID profileID rest w3

/-- Embeds `func (p *Profiler) profileTableCustomColumns(tableDef TableDefinition, profileID int) error`,
the task of a custom table.  The source defers `rows.Close()` before it looks
at the error of the query; on an error `rows` is nil, and the deferred call on
the nil `*sql.Rows` panics when the function returns. -/
def profileTableCustomColumns (T : TargetDB) (p : ProfileStore) (tableDef : TableDefinition)
    (profileID : Int) (w : World) : Outcome Unit × World :=
  w.callStore (.RegisterTable tableDef.TableName) (RegisterTable p tableDef.TableName)
    fun tableNameID w1 =>
  let selects := tableDef.CustomColumns.map
    (fun col => col.ColumnDefinition ++ " as " ++ col.ColumnName)
  match w1.query (.GetRowsSelect tableDef.TableName selects)
      (T.GetRowsSelect tableDef.TableName selects) with
  | (.error _, w2) =>
      (.panic "runtime error: invalid memory address or nil pointer dereference", w2)
  | (.panic msg, w2) => (.panic msg, w2)
  | (.ok rows, w2) =>
      match rows.ColumnTypes with
      | .error err => (.error err, w2)
      | .ok columnsData =>
          match rows.data with
          | [] => (.error "failed to get results from query", w2)
          | _ :: _ =>
              let profileValues := scanFirstRow columnsData.length rows.data
              andThen
                (customColumnsLoop p tableDef tableNameID profileID
                  (columnsData.zip profileValues) w2)
                fun w3 =>
                  if tableDef.Columns.length > 0 then
                    profileTableDefinedColumns T p tableDef.TableName profileID
                      tableDef.Columns w3
                  else (.ok (), w3)

/-! ### The shape of the calls of a task -/

/-- The name of the method that a call invokes. -/
def ProfilerCall.name : ProfilerCall → String
  | .GetSelectAllColumnsSingle _ => "GetSelectAllColumnsSingle"
  | .GetSelectSingle _ _ => "GetSelectSingle"
  | .GetRowsSelect _ _ => "GetRowsSelect"
  | .GetTableRowCount _ => "GetTableRowCount"
  | .RegisterTable _ => "RegisterTable"
  | .RegisterTableColumnType _ => "RegisterTableColumnType"
  | .RegisterTableColumn _ _ _ => "RegisterTableColumn"
  | .RegisterTableCustomColumn _ _ _ _ => "RegisterTableCustomColumn"
  | .RecordTableProfile _ _ _ => "RecordTableProfile"
  | .StoreColumnProfileData _ _ _ _ => "StoreColumnProfileData"
  | .StoreCustomColumnProfileData _ _ _ _ => "StoreCustomColumnProfileData"

/-- The methods that `handleProfileTableColumn` calls for one column, in order. -/
def columnCalls : List String :=
  ["RegisterTableColumnType", "RegisterTableColumn", "GetRowsSelect", "StoreColumnProfileData"]

/-- The methods that `profileTableWithColumnsData` calls for `n` columns, in order. -/
def tableCalls (n : Nat) : List String :=
  ["RegisterTable", "GetTableRowCount", "RecordTableProfile"]
    ++ (List.replicate n columnCalls).flatten

/-- The methods that the task of a full table with `n` columns calls, in order. -/
def fullTableCalls (n : Nat) : List String :=
  "GetSelectAllColumnsSingle" :: tableCalls n

/-- The columns that the one-row sample of a table reports; none when the
sample fails. -/
def sampledColumns (T : TargetDB) (tableName : String) : List ColumnType :=
  match T.GetSelectAllColumnsSingle tableName with
  | .ok rows =>
      match rows.ColumnTypes with
      | .ok columnsData => columnsData
      | .error _ => []
  | .error _ => []

/-- A run of calls against the methods expected in order: `Calls names out steps`
says that `steps` are calls of the first methods of `names`, in order, that
every call but the last ended without error, and that the function ended with
`out`: with the result of the last call when that call failed, with nil after
all the calls of `names`, or with an error of its own after calls that all
ended without error. -/
inductive Calls : List String → Outcome Unit → List Step → Prop where
  | done : Calls [] (.ok ()) []
  | ownError (names : List String) (err : String) : Calls names (.error err) []
  | next (names : List String) (step : Step) (out : Outcome Unit) (rest : List Step) :
      step.result = .ok () → Calls names out rest →
      Calls (step.call.name :: names) out (step :: rest)
  | failed (names : List String) (step : Step) :
      step.result ≠ .ok () → Calls (step.call.name :: names) step.result [step]

/-- The function that took the world `w` to the result `r` made the calls
`names`, in the sense of `Calls`. -/
def RunsCalls (names : List String) (w : World) (r : Outcome Unit × World) : Prop :=
  ∃ new, r.2.steps = w.steps ++ new ∧ Calls names r.1 new

/-! ### A sample target database -/

/-- The select list of the aggregate query for a numeric column `total`, in the
order of the map of `ProfilesByType`. -/
def totalSelects : List String :=
  [ "max(\"total\") as \"maximum\"", "min(\"total\") as \"minimum\"",
    "avg(\"total\") as \"average\"" ]

/-- A target database with one table `orders(total numeric, paid bool)` of ten rows. -/
def sampleTarget : TargetDB :=
  { GetSelectAllColumnsSingle := fun tableName =>
      if tableName = "orders" then
        .ok { ColumnTypes := .ok
                [ { Name := "total", DatabaseTypeName := "NUMERIC",
                    ScanType := some (.interface "") },
                  { Name := "paid", DatabaseTypeName := "BOOL",
                    ScanType := some (.basic .bool) } ],
              data := [[some (.bytes [49, 50]), some (.other (.basic .bool) "true")]] }
      else .error "pq: relation does not exist"
    GetSelectSingle := fun tableName columns =>
      if tableName = "orders" ∧ columns = ["total"] then
        .ok { ColumnTypes := .ok
                [ { Name := "total", DatabaseTypeName := "NUMERIC",
                    ScanType := some (.interface "") } ],
              data := [[some (.bytes [49, 50])]] }
      else .error "pq: relation or column does not exist"
    GetRowsSelect := fun tableName selects =>
      if tableName ≠ "orders" then .error "pq: relation does not exist"
      else if selects = ["count(*) as count"] then
        .ok { ColumnTypes := .ok
                [ { Name := "count", DatabaseTypeName := "INT8",
                    ScanType := some (.basic .int64) } ],
              data := [[some (.int 10)]] }
      else if selects = totalSelects then
        .ok { ColumnTypes := .ok
                [ { Name := "maximum", DatabaseTypeName := "NUMERIC",
                    ScanType := some (.interface "") },
                  { Name := "minimum", DatabaseTypeName := "NUMERIC",
                    ScanType := some (.interface "") },
                  { Name := "average", DatabaseTypeName := "NUMERIC",
                    ScanType := some (.interface "") } ],
              data := [[some (.bytes [57, 57]), some (.bytes [49]), some (.bytes [49, 50])]] }
      else if selects = [] then
        .ok { ColumnTypes := .ok [], data := List.replicate 10 [] }
      else if selects = ["tax/total as tax_ratio"] then
        .ok { ColumnTypes := .ok
                [ { Name := "tax_ratio", DatabaseTypeName := "NUMERIC",
                    ScanType := some (.interface "") } ],
              data := List.replicate 10 [some (.bytes [48, 46, 49])] }
      else .error "pq: syntax error" }

/-- The column `paid` of the sample table, of a driver type without aggregates. -/
def samplePaidColumn : ColumnType :=
  { Name := "paid", DatabaseTypeName := "BOOL", ScanType := some (.basic .bool) }

/-- The world of a task that starts on the scaffolded store. -/
def sampleWorld : World :=
  { store := scaffoldedStore, steps := [] }

/-- The scaffolded store with a table under the name of the `NUMERIC` fact
table that has another layout. -/
def storeWithForeignFactTable : Store :=
  (PostgresConn.CreateTable scaffoldedStore "table_column_profile_NUMERIC"
    [{ ColumnName := "note", ColumnType := some (.basic .string) }]).2

/-- The spec's "`table_profiles` row for the pair (t, r)": a row whose table-name
id is `t` and whose profile-record id is `r`. -/
def specTableProfileRowFor (p : ProfileStore) (t r : Int) (row : PgRow) : Bool :=
  row.cells.lookup (ToLower (handleNamingConvention p "table_name_id")) == some (some (.int t))
    && row.cells.lookup (ToLower (handleNamingConvention p "profile_record_id"))
        == some (some (.int r))

/-! ### The calls of a full-table task with their arguments -/

/-- The id that a registration returned; 0 when it returned none. -/
def returnedID : Outcome Int → Int
  | .ok id => id
  | _ => 0

/-- The select list of the aggregate query of a column, as
`handleProfileTableColumn` builds it. -/
def specAggregateSelects (columnData : ColumnType) : List String :=
  let columnNameEscaped := "\"" ++ columnData.Name ++ "\""
  (ProfilesByType columnData.DatabaseTypeName).map
    (fun cp => Sprintf cp.2 columnNameEscaped ++ " as \"" ++ cp.1 ++ "\"")

/-- The results of the aggregate query of a column as `handleProfileTableColumn`
hands them to the fact write; none when the query fails. -/
def specAggregateResults (T : TargetDB) (tableName : String) (columnData : ColumnType) :
    List ColumnProfileData :=
  match T.GetRowsSelect tableName (specAggregateSelects columnData) with
  | .ok rows =>
      match rows.ColumnTypes with
      | .ok profileColumnData =>
          profileResultsOf profileColumnData
            (scanFirstRow profileColumnData.length rows.data)
      | .error _ => []
  | _ => []

/-- The four calls that are listed for one column, with the arguments they get
when each call before them has succeeded on the store `s`, and the store after
them: the registration of the type of the column, the registration of the
column under the id of the table and the id of the type, the aggregate query
of the column, and the fact write under the id of the column. -/
def specColumnCalls (T : TargetDB) (p : ProfileStore) (tableNameID : Int)
    (tableName : String) (profileID : Int) (columnData : ColumnType) (s : Store) :
    List ProfilerCall × Store :=
  let registeredType := RegisterTableColumnType p columnData.DatabaseTypeName s
  let columnTypeID := returnedID registeredType.1
  let registeredColumn :=
    RegisterTableColumn p tableNameID columnTypeID columnData.Name registeredType.2
  let columnNamesID := returnedID registeredColumn.1
  let profileResults := specAggregateResults T tableName columnData
  ([ .RegisterTableColumnType columnData.DatabaseTypeName,
     .RegisterTableColumn tableNameID columnTypeID columnData.Name,
     .GetRowsSelect tableName (specAggregateSelects columnData),
     .StoreColumnProfileData columnNamesID columnData.DatabaseTypeName profileID
       profileResults ],
   (StoreColumnProfileData p columnNamesID columnData.DatabaseTypeName profileID
     profileResults registeredColumn.2).2)

/-- The calls that are listed for the columns of a table, one column after the
other, and the store after them. -/
def specColumnsCalls (T : TargetDB) (p : ProfileStore) (tableNameID : Int)
    (tableName : String) (profileID : Int) :
    List ColumnType → Store → List ProfilerCall × Store
  | [], s => ([], s)
  | columnData :: rest, s =>
      let first := specColumnCalls T p tableNameID tableName profileID columnData s
      let others := specColumnsCalls T p tableNameID tableName profileID rest first.2
      (first.1 ++ others.1, others.2)

/-- The row count that the count query of the target reports; 0 when it fails. -/
def countedRows (T : TargetDB) (tableName : String) : Int :=
  returnedID (T.GetTableRowCount tableName)

/-- The calls that are listed for a table once its columns are sampled, on the
store `s`, and the store after them: the registration of the table, the
row-count query, the row-count write under the id of the table, and the calls
of each column. -/
def specTableCalls (T : TargetDB) (p : ProfileStore) (tableName : String)
    (profileID : Int) (columnsData : List ColumnType) (s : Store) :
    List ProfilerCall × Store :=
  let registeredTable := RegisterTable p tableName s
  let tableNameID := returnedID registeredTable.1
  let rowCount := countedRows T tableName
  let columns := specColumnsCalls T p tableNameID tableName profileID columnsData
    (RecordTableProfile p tableNameID rowCount profileID registeredTable.2).2
  ([ .RegisterTable tableName,
     .GetTableRowCount tableName,
     .RecordTableProfile tableNameID rowCount profileID ] ++ columns.1,
   columns.2)

/-- The calls that are listed for a full-table task that starts on the store
`s`, in order and with their arguments: the one-row sample of the table, and
the calls for the table with the columns that the sample reports. -/
def specFullTableCalls (T : TargetDB) (p : ProfileStore) (tableName : String)
    (profileID : Int) (s : Store) : List ProfilerCall :=
  .GetSelectAllColumnsSingle tableName
    :: (specTableCalls T p tableName profileID (sampledColumns T tableName) s).1

/-- A run of calls against the calls expected in order: `Follows expected out
steps` says that `steps` are the first calls of `expected`, in order and with
their arguments, that every call but the last ended without error, and that the
function ended with `out`: with the result of the last call when that call
failed, with nil after all the calls of `expected`, or with an error of its own
after calls that all ended without error. -/
inductive Follows : List ProfilerCall → Outcome Unit → List Step → Prop where
  | done : Follows [] (.ok ()) []
  | ownError (expected : List ProfilerCall) (err : String) : Follows expected (.error err) []
  | next (expected : List ProfilerCall) (step : Step) (out : Outcome Unit)
      (rest : List Step) :
      step.result = .ok () → Follows expected out rest →
      Follows (step.call :: expected) out (step :: rest)
  | failed (expected : List ProfilerCall) (step : Step) :
      step.result ≠ .ok () → Follows (step.call :: expected) step.result [step]

/-- The function that took the world `w` to the result `r` made the calls
`expected`, in the sense of `Follows`, and left the store `after` when it
returned nil. -/
def RunsExactly (expected : List ProfilerCall) (after : Store) (w : World)
    (r : Outcome Unit × World) : Prop :=
  ∃ new, r.2.steps = w.steps ++ new ∧ Follows expected r.1 new ∧
    (r.1 = .ok () → r.2.store = after)

/-! ### Rows and ids of the store -/

/-- The ids of the rows of a table are pairwise distinct and none is beyond the
last value drawn from the sequence of the table. -/
def PgTable.idsUnique (t : PgTable) : Prop :=
  (t.rows.map (fun r => r.id)).Nodup ∧ ∀ r ∈ t.rows, r.id ≤ t.serial

/-- Every table of the catalog has the ids of a serial primary key. -/
def Store.idsUnique (s : Store) : Prop :=
  ∀ kt ∈ s.tables, kt.2.idsUnique

instance (t : PgTable) : Decidable t.idsUnique :=
  inferInstanceAs
    (Decidable ((t.rows.map (fun r : PgRow => r.id)).Nodup ∧ ∀ r ∈ t.rows, r.id ≤ t.serial))

instance (s : Store) : Decidable s.idsUnique :=
  inferInstanceAs (Decidable (∀ kt ∈ s.tables, kt.2.idsUnique))

/-- Every row of the first store is a row of the second. -/
def Store.keepsRows (s s1 : Store) : Prop :=
  ∀ name, ∀ r ∈ s.rowsOf name, r ∈ s1.rowsOf name

/-- The second store is the first after calls that keep the rows and the
uniqueness of the ids. -/
def Store.grownTo (s s1 : Store) : Prop :=
  (s.idsUnique → s1.idsUnique) ∧ s.keepsRows s1

/-! ### The tasks of a run, one after the other -/

/-- Embeds the bodies of `profileTableChannel` and
`profileTableCustomColumnsChannel` up to the send on the channel: the task
function that the goroutine runs. -/
def Task.run (T : TargetDB) (p : ProfileStore) : Task → World → Outcome Unit × World
  | .profileTableChannel tableName profileID, w => profileTable T p tableName profileID w
  | .profileTableCustomColumnsChannel tableDef profileID, w =>
      profileTableCustomColumns T p tableDef profileID w

/-- The schedule in which the tasks of a run work one after the other, each to
its end; a task that panics ends the program. -/
def runTasksInTurn (T : TargetDB) (p : ProfileStore) : List Task → World → World
  | [], w => w
  | task :: rest, w =>
      match task.run T p w with
      | (.panic _, w1) => w1
      | (_, w1) => runTasksInTurn T p rest w1

/-- The (column-name id, profile-record id) pairs of the fact writes among the
calls, in the order of the calls. -/
def factPairs (steps : List Step) : List (Int × Int) :=
  steps.filterMap fun st =>
    match st.call with
    | .StoreColumnProfileData columnNamesID _ profileID _ => some (columnNamesID, profileID)
    | _ => none

/-- The columns that the one-row sample of the given columns of a table
reports; none when the sample fails. -/
def definedColumns (T : TargetDB) (tableName : String) (columns : List String) :
    List ColumnType :=
  match T.GetSelectSingle tableName columns with
  | .ok rows =>
      match rows.ColumnTypes with
      | .ok columnsData => columnsData
      | .error _ => []
  | .error _ => []

/-- The (table name, column name) pairs whose aggregates a task writes to the
per-type fact tables when nothing fails: every sampled column for a full table,
and the sampled `Columns` for a custom table that lists any. -/
def Task.profiledColumns (T : TargetDB) : Task → List (String × String)
  | .profileTableChannel tableName _ =>
      (sampledColumns T tableName).map fun c => (tableName, c.Name)
  | .profileTableCustomColumnsChannel tableDef _ =>
      if tableDef.Columns.length > 0 then
        (definedColumns T tableDef.TableName tableDef.Columns).map
          fun c => (tableDef.TableName, c.Name)
      else []

/-- A profile definition with the sample table as its one full table. -/
def sampleOrdersProfile : ProfileDefinition :=
  { FullProfileTables := ["orders"], CustomProfileTables := [] }

/-- A profile definition that lists the sample table twice. -/
def profileWithRepeatedTable : ProfileDefinition :=
  { FullProfileTables := ["orders", "orders"], CustomProfileTables := [] }

/-! ## The tasks as calls on the shared store, one call at a time

The tasks of a run are goroutines that share the profile store.  Each call
through `p.dbConn` is one statement on the database and is one step here; the
calls of different tasks may alternate in any order.  A function is given by
the calls it makes: `Prog α` is a function that is about to return, or that is
about to make a call and goes on with the answer. -/

/-- A function of the profiler at a point of its run: it has returned (or
panicked), or it makes a call through `p.dbConn` next and goes on with the
answer.  An insert carries the (column-name id, profile-record id) pair of its
row when it is the insert of a fact row of `StoreColumnProfileData`. -/
inductive Prog (α : Type) where
  | ret (out : Outcome α)
  | DoesTableExist (tableName : String) (k : Bool × GoError → Prog α)
  | CreateTable (tableName : String) (columns : List DBColumnDefinition)
      (k : GoError → Prog α)
  | DoesTableColumnExist (tableName columnName : String) (k : Bool × GoError → Prog α)
  | AddTableColumn (tableName : String) (column : DBColumnDefinition) (k : GoError → Prog α)
  | InsertRowAndReturnID (tableName : String) (values : GoMap GoInterface)
      (fact : Option (Int × Int)) (k : Int → Prog α)
  | GetRowsSelectWhere (tableName : String) (selects : List String)
      (wheres : GoMap GoInterface) (k : Except String (List PgRow) → Prog α)

/-- How the function goes on after an insert: with the id, or it ends with the
panic of `InsertRowAndReturnID`. -/
def Prog.afterInsert {α : Type} (k : Int → Prog α) : Outcome Int → Prog α
  | .ok id => k id
  | .error err => .ret (.error err)
  | .panic msg => .ret (.panic msg)

/-- The fact pairs that a call adds to the fact tables: the pair of a fact
insert that returned an id. -/
def insertedFact (fact : Option (Int × Int)) : Outcome Int → List (Int × Int)
  | .ok _ => fact.toList
  | _ => []

/-- One step: the next call of the function is made on the store.  The result
is the function after the call, the store after the call and the fact pairs
that the call inserted. -/
def Prog.step {α : Type} : Prog α → Store → Prog α × Store × List (Int × Int)
  | .ret out, s => (.ret out, s, [])
  | .DoesTableExist tableName k, s =>
      (k (DBConn.DoesTableExist s tableName).1, (DBConn.DoesTableExist s tableName).2, [])
  | .CreateTable tableName columns k, s =>
      (k (DBConn.CreateTable s tableName columns).1,
        (DBConn.CreateTable s tableName columns).2, [])
  | .DoesTableColumnExist tableName columnName k, s =>
      (k (DBConn.DoesTableColumnExist s tableName columnName).1,
        (DBConn.DoesTableColumnExist s tableName columnName).2, [])
  | .AddTableColumn tableName column k, s =>
      (k (DBConn.AddTableColumn s tableName column).1,
        (DBConn.AddTableColumn s tableName column).2, [])
  | .InsertRowAndReturnID tableName values fact k, s =>
      (Prog.afterInsert k (DBConn.InsertRowAndReturnID s tableName values).1,
        (DBConn.InsertRowAndReturnID s tableName values).2,
        insertedFact fact (DBConn.InsertRowAndReturnID s tableName values).1)
  | .GetRowsSelectWhere tableName selects wheres k, s =>
      (k (DBConn.GetRowsSelectWhere s tableName selects wheres).1,
        (DBConn.GetRowsSelectWhere s tableName selects wheres).2, [])

/-- The function run to its end with no other task in between. -/
def Prog.run {α : Type} : Prog α → Store → Outcome α × Store
  | .ret out, s => (out, s)
  | .DoesTableExist tableName k, s =>
      (k (DBConn.DoesTableExist s tableName).1).run (DBConn.DoesTableExist s tableName).2
  | .CreateTable tableName columns k, s =>
      (k (DBConn.CreateTable s tableName columns).1).run
        (DBConn.CreateTable s tableName columns).2
  | .DoesTableColumnExist tableName columnName k, s =>
      (k (DBConn.DoesTableColumnExist s tableName columnName).1).run
        (DBConn.DoesTableColumnExist s tableName columnName).2
  | .AddTableColumn tableName column k, s =>
      (k (DBConn.AddTableColumn s tableName column).1).run
        (DBConn.AddTableColumn s tableName column).2
  | .InsertRowAndReturnID tableName values _ k, s =>
      match DBConn.InsertRowAndReturnID s tableName values with
      | (.ok id, s1) => (k id).run s1
      | (.error err, s1) => (.error err, s1)
      | (.panic msg, s1) => (.panic msg, s1)
  | .GetRowsSelectWhere tableName selects wheres k, s =>
      (k (DBConn.GetRowsSelectWhere s tableName selects wheres).1).run
        (DBConn.GetRowsSelectWhere s tableName selects wheres).2

/-- A call of a function followed by `if err != nil { return err }` and by the
rest of the calling function, which gets the value that the call returned; a
panic of the called function ends the calling function. -/
def Prog.bind {α β : Type} : Prog α → (α → Prog β) → Prog β
  | .ret (.ok a), f => f a
  | .ret (.error err), _ => .ret (.error err)
  | .ret (.panic msg), _ => .ret (.panic msg)
  | .DoesTableExist tableName k, f => .DoesTableExist tableName fun r => (k r).bind f
  | .CreateTable tableName columns k, f =>
      .CreateTable tableName columns fun r => (k r).bind f
  | .DoesTableColumnExist tableName columnName k, f =>
      .DoesTableColumnExist tableName columnName fun r => (k r).bind f
  | .AddTableColumn tableName column k, f =>
      .AddTableColumn tableName column fun r => (k r).bind f
  | .InsertRowAndReturnID tableName values fact k, f =>
      .InsertRowAndReturnID tableName values fact fun r => (k r).bind f
  | .GetRowsSelectWhere tableName selects wheres k, f =>
      .GetRowsSelectWhere tableName selects wheres fun r => (k r).bind f

/-- The answer of a query on the target, which the tasks only read, as a
function that has returned. -/
def Prog.ofTarget {α : Type} : Outcome α → Prog α
  | out => .ret out

namespace Stepwise

/-- Embeds `func (p *ProfileStore) getOrInsertTableRowID(tableName string, values map[string]interface{}) (int, error)`
call by call. -/
def getOrInsertTableRowID (p : ProfileStore) (tableName : String)
    (values : GoMap GoInterface) : Prog Int :=
  let tableName := handleNamingConvention p tableName
  let values := handleColumnDataNamingConvention p values
  .GetRowsSelectWhere tableName ["id"] values fun answer =>
    match answer with
    | .error err => .ret (.error err)
    | .ok rows =>
        match rows with
        | row :: _ => .ret (.ok row.id)
        | [] => .InsertRowAndReturnID tableName values none fun id => .ret (.ok id)

/-- Embeds `func (p *ProfileStore) getOrInsertTableRowIDFromStruct(tableStruct interface{}) (int, error)`
call by call. -/
def getOrInsertTableRowIDFromStruct (p : ProfileStore) (tableStruct : TableStruct) :
    Prog Int :=
  match getTableNameFromStruct p tableStruct with
  | .error err => .ret (.error err)
  | .ok tableName =>
      let columnDataMap := columnDataMapFromStruct p tableStruct []
      getOrInsertTableRowID p tableName columnDataMap

/-- Embeds `RegisterTableColumn` call by call. -/
def RegisterTableColumn (p : ProfileStore) (tableNameID columnTypeID : Int)
    (columnName : String) : Prog Int :=
  getOrInsertTableRowIDFromStruct p (TableColumnName 0 tableNameID columnName columnTypeID)

/-- Embeds `RegisterTableCustomColumn` call by call. -/
def RegisterTableCustomColumn (p : ProfileStore) (tableNameID columnTypeID : Int)
    (columnName columnDefinition : String) : Prog Int :=
  getOrInsertTableRowIDFromStruct p
    (TableCustomColumnName 0 tableNameID columnName columnTypeID columnDefinition)

/-- Embeds `RegisterTable` call by call. -/
def RegisterTable (p : ProfileStore) (tableName : String) : Prog Int :=
  getOrInsertTableRowIDFromStruct p (TableName 0 tableName)

/-- Embeds `RegisterTableColumnType` call by call.  The mutex of the method
keeps the calls of two registrations of a type apart; the steps here leave the
mutex out, so they allow every order of calls that the mutex allows, and more. -/
def RegisterTableColumnType (p : ProfileStore) (columnDataType : String) : Prog Int :=
  getOrInsertTableRowIDFromStruct p (TableColumnType 0 columnDataType)

/-- Embeds `RecordTableProfile` call by call. -/
def RecordTableProfile (p : ProfileStore) (tableNameID rowCount profileID : Int) :
    Prog Int :=
  getOrInsertTableRowIDFromStruct p (TableProfile 0 tableNameID rowCount profileID)

/-- The loop of `StoreColumnProfileData` over the results when the table
exists, call by call. -/
def ensureProfileColumns (p : ProfileStore) (profileTable : String) :
    List ColumnProfileData → Prog Unit
  | [] => .ret (.ok ())
  | data :: rest =>
      let columnName := handleNamingConvention p data.name
      .DoesTableColumnExist profileTable columnName fun answer =>
        if !answer.1 then
          .AddTableColumn profileTable
            { ColumnName := columnName,
              ColumnType := resolveDataType data.data data.scanType } fun err =>
            match err with
            | some err => .ret (.error err)
            | none => ensureProfileColumns p profileTable rest
        else
          ensureProfileColumns p profileTable rest

/-- The branch of `StoreColumnProfileData` on `tableExists`, call by call. -/
def ensureProfileTable (p : ProfileStore) (profileTable : String)
    (columnDefinitions : List DBColumnDefinition) (profileResults : List ColumnProfileData)
    (tableExists : Bool) : Prog Unit :=
  if !tableExists then
    .CreateTable profileTable columnDefinitions fun err =>
      match err with
      | some err => .ret (.error err)
      | none => .ret (.ok ())
  else
    ensureProfileColumns p profileTable profileResults

/-- Embeds `func (p *ProfileStore) StoreColumnProfileData(columnNamesID int, columnType string, profileID int, profileResults []ColumnProfileData) error`
call by call; its insert is the insert of a fact row. -/
def StoreColumnProfileData (p : ProfileStore) (columnNamesID : Int) (columnType : String)
    (profileID : Int) (profileResults : List ColumnProfileData) : Prog Unit :=
  let profileTable := getColumnProfileTableName p columnType
  let columnDefinitions :=
    handleDBColumnDefinitionArrNamingConvention p (profileColumnDefinitions p profileResults)
  let columnData :=
    handleColumnDataNamingConvention p
      (profileColumnData p columnNamesID profileID profileResults)
  .DoesTableExist profileTable fun answer =>
    (ensureProfileTable p profileTable columnDefinitions profileResults answer.1).bind
      fun _ =>
    .InsertRowAndReturnID profileTable columnData (some (columnNamesID, profileID))
      fun _ => .ret (.ok ())

/-- Embeds `StoreCustomColumnProfileData` call by call. -/
def StoreCustomColumnProfileData (p : ProfileStore) (columnNamesID : Int)
    (columnType : ColumnType) (profileID : Int) (profileValue : GoInterface) : Prog Unit :=
  let profileTable := getCustomColumnProfileTableName p columnType.DatabaseTypeName
  let columnDefinitions : List DBColumnDefinition :=
    [ { ColumnName := p.consts.TABLE_CUSTOM_COLUMN_NAME_ID, ColumnType := some (.basic .int) },
      { ColumnName := p.consts.PROFILE_RECORD_ID, ColumnType := some (.basic .int) },
      { ColumnName := "value",
        ColumnType := resolveDataType profileValue columnType.ScanType } ]
  let columnDefinitions := handleDBColumnDefinitionArrNamingConvention p columnDefinitions
  let columnData : GoMap GoInterface :=
    mapSet (mapSet (mapSet [] p.consts.TABLE_CUSTOM_COLUMN_NAME_ID
      (some (.int columnNamesID))) p.consts.PROFILE_RECORD_ID (some (.int profileID)))
      "value" profileValue
  let columnData := handleColumnDataNamingConvention p columnData
  .DoesTableExist profileTable fun answer =>
    let created : Prog Unit :=
      if !answer.1 then
        .CreateTable profileTable columnDefinitions fun err =>
          match err with
          | some err => .ret (.error err)
          | none => .ret (.ok ())
      else .ret (.ok ())
    created.bind fun _ =>
    .InsertRowAndReturnID profileTable columnData none fun _ => .ret (.ok ())

/-- Embeds `handleProfileTableColumn` call by call. -/
def handleProfileTableColumn (T : TargetDB) (p : ProfileStore) (tableNameID : Int)
    (tableName : String) (profileID : Int) (columnData : ColumnType) : Prog Unit :=
  (RegisterTableColumnType p columnData.DatabaseTypeName).bind fun columnTypeID =>
  (RegisterTableColumn p tableNameID columnTypeID columnData.Name).bind fun columnNamesID =>
  let columnNameEscaped := "\"" ++ columnData.Name ++ "\""
  let profiles := ProfilesByType columnData.DatabaseTypeName
  let profileSelects := profiles.map
    (fun cp => Sprintf cp.2 columnNameEscaped ++ " as \"" ++ cp.1 ++ "\"")
  (Prog.ofTarget (T.GetRowsSelect tableName profileSelects)).bind fun rows =>
  match rows.ColumnTypes with
  | .error err => .ret (.error err)
  | .ok profileColumnData =>
      let profileValues := scanFirstRow profileColumnData.length rows.data
      let profileResults := profileResultsOf profileColumnData profileValues
      StoreColumnProfileData p columnNamesID columnData.DatabaseTypeName profileID
        profileResults

/-- Embeds `handleProfileTableColumns` call by call. -/
def handleProfileTableColumns (T : TargetDB) (p : ProfileStore) (tableNameID : Int)
    (tableName : String) (profileID : Int) : List ColumnType → Prog Unit
  | [] => .ret (.ok ())
  | columnData :: rest =>
      (handleProfileTableColumn T p tableNameID tableName profileID columnData).bind
        fun _ => handleProfileTableColumns T p tableNameID tableName profileID rest

/-- Embeds `recordTableRowCount` call by call. -/
def recordTableRowCount (T : TargetDB) (p : ProfileStore) (tableNameID : Int)
    (tableName : String) (profileID : Int) : Prog Unit :=
  (Prog.ofTarget (T.GetTableRowCount tableName)).bind fun rowCount =>
  (RecordTableProfile p tableNameID rowCount profileID).bind fun _ => .ret (.ok ())

/-- Embeds `profileTableWithColumnsData` call by call. -/
def profileTableWithColumnsData (T : TargetDB) (p : ProfileStore) (tableName : String)
    (profileID : Int) (columnsData : List ColumnType) : Prog Unit :=
  (RegisterTable p tableName).bind fun tableNameID =>
  (recordTableRowCount T p tableNameID tableName profileID).bind fun _ =>
  handleProfileTableColumns T p tableNameID tableName profileID columnsData

/-- Embeds `profileTable`, the task of a full table, call by call. -/
def profileTable (T : TargetDB) (p : ProfileStore) (tableName : String) (profileID : Int) :
    Prog Unit :=
  (Prog.ofTarget (Outcome.ofExcept (T.GetSelectAllColumnsSingle tableName))).bind fun rows =>
  match rows.ColumnTypes with
  | .error err => .ret (.error err)
  | .ok columnsData => profileTableWithColumnsData T p tableName profileID columnsData

/-- Embeds `profileTableDefinedColumns` call by call. -/
def profileTableDefinedColumns (T : TargetDB) (p : ProfileStore) (tableName : String)
    (profileID : Int) (columns : List String) : Prog Unit :=
  (Prog.ofTarget (Outcome.ofExcept (T.GetSelectSingle tableName columns))).bind fun rows =>
  match rows.ColumnTypes with
  | .error err => .ret (.error err)
  | .ok columnsData => profileTableWithColumnsData T p tableName profileID columnsData

/-- The loop of `profileTableCustomColumns` over the result columns and their
sampled values, call by call. -/
def customColumnsLoop (p : ProfileStore) (tableDef : TableDefinition) (tableNameID : Int)
    (profileID : Int) : List (ColumnType × GoInterface) → Prog Unit
  | [] => .ret (.ok ())
  | (columnData, profileValue) :: rest =>
      (RegisterTableColumnType p columnData.DatabaseTypeName).bind fun columnTypeID =>
      let colDefinition := customColumnDefinition tableDef.CustomColumns columnData.Name
      (RegisterTableCustomColumn p tableNameID columnTypeID columnData.Name
        colDefinition).bind fun columnNamesID =>
      (StoreCustomColumnProfileData p columnNamesID columnData profileID profileValue).bind
        fun _ => customColumnsLoop p tableDef tableNameID profileID rest

/-- Embeds `profileTableCustomColumns`, the task of a custom table, call by
call. -/
def profileTableCustomColumns (T : TargetDB) (p : ProfileStore) (tableDef : TableDefinition)
    (profileID : Int) : Prog Unit :=
  (RegisterTable p tableDef.TableName).bind fun tableNameID =>
  let selects := tableDef.CustomColumns.map
    (fun col => col.ColumnDefinition ++ " as " ++ col.ColumnName)
  match T.GetRowsSelect tableDef.TableName selects with
  | .error _ =>
      .ret (.panic "runtime error: invalid memory address or nil pointer dereference")
  | .panic msg => .ret (.panic msg)
  | .ok rows =>
      match rows.ColumnTypes with
      | .error err => .ret (.error err)
      | .ok columnsData =>
          match rows.data with
          | [] => .ret (.error "failed to get results from query")
          | _ :: _ =>
              let profileValues := scanFirstRow columnsData.length rows.data
              (customColumnsLoop p tableDef tableNameID profileID
                (columnsData.zip profileValues)).bind fun _ =>
              if tableDef.Columns.length > 0 then
                profileTableDefinedColumns T p tableDef.TableName profileID tableDef.Columns
              else .ret (.ok ())

end Stepwise

/-- The task function that a goroutine runs, call by call. -/
def Task.prog (T : TargetDB) (p : ProfileStore) : Task → Prog Unit
  | .profileTableChannel tableName profileID =>
      Stepwise.profileTable T p tableName profileID
  | .profileTableCustomColumnsChannel tableDef profileID =>
      Stepwise.profileTableCustomColumns T p tableDef profileID

/-- The tasks of a run at a point of the run: the shared profile store, what
is left of each task, and the fact pairs inserted so far, oldest first. -/
structure Pool where
  store : Store
  tasks : List (Prog Unit)
  facts : List (Int × Int)

/-- A task has panicked, which ends the program. -/
def Prog.hasPanicked {α : Type} : Prog α → Bool
  | .ret (.panic _) => true
  | _ => false

/-- The task with the given index makes its next call.  Nothing happens when
there is no such task, when the task has returned, or when a task has
panicked. -/
def Pool.step (P : Pool) (i : Nat) : Pool :=
  if P.tasks.any Prog.hasPanicked then P
  else
    match P.tasks[i]? with
    | none => P
    | some task =>
        { store := (task.step P.store).2.1,
          tasks := P.tasks.set i (task.step P.store).1,
          facts := P.facts ++ (task.step P.store).2.2 }

/-- An interleaving of the calls of the tasks: the schedule names, call after
call, the task that makes the next call. -/
def Pool.run (P : Pool) (schedule : List Nat) : Pool :=
  schedule.foldl Pool.step P

/-- The tasks that a run has started, on the store of the run, before any of
them has made a call. -/
def Pool.start (T : TargetDB) (p : ProfileStore) (tasks : List Task) (s : Store) : Pool :=
  { store := s, tasks := tasks.map (Task.prog T p), facts := [] }

/-! ### What the ids of the dimension tables stand for -/

/-- The identifier under which the lookup-or-insert reaches a table or a column
that a struct tag names: the tag is converted when the struct is read and
again in `getOrInsertTableRowID`. -/
def dimensionName (p : ProfileStore) (name : String) : String :=
  handleNamingConvention p (handleNamingConvention p name)

/-- The table id stands in the table of table names for the table name. -/
def tableHasID (p : ProfileStore) (s : Store) (tableNameID : Int) (tableName : String) :
    Prop :=
  ∃ r ∈ s.rowsOf (dimensionName p "table_names"), r.id = tableNameID ∧
    r.cells.lookup (ToLower (dimensionName p "table_name")) = some (some (.string tableName))

/-- The column-name id stands in the table of column names for the column
`columnName` of the table `tableName`: its row holds the column name and the id
of a row of the table of table names that holds the table name. -/
def columnHasID (p : ProfileStore) (s : Store) (columnNamesID : Int)
    (tableName columnName : String) : Prop :=
  ∃ tableNameID : Int, tableHasID p s tableNameID tableName ∧
    ∃ r ∈ s.rowsOf (dimensionName p "table_column_names"), r.id = columnNamesID ∧
      r.cells.lookup (ToLower (dimensionName p "table_name_id"))
        = some (some (.int tableNameID)) ∧
      r.cells.lookup (ToLower (dimensionName p "table_column_name"))
        = some (some (.string columnName))

/-- Whatever calls other tasks make in between, which let the store grow:
every fact insert that the function makes from the store `s` on carries a
column-name id that stands, when the insert is made, for the first of the
(table name, column name) pairs `labels` that are left, and `post` holds of the
outcome, of the store and of the pairs left when the function ends. -/
def Prog.safe {α : Type} (p : ProfileStore) :
    Prog α → Store → List (String × String) →
      (Outcome α → Store → List (String × String) → Prop) → Prop
  | .ret out, s, labels, post => post out s labels
  | .DoesTableExist tableName k, s, labels, post =>
      ∀ s1, s.grownTo s1 →
        Prog.safe p (k (DBConn.DoesTableExist s1 tableName).1)
          (DBConn.DoesTableExist s1 tableName).2 labels post
  | .CreateTable tableName columns k, s, labels, post =>
      ∀ s1, s.grownTo s1 →
        Prog.safe p (k (DBConn.CreateTable s1 tableName columns).1)
          (DBConn.CreateTable s1 tableName columns).2 labels post
  | .DoesTableColumnExist tableName columnName k, s, labels, post =>
      ∀ s1, s.grownTo s1 →
        Prog.safe p (k (DBConn.DoesTableColumnExist s1 tableName columnName).1)
          (DBConn.DoesTableColumnExist s1 tableName columnName).2 labels post
  | .AddTableColumn tableName column k, s, labels, post =>
      ∀ s1, s.grownTo s1 →
        Prog.safe p (k (DBConn.AddTableColumn s1 tableName column).1)
          (DBConn.AddTableColumn s1 tableName column).2 labels post
  | .GetRowsSelectWhere tableName selects wheres k, s, labels, post =>
      ∀ s1, s.grownTo s1 →
        Prog.safe p (k (DBConn.GetRowsSelectWhere s1 tableName selects wheres).1)
          (DBConn.GetRowsSelectWhere s1 tableName selects wheres).2 labels post
  | .InsertRowAndReturnID tableName values none k, s, labels, post =>
      ∀ s1, s.grownTo s1 →
        match DBConn.InsertRowAndReturnID s1 tableName values with
        | (.ok id, s2) => Prog.safe p (k id) s2 labels post
        | (.error err, s2) => post (.error err) s2 labels
        | (.panic msg, s2) => post (.panic msg) s2 labels
  | .InsertRowAndReturnID tableName values (some pair) k, s, labels, post =>
      ∀ s1, s.grownTo s1 →
        ∃ label rest, labels = label :: rest ∧
          columnHasID p s1 pair.1 label.1 label.2 ∧
          match DBConn.InsertRowAndReturnID s1 tableName values with
          | (.ok id, s2) => Prog.safe p (k id) s2 rest post
          | (.error err, s2) => post (.error err) s2 rest
          | (.panic msg, s2) => post (.panic msg) s2 rest

/-- The pool is as a run leaves it: the ids of the store are unique; each task
has a list of (table name, column name) pairs left such that every fact insert
it still makes carries a column-name id that stands for the first pair left;
every fact pair inserted so far carries a column-name id that stands for a
pair of its own; and no pair occurs twice among the pairs used and the pairs
left. -/
def Pool.sound (p : ProfileStore) (P : Pool) : Prop :=
  P.store.idsUnique ∧
  ∃ (remaining : List (List (String × String)))
    (used : List ((Int × Int) × (String × String))),
    remaining.length = P.tasks.length ∧
    (∀ (i : Nat) (task : Prog Unit) (labels : List (String × String)),
      P.tasks[i]? = some task → remaining[i]? = some labels →
        task.safe p P.store labels (fun _ _ _ => True)) ∧
    P.facts = used.map Prod.fst ∧
    (∀ x ∈ used, columnHasID p P.store x.1.1 x.2.1 x.2.2) ∧
    (used.map Prod.snd ++ remaining.flatten).Nodup

/-! ## Lemmas on the join -/

theorem waitLoop_all_nil (totalResults : Nat) :
    ∀ (arrivals : List GoError) (tp k : Nat),
      arrivals ≠ [] → tp + arrivals.length = totalResults →
      (∀ o ∈ arrivals, o = none) →
      waitLoop totalResults arrivals tp k = .returned none (k + arrivals.length) []
  | [], _, _, hne, _, _ => absurd rfl hne
  | some e :: rest, _, _, _, _, hall => by
      have := hall (some e) (List.mem_cons_self _ _)
      cases this
  | none :: rest, tp, k, _, hlen, hall => by
      simp only [List.length_cons] at hlen
      cases rest with
      | nil =>
          simp only [List.length_nil, Nat.zero_add] at hlen
          simp [waitLoop, hlen]
      | cons o rest' =>
          have hlt : ¬ tp + 1 ≥ totalResults := by
            simp only [List.length_cons] at hlen
            omega
          have ih := waitLoop_all_nil totalResults (o :: rest') (tp + 1) (k + 1)
            (List.cons_ne_nil _ _) (by simp only [List.length_cons] at hlen ⊢; omega)
            (fun x hx => hall x (List.mem_cons_of_mem _ hx))
          have harith : k + 1 + (rest'.length + 1) = k + (rest'.length + 1 + 1) := by omega
          simp only [waitLoop, hlt, if_false, ih, List.length_cons, harith]

theorem waitLoop_first_error (totalResults : Nat) :
    ∀ (pre : List GoError) (e : String) (post : List GoError) (tp k : Nat),
      tp + pre.length < totalResults →
      (∀ o ∈ pre, o = none) →
      waitLoop totalResults (pre ++ some e :: post) tp k
        = .returned (some e) (k + pre.length + 1) post
  | [], e, post, tp, k, _, _ => by simp [waitLoop]
  | some x :: pre, _, _, _, _, _, hall => by
      have := hall (some x) (List.mem_cons_self _ _)
      cases this
  | none :: pre, e, post, tp, k, hlen, hall => by
      simp only [List.length_cons] at hlen
      have hlt : ¬ tp + 1 ≥ totalResults := by omega
      have ih := waitLoop_first_error totalResults pre e post (tp + 1) (k + 1)
        (by omega) (fun x hx => hall x (List.mem_cons_of_mem _ hx))
      have harith : k + 1 + pre.length + 1 = k + (pre.length + 1) + 1 := by omega
      have ih2 : waitLoop totalResults (pre ++ some e :: post) (tp + 1) (k + 1)
          = .returned (some e) (k + (pre.length + 1) + 1) post := by rw [ih, harith]
      simp only [List.cons_append, waitLoop, hlt, if_false, List.length_cons]
      exact ih2

/-- Every list of outcomes is all nil, or splits at its first non-nil error. -/
theorem split_first_error :
    ∀ (l : List GoError),
      (∀ o ∈ l, o = none) ∨
      ∃ pre e post, l = pre ++ some e :: post ∧ ∀ o ∈ pre, o = none
  | [] => Or.inl (by simp)
  | some e :: rest => Or.inr ⟨[], e, rest, rfl, by simp⟩
  | none :: rest => by
      rcases split_first_error rest with h | ⟨pre, e, post, h, hpre⟩
      · left
        intro o ho
        rcases List.mem_cons.mp ho with h1 | h1
        · exact h1
        · exact h o h1
      · right
        refine ⟨none :: pre, e, post, by rw [h]; rfl, ?_⟩
        intro o ho
        rcases List.mem_cons.mp ho with h1 | h1
        · exact h1
        · exact hpre o h1

/-! ## Lemmas on identifier casing -/

theorem toNat_ofNat_sub_32 (n : Nat) (h1 : 97 ≤ n) (h2 : n ≤ 122) :
    (Char.ofNat (n - 32)).toNat = n - 32 := by
  interval_cases n <;> rfl

theorem ToTitle_ne_underscore (u : UnicodeTables)
    (hu : ∀ r : Char, 0x7F < r.toNat → u.ToTitleCase r ≠ '_')
    (r : Char) (hr : r ≠ '_') : ToTitle u r ≠ '_' := by
  unfold ToTitle
  split
  · split
    · rename_i _ hlow
      intro h
      have h2 := congrArg Char.toNat h
      rw [toNat_ofNat_sub_32 r.toNat hlow.1 hlow.2] at h2
      have h3 : ('_' : Char).toNat = 95 := rfl
      have h4 : ('a' : Char).toNat = 97 := rfl
      have h5 : ('z' : Char).toNat = 122 := rfl
      omega
    · exact hr
  · rename_i h
    exact hu r (by omega)

theorem titleLoop_no_underscore (u : UnicodeTables)
    (hu : ∀ r : Char, 0x7F < r.toNat → u.ToTitleCase r ≠ '_') :
    ∀ (l : List Char) (prev : Char), (∀ c ∈ l, c ≠ '_') →
      ∀ c ∈ titleLoop u prev l, c ≠ '_'
  | [], _, _, c, hc => by simp [titleLoop] at hc
  | r :: rs, prev, hl, c, hc => by
      simp only [titleLoop, List.mem_cons] at hc
      have hr : r ≠ '_' := hl r (List.mem_cons_self _ _)
      rcases hc with hc | hc
      · rw [hc]
        split
        · exact ToTitle_ne_underscore u hu r hr
        · exact hr
      · exact titleLoop_no_underscore u hu rs r
          (fun x hx => hl x (List.mem_cons_of_mem _ hx)) c hc

theorem mem_ReplaceAll_underscore (name : String) (c : Char)
    (hc : c ∈ (ReplaceAll name '_' " ").data) : c ≠ '_' := by
  simp only [ReplaceAll, List.mem_flatMap] at hc
  obtain ⟨a, _, ha⟩ := hc
  by_cases h : a = '_'
  · simp only [h, if_true, List.mem_singleton] at ha
    rw [ha]
    decide
  · simp only [h, if_false, List.mem_singleton] at ha
    rw [ha]
    exact h

theorem mem_ReplaceAll_space (s : String) (c : Char)
    (hc : c ∈ (ReplaceAll s ' ' "").data) : c ∈ s.data := by
  simp only [ReplaceAll, List.mem_flatMap] at hc
  obtain ⟨a, hmem, ha⟩ := hc
  by_cases h : a = ' '
  · simp only [h, if_true] at ha
    cases ha
  · simp only [h, if_false, List.mem_singleton] at ha
    rw [ha]
    exact hmem

theorem ContainsAny_underscore_false (s : String) (h : ∀ c ∈ s.data, c ≠ '_') :
    ContainsAny "_" s = false := by
  unfold ContainsAny
  have h2 : ("_" : String).data = ['_'] := rfl
  rw [h2, List.any_eq_false]
  intro c hc
  have := h c hc
  simpa using this

theorem convertSnakeCaseToPascalCase_no_underscore (p : ProfileStore)
    (hu : ∀ r : Char, 0x7F < r.toNat → p.unicode.ToTitleCase r ≠ '_')
    (name : String) :
    ContainsAny "_" (convertSnakeCaseToPascalCase p name) = false := by
  unfold convertSnakeCaseToPascalCase
  by_cases hc : ContainsAny "_" name = true
  · simp only [hc, Bool.not_true, Bool.false_eq_true, if_false]
    apply ContainsAny_underscore_false
    intro c hmem
    have h1 := mem_ReplaceAll_space _ c hmem
    simp only [Title] at h1
    exact titleLoop_no_underscore p.unicode hu _ ' '
      (fun x hx => mem_ReplaceAll_underscore name x hx) c h1
  · have hc2 : ContainsAny "_" name = false := by simpa using hc
    simp only [hc2, Bool.not_false, if_true]

theorem convertSnakeCaseToPascalCase_idem (p : ProfileStore)
    (hu : ∀ r : Char, 0x7F < r.toNat → p.unicode.ToTitleCase r ≠ '_')
    (name : String) :
    convertSnakeCaseToPascalCase p (convertSnakeCaseToPascalCase p name)
      = convertSnakeCaseToPascalCase p name := by
  have h := convertSnakeCaseToPascalCase_no_underscore p hu name
  generalize convertSnakeCaseToPascalCase p name = r at h
  unfold convertSnakeCaseToPascalCase
  simp only [h, Bool.not_false, if_true]

/-! ### Words of lowercase letters under the conversion -/

theorem lower_ne_underscore (c : Char) (h : 97 ≤ c.toNat ∧ c.toNat ≤ 122) : c ≠ '_' := by
  intro hc
  rw [hc] at h
  exact absurd h.1 (by decide)

theorem lower_ne_space (c : Char) (h : 97 ≤ c.toNat ∧ c.toNat ≤ 122) : c ≠ ' ' := by
  intro hc
  rw [hc] at h
  exact absurd h.1 (by decide)

theorem isSeparator_lower (u : UnicodeTables) (c : Char)
    (h : 97 ≤ c.toNat ∧ c.toNat ≤ 122) : isSeparator u c = false := by
  have h1 : ('a' : Char).toNat = 97 := rfl
  have h2 : ('z' : Char).toNat = 122 := rfl
  have h3 : ('0' : Char).toNat = 48 := rfl
  have h4 : ('9' : Char).toNat = 57 := rfl
  unfold isSeparator
  rw [h1, h2, h3, h4]
  have ha : c.toNat ≤ 0x7F := by omega
  have hb : ¬ (48 ≤ c.toNat ∧ c.toNat ≤ 57) := by omega
  simp only [ha, hb, h, if_true, if_false, and_self]

theorem isSeparator_space (u : UnicodeTables) : isSeparator u ' ' = true := rfl

theorem ToTitle_lower (u : UnicodeTables) (c : Char)
    (h : 97 ≤ c.toNat ∧ c.toNat ≤ 122) : ToTitle u c = c.toUpper := by
  have h1 : ('a' : Char).toNat = 97 := rfl
  have h2 : ('z' : Char).toNat = 122 := rfl
  unfold ToTitle Char.toUpper
  rw [h1, h2]
  have ha : c.toNat ≤ 0x7F := by omega
  have hb : c.toNat ≥ 97 ∧ c.toNat ≤ 122 := h
  simp only [ha, h, hb, if_true, and_self]

theorem toUpper_lower_ne_space (c : Char) (h : 97 ≤ c.toNat ∧ c.toNat ≤ 122) :
    c.toUpper ≠ ' ' := by
  intro hc
  have hb : c.toNat ≥ 97 ∧ c.toNat ≤ 122 := h
  have h2 := congrArg Char.toNat hc
  simp only [Char.toUpper, hb, and_self, if_true] at h2
  rw [toNat_ofNat_sub_32 c.toNat h.1 h.2] at h2
  have h3 : (' ' : Char).toNat = 32 := rfl
  omega

theorem flatMap_replace_absent (old : Char) (new : List Char) :
    ∀ (w : List Char), (∀ c ∈ w, c ≠ old) →
      w.flatMap (fun c => if c = old then new else [c]) = w
  | [], _ => rfl
  | c :: cs, h => by
      have hc : c ≠ old := h c (List.mem_cons_self _ _)
      have ih := flatMap_replace_absent old new cs
        (fun x hx => h x (List.mem_cons_of_mem _ hx))
      simp only [List.flatMap_cons, hc, if_false, ih, List.singleton_append]

/-- Replacing the separator of joined words whose letters are not the separator. -/
theorem flatMap_joinWords (old : Char) (new : Char) :
    ∀ (ws : List (List Char)), (∀ w ∈ ws, ∀ c ∈ w, c ≠ old) →
      (joinWords old ws).flatMap (fun c => if c = old then [new] else [c])
        = joinWords new ws
  | [], _ => rfl
  | [w], h => by
      simp only [joinWords]
      exact flatMap_replace_absent old [new] w (h w (List.mem_cons_self _ _))
  | w :: w2 :: ws, h => by
      have ih := flatMap_joinWords old new (w2 :: ws)
        (fun x hx => h x (List.mem_cons_of_mem _ hx))
      have hw := flatMap_replace_absent old [new] w (h w (List.mem_cons_self _ _))
      simp only [joinWords, List.flatMap_append, List.flatMap_cons, hw, if_true,
        List.singleton_append] at ih ⊢
      rw [ih]

/-- Deleting the separator of joined words whose letters are not the separator. -/
theorem flatMap_joinWords_delete (old : Char) :
    ∀ (ws : List (List Char)), (∀ w ∈ ws, ∀ c ∈ w, c ≠ old) →
      (joinWords old ws).flatMap (fun c => if c = old then [] else [c])
        = ws.flatten
  | [], _ => rfl
  | [w], h => by
      simp only [joinWords, List.flatten_cons, List.flatten_nil, List.append_nil]
      exact flatMap_replace_absent old [] w (h w (List.mem_cons_self _ _))
  | w :: w2 :: ws, h => by
      have ih := flatMap_joinWords_delete old (w2 :: ws)
        (fun x hx => h x (List.mem_cons_of_mem _ hx))
      have hw := flatMap_replace_absent old [] w (h w (List.mem_cons_self _ _))
      simp only [joinWords, List.flatMap_append, List.flatMap_cons, hw, if_true,
        List.nil_append, List.flatten_cons] at ih ⊢
      rw [ih]

/-- Inside a word the closure of `Title` copies the letters. -/
theorem titleLoop_word_tail (u : UnicodeTables) :
    ∀ (cs : List Char) (prev : Char), isSeparator u prev = false →
      (∀ c ∈ cs, 97 ≤ c.toNat ∧ c.toNat ≤ 122) →
      titleLoop u prev cs = cs ∧
      ∀ rest, titleLoop u prev (cs ++ ' ' :: rest) = cs ++ ' ' :: titleLoop u ' ' rest
  | [], prev, hp, _ => by
      simp [titleLoop, hp]
  | c :: cs, prev, hp, h => by
      have hc := h c (List.mem_cons_self _ _)
      have ih := titleLoop_word_tail u cs c (isSeparator_lower u c hc)
        (fun x hx => h x (List.mem_cons_of_mem _ hx))
      constructor
      · simp [titleLoop, hp, ih.1]
      · intro rest
        simp [titleLoop, hp, ih.2 rest]

/-- At the start of a word the closure of `Title` upper-cases the first letter. -/
theorem titleLoop_word (u : UnicodeTables) (w : List Char) (hw : specLowercaseWord w) :
    titleLoop u ' ' w = specCapitalize w ∧
    ∀ rest, titleLoop u ' ' (w ++ ' ' :: rest)
      = specCapitalize w ++ ' ' :: titleLoop u ' ' rest := by
  obtain ⟨hne, hall⟩ := hw
  cases w with
  | nil => exact absurd rfl hne
  | cons c cs =>
      have hc := hall c (List.mem_cons_self _ _)
      have ht := titleLoop_word_tail u cs c (isSeparator_lower u c hc)
        (fun x hx => hall x (List.mem_cons_of_mem _ hx))
      constructor
      · simp [titleLoop, isSeparator_space, ToTitle_lower u c hc, specCapitalize, ht.1]
      · intro rest
        simp [titleLoop, isSeparator_space, ToTitle_lower u c hc, specCapitalize, ht.2 rest]

theorem titleLoop_joinWords (u : UnicodeTables) :
    ∀ (ws : List (List Char)), (∀ w ∈ ws, specLowercaseWord w) →
      titleLoop u ' ' (joinWords ' ' ws) = joinWords ' ' (ws.map specCapitalize)
  | [], _ => rfl
  | [w], h => by
      simp only [joinWords, List.map]
      exact (titleLoop_word u w (h w (List.mem_cons_self _ _))).1
  | w :: w2 :: ws, h => by
      have ih := titleLoop_joinWords u (w2 :: ws)
        (fun x hx => h x (List.mem_cons_of_mem _ hx))
      have hw := (titleLoop_word u w (h w (List.mem_cons_self _ _))).2
      simp only [joinWords, List.map] at ih ⊢
      rw [hw, ih]

theorem specCapitalize_no_space (w : List Char) (hw : specLowercaseWord w) :
    ∀ c ∈ specCapitalize w, c ≠ ' ' := by
  obtain ⟨hne, hall⟩ := hw
  cases w with
  | nil => exact absurd rfl hne
  | cons c cs =>
      intro x hx
      simp only [specCapitalize, List.mem_cons] at hx
      rcases hx with hx | hx
      · rw [hx]
        exact toUpper_lower_ne_space c (hall c (List.mem_cons_self _ _))
      · exact lower_ne_space x (hall x (List.mem_cons_of_mem _ hx))

theorem underscore_mem_joinWords :
    ∀ (ws : List (List Char)), 2 ≤ ws.length → '_' ∈ joinWords '_' ws
  | [], h => by simp at h
  | [_], h => by simp at h
  | w :: w2 :: ws, _ => by
      simp [joinWords]

theorem ContainsAny_underscore_true (s : String) (h : '_' ∈ s.data) :
    ContainsAny "_" s = true := by
  unfold ContainsAny
  rw [List.any_eq_true]
  exact ⟨'_', h, by decide⟩

/-! ## Lemmas on the store -/

theorem toNat_ofNat_add_32 (n : Nat) (h1 : 65 ≤ n) (h2 : n ≤ 90) :
    (Char.ofNat (n + 32)).toNat = n + 32 := by
  interval_cases n <;> rfl

theorem Char_toLower_idem (c : Char) : c.toLower.toLower = c.toLower := by
  by_cases h : c.toNat ≥ 65 ∧ c.toNat ≤ 90
  · have h1 : c.toLower = Char.ofNat (c.toNat + 32) := by
      simp only [Char.toLower, h, and_self, if_true]
    have h2 : (Char.ofNat (c.toNat + 32)).toNat = c.toNat + 32 :=
      toNat_ofNat_add_32 c.toNat h.1 h.2
    have h3 : ¬ ((Char.ofNat (c.toNat + 32)).toNat ≥ 65
        ∧ (Char.ofNat (c.toNat + 32)).toNat ≤ 90) := by
      rw [h2]
      omega
    rw [h1]
    simp only [Char.toLower, h3, if_false]
  · have h1 : c.toLower = c := by
      simp only [Char.toLower, h, if_false]
    rw [h1, h1]

theorem ToLower_idem (t : String) : ToLower (ToLower t) = ToLower t := by
  simp only [ToLower, List.map_map]
  congr 1
  apply List.map_congr_left
  intro c _
  exact Char_toLower_idem c

theorem lookup_putTable_self :
    ∀ (ts : List (String × PgTable)) (k : String) (t : PgTable),
      (putTable ts k t).lookup k = some t
  | [], k, t => by simp [putTable, List.lookup]
  | (k0, t0) :: rest, k, t => by
      by_cases h : k0 = k
      · simp [putTable, h, List.lookup]
      · have hne : (k == k0) = false := by
          simp only [beq_eq_false_iff_ne, ne_eq]
          exact fun e => h e.symm
        simp only [putTable, h, if_false, List.lookup, hne]
        exact lookup_putTable_self rest k t

theorem lookup_putTable_other :
    ∀ (ts : List (String × PgTable)) (k k2 : String) (t : PgTable), k2 ≠ k →
      (putTable ts k t).lookup k2 = ts.lookup k2
  | [], k, k2, t, h => by
      have hne : (k2 == k) = false := by simpa using h
      simp [putTable, List.lookup, hne]
  | (k0, t0) :: rest, k, k2, t, h => by
      by_cases h0 : k0 = k
      · subst h0
        have hne : (k2 == k0) = false := by simpa using h
        simp [putTable, List.lookup, hne]
      · simp only [putTable, h0, if_false, List.lookup]
        rw [lookup_putTable_other rest k k2 t h]

theorem table_record (s : Store) (c : DBCall) (t : String) :
    (s.record c).table t = s.table t := rfl

theorem columnsOf_record (s : Store) (c : DBCall) (t : String) :
    (s.record c).columnsOf t = s.columnsOf t := rfl

theorem rowsOf_record (s : Store) (c : DBCall) (t : String) :
    (s.record c).rowsOf t = s.rowsOf t := rfl

/-- The table written by `putTable` is the table read back under any identifier
that folds to the same name. -/
theorem table_put_self (s : Store) (tableName : String) (t : PgTable) :
    ({ s with tables := putTable s.tables (ToLower tableName) t } : Store).table tableName
      = some t := by
  simp only [Store.table]
  exact lookup_putTable_self s.tables (ToLower tableName) t

theorem table_put_other (s : Store) (tableName other : String) (t : PgTable)
    (h : ToLower other ≠ ToLower tableName) :
    ({ s with tables := putTable s.tables (ToLower tableName) t } : Store).table other
      = s.table other := by
  simp only [Store.table]
  exact lookup_putTable_other s.tables (ToLower tableName) (ToLower other) t h

/-- Writing a table whose columns extend the columns it had keeps every column
of every table. -/
theorem columnsOf_put_mono (s : Store) (tableName : String) (t : PgTable)
    (hext : ∀ c ∈ s.columnsOf tableName, c ∈ t.columns) (other : String) :
    ∀ c ∈ s.columnsOf other,
      c ∈ ({ s with tables := putTable s.tables (ToLower tableName) t } : Store).columnsOf
        other := by
  intro c hc
  by_cases h : ToLower other = ToLower tableName
  · have h1 : s.table other = s.table tableName := by
      simp only [Store.table, h]
    have h2 : ({ s with tables := putTable s.tables (ToLower tableName) t } : Store).table
        other = some t := by
      simp only [Store.table, h]
      exact lookup_putTable_self s.tables (ToLower tableName) t
    simp only [Store.columnsOf, h1] at hc
    simp only [Store.columnsOf, h2]
    exact hext c hc
  · simp only [Store.columnsOf, table_put_other s tableName other t h]
    exact hc

/-! ### No operation of the store removes a column -/

theorem CreateTable_columns_mono (s : Store) (tableName : String)
    (columns : List DBColumnDefinition) (other : String) :
    ∀ c ∈ s.columnsOf other,
      c ∈ (PostgresConn.CreateTable s tableName columns).2.columnsOf other := by
  intro c hc
  simp only [PostgresConn.CreateTable]
  split
  · exact hc
  · by_cases h2 : (s.table tableName).isSome = true
    · split_ifs <;> exact hc
    · have hnone : s.table tableName = none := by
        cases hq : s.table tableName with
        | none => rfl
        | some t => simp [hq] at h2
      split_ifs
      · exact hc
      · apply columnsOf_put_mono s tableName _ _ other c hc
        intro c2 hc2
        simp [Store.columnsOf, hnone] at hc2
      · exact hc

theorem AddTableColumn_columns_mono (s : Store) (tableName : String)
    (column : DBColumnDefinition) (other : String) :
    ∀ c ∈ s.columnsOf other,
      c ∈ (PostgresConn.AddTableColumn s tableName column).2.columnsOf other := by
  intro c hc
  unfold PostgresConn.AddTableColumn
  split
  · exact hc
  · split
    · exact hc
    · rename_i t ht
      split_ifs with h1
      · exact hc
      · apply columnsOf_put_mono s tableName _ _ other c hc
        intro c2 hc2
        simp only [Store.columnsOf, ht] at hc2
        exact List.mem_append_left _ hc2

/-- What an insert that does not panic has checked and done. -/
theorem InsertRowAndReturnID_inv (s : Store) (tableName : String)
    (values : GoMap GoInterface)
    (h : ∀ msg, (PostgresConn.InsertRowAndReturnID s tableName values).1 ≠ .panic msg) :
    ∃ t, s.table tableName = some t ∧ values ≠ [] ∧
      (∀ c ∈ values.map (fun kv => ToLower kv.1), c ∈ t.columns) ∧
      (values.map (fun kv => ToLower kv.1)).Nodup ∧
      PostgresConn.InsertRowAndReturnID s tableName values
        = (.ok (t.serial + 1),
            Store.mk
              (putTable s.tables (ToLower tableName)
                (PgTable.mk t.columns
                  (t.rows ++ [PgRow.mk (t.serial + 1)
                    (values.map (fun kv => (ToLower kv.1, kv.2)))])
                  (t.serial + 1)))
              s.calls) := by
  simp only [PostgresConn.InsertRowAndReturnID] at h ⊢
  cases ht : s.table tableName with
  | none =>
      simp only [ht] at h
      exact absurd rfl (h _)
  | some t =>
      simp only [ht] at h ⊢
      by_cases h1 : values = []
      · simp only [h1, if_true] at h
        exact absurd rfl (h _)
      · by_cases h2 : ∀ c ∈ values.map (fun kv => ToLower kv.1), c ∈ t.columns
        · by_cases h3 : (values.map (fun kv => ToLower kv.1)).Nodup
          · refine ⟨t, rfl, h1, h2, h3, ?_⟩
            rw [if_neg h1, if_neg (not_not.mpr h2), if_neg (not_not.mpr h3)]
          · rw [if_neg h1, if_neg (not_not.mpr h2), if_pos h3] at h
            exact absurd rfl (h _)
        · rw [if_neg h1, if_pos h2] at h
          exact absurd rfl (h _)

theorem InsertRowAndReturnID_columns_mono (s : Store) (tableName : String)
    (values : GoMap GoInterface) (other : String) :
    ∀ c ∈ s.columnsOf other,
      c ∈ (PostgresConn.InsertRowAndReturnID s tableName values).2.columnsOf other := by
  intro c hc
  simp only [PostgresConn.InsertRowAndReturnID]
  split
  · exact hc
  · rename_i t ht
    split_ifs
    all_goals first
      | exact hc
      | (apply columnsOf_put_mono s tableName _ _ other c hc
         intro c2 hc2
         simp only [Store.columnsOf, ht] at hc2
         exact hc2)

theorem ensureProfileColumns_columns_mono (p : ProfileStore) (profileTable : String) :
    ∀ (profileResults : List ColumnProfileData) (s : Store) (other : String),
      ∀ c ∈ s.columnsOf other,
        c ∈ (ensureProfileColumns p profileTable profileResults s).2.columnsOf other
  | [], _, _, _, hc => hc
  | data :: rest, s, other, c, hc => by
      simp only [ensureProfileColumns, DBConn.DoesTableColumnExist, DBConn.AddTableColumn]
      split_ifs with hex
      · have h1 := AddTableColumn_columns_mono
          (s.record (.DoesTableColumnExist profileTable (handleNamingConvention p data.name)))
          profileTable
          { ColumnName := handleNamingConvention p data.name,
            ColumnType := resolveDataType data.data data.scanType } other c hc
        split
        · rename_i heq
          simp only [Prod.mk.injEq] at heq
          rw [← heq.2]
          exact h1
        · rename_i heq
          simp only [Prod.mk.injEq] at heq
          apply ensureProfileColumns_columns_mono p profileTable rest _ other c
          rw [← heq.2]
          exact h1
      · exact ensureProfileColumns_columns_mono p profileTable rest _ other c hc

theorem ensureProfileTable_columns_mono (p : ProfileStore) (profileTable : String)
    (columnDefinitions : List DBColumnDefinition) (profileResults : List ColumnProfileData)
    (tableExists : Bool) (s : Store) (other : String) :
    ∀ c ∈ s.columnsOf other,
      c ∈ (ensureProfileTable p profileTable columnDefinitions profileResults
        tableExists s).2.columnsOf other := by
  intro c hc
  unfold ensureProfileTable
  split_ifs
  · simp only [DBConn.CreateTable, columnsOf_record]
    exact CreateTable_columns_mono s profileTable columnDefinitions other c hc
  · exact ensureProfileColumns_columns_mono p profileTable profileResults s other c hc

/-! ### Lookups and inserts -/

theorem GetRowsSelectWhere_of_table (s : Store) (tableName : String) (selects : List String)
    (wheres : GoMap GoInterface) (t : PgTable) (ht : s.table tableName = some t)
    (hsel : ∀ c ∈ selects, c = "*" ∨ ToLower c ∈ t.columns)
    (hwh : ∀ kv ∈ wheres, ToLower kv.1 ∈ t.columns) :
    PostgresConn.GetRowsSelectWhere s tableName selects wheres
      = .ok (t.rows.filter (PostgresConn.rowMatches wheres)) := by
  simp only [PostgresConn.GetRowsSelectWhere, ht]
  rw [if_neg (not_not.mpr hsel), if_neg (not_not.mpr hwh)]

theorem GetRowsSelectWhere_inv (s : Store) (tableName : String) (selects : List String)
    (wheres : GoMap GoInterface) (rows : List PgRow)
    (h : PostgresConn.GetRowsSelectWhere s tableName selects wheres = .ok rows) :
    ∃ t, s.table tableName = some t ∧
      (∀ c ∈ selects, c = "*" ∨ ToLower c ∈ t.columns) ∧
      (∀ kv ∈ wheres, ToLower kv.1 ∈ t.columns) ∧
      rows = t.rows.filter (PostgresConn.rowMatches wheres) := by
  simp only [PostgresConn.GetRowsSelectWhere] at h
  cases ht : s.table tableName with
  | none =>
      simp only [ht] at h
      cases h
  | some t =>
      simp only [ht] at h
      by_cases hsel : ∀ c ∈ selects, c = "*" ∨ ToLower c ∈ t.columns
      · by_cases hwh : ∀ kv ∈ wheres, ToLower kv.1 ∈ t.columns
        · rw [if_neg (not_not.mpr hsel), if_neg (not_not.mpr hwh)] at h
          injection h with h
          exact ⟨t, rfl, hsel, hwh, h.symm⟩
        · rw [if_neg (not_not.mpr hsel), if_pos hwh] at h
          cases h
      · rw [if_pos hsel] at h
        cases h

theorem mem_mapSet {β : Type} :
    ∀ (m : GoMap β) (k : String) (v : β) (kv : String × β),
      kv ∈ mapSet m k v → kv = (k, v) ∨ kv ∈ m
  | [], k, v, kv, h => by
      simp only [mapSet, List.mem_singleton] at h
      exact Or.inl h
  | (k0, v0) :: rest, k, v, kv, h => by
      by_cases hk : k0 = k
      · simp only [mapSet, hk, if_true, List.mem_cons] at h
        rcases h with h | h
        · exact Or.inl h
        · exact Or.inr (List.mem_cons_of_mem _ h)
      · simp only [mapSet, hk, if_false, List.mem_cons] at h
        rcases h with h | h
        · exact Or.inr (by rw [h]; exact List.mem_cons_self _ _)
        · rcases mem_mapSet rest k v kv h with h2 | h2
          · exact Or.inl h2
          · exact Or.inr (List.mem_cons_of_mem _ h2)

theorem mapSet_ne_nil {β : Type} (m : GoMap β) (k : String) (v : β) : mapSet m k v ≠ [] := by
  cases m with
  | nil => simp [mapSet]
  | cons kv rest =>
      obtain ⟨k0, v0⟩ := kv
      by_cases hk : k0 = k <;> simp [mapSet, hk]

theorem foldl_mapSet_values {α β : Type} (f : α → String) (g : α → β) (P : β → Prop) :
    ∀ (l : List α) (init : GoMap β),
      (∀ kv ∈ init, P kv.2) → (∀ x ∈ l, P (g x)) →
      ∀ kv ∈ l.foldl (fun acc x => mapSet acc (f x) (g x)) init, P kv.2
  | [], init, hinit, _, kv, hkv => hinit kv hkv
  | x :: rest, init, hinit, hl, kv, hkv => by
      simp only [List.foldl_cons] at hkv
      refine foldl_mapSet_values f g P rest (mapSet init (f x) (g x)) ?_
        (fun y hy => hl y (List.mem_cons_of_mem _ hy)) kv hkv
      intro kv2 hkv2
      rcases mem_mapSet init (f x) (g x) kv2 hkv2 with h | h
      · rw [h]
        exact hl x (List.mem_cons_self _ _)
      · exact hinit kv2 h

theorem foldl_mapSet_ne_nil {α β : Type} (f : α → String) (g : α → β) :
    ∀ (l : List α) (init : GoMap β), init ≠ [] →
      l.foldl (fun acc x => mapSet acc (f x) (g x)) init ≠ []
  | [], _, h => h
  | x :: rest, init, _ => by
      simp only [List.foldl_cons]
      exact foldl_mapSet_ne_nil f g rest _ (mapSet_ne_nil init (f x) (g x))

theorem handleColumnDataNamingConvention_ne_nil {β : Type} (p : ProfileStore)
    (data : GoMap β) (h : data ≠ []) : handleColumnDataNamingConvention p data ≠ [] := by
  unfold handleColumnDataNamingConvention
  cases data with
  | nil => exact absurd rfl h
  | cons kv rest =>
      simp only [List.foldl_cons]
      exact foldl_mapSet_ne_nil (fun kv : String × β => handleNamingConvention p kv.1)
        (fun kv : String × β => kv.2) rest _ (mapSet_ne_nil _ _ _)

theorem handleColumnDataNamingConvention_values {β : Type} (p : ProfileStore)
    (data : GoMap β) (P : β → Prop) (h : ∀ kv ∈ data, P kv.2) :
    ∀ kv ∈ handleColumnDataNamingConvention p data, P kv.2 := by
  unfold handleColumnDataNamingConvention
  exact foldl_mapSet_values (fun kv : String × β => handleNamingConvention p kv.1)
    (fun kv : String × β => kv.2) P data [] (by simp) h

/-- In a list of cells with distinct columns, each cell is found under its column. -/
theorem lookup_cells_of_nodup (f : String → String) :
    ∀ (l : GoMap GoInterface), (l.map (fun kv => f kv.1)).Nodup →
      ∀ kv ∈ l, (l.map (fun kv => (f kv.1, kv.2))).lookup (f kv.1) = some kv.2
  | [], _, kv, h => by cases h
  | (k0, v0) :: rest, hnd, kv, h => by
      simp only [List.map_cons, List.nodup_cons] at hnd
      rcases List.mem_cons.mp h with h1 | h1
      · rw [h1]
        simp [List.lookup]
      · have hne : (f kv.1 == f k0) = false := by
          simp only [beq_eq_false_iff_ne, ne_eq]
          intro e
          apply hnd.1
          rw [← e]
          exact List.mem_map.mpr ⟨kv, h1, rfl⟩
        simp only [List.map_cons, List.lookup, hne]
        exact lookup_cells_of_nodup f rest hnd.2 kv h1

theorem rowMatches_inserted (wheres : GoMap GoInterface) (id : Int)
    (hsome : ∀ kv ∈ wheres, kv.2.isSome = true)
    (hnd : (wheres.map (fun kv => ToLower kv.1)).Nodup) :
    PostgresConn.rowMatches wheres
      (PgRow.mk id (wheres.map (fun kv => (ToLower kv.1, kv.2)))) = true := by
  simp only [PostgresConn.rowMatches, List.all_eq_true, Bool.and_eq_true, beq_iff_eq]
  intro kv hkv
  exact ⟨hsome kv hkv, lookup_cells_of_nodup ToLower wheres hnd kv hkv⟩

/-! ### Creating the fixed tables -/

theorem CreateTableIfNotExists_ok (s : Store) (tableName : String)
    (columns : List DBColumnDefinition)
    (hty : ∃ items, PostgresConn.columnSQLTypes columns = .ok items)
    (hne : columns ≠ [])
    (hnd : ("id" :: columns.map (fun col => ToLower col.ColumnName)).Nodup) :
    (PostgresConn.CreateTableIfNotExists s tableName columns).1 = none := by
  obtain ⟨items, hitems⟩ := hty
  simp only [PostgresConn.CreateTableIfNotExists, PostgresConn.DoesTableExist]
  cases ht : s.table (ToLower tableName) with
  | some t => rfl
  | none =>
      have ht2 : s.table tableName = none := by
        simp only [Store.table, ToLower_idem] at ht
        exact ht
      simp only [PostgresConn.CreateTable, hitems, ht2, Option.isSome_none]
      rw [if_neg hne, if_neg (by simp), if_neg (not_not.mpr hnd)]

theorem createTableForProfileStoreTableStruct_ok (p : ProfileStore)
    (tableStruct : TableStruct) (s : Store) (tableName : String)
    (hname : getTableNameFromStruct p tableStruct = .ok tableName)
    (hty : ∃ items, PostgresConn.columnSQLTypes
      (getColumnDataFromStructExcludePrimaryKey p tableStruct) = .ok items)
    (hne : getColumnDataFromStructExcludePrimaryKey p tableStruct ≠ [])
    (hnd : ("id" :: (getColumnDataFromStructExcludePrimaryKey p tableStruct).map
      (fun col => ToLower col.ColumnName)).Nodup) :
    ∃ s1, createTableForProfileStoreTableStruct p tableStruct s = (none, s1) ∧
      s1.calls = s.calls ++ [.CreateTableIfNotExists tableName
        (getColumnDataFromStructExcludePrimaryKey p tableStruct)] := by
  have h := CreateTableIfNotExists_ok s tableName
    (getColumnDataFromStructExcludePrimaryKey p tableStruct) hty hne hnd
  have hcalls : (PostgresConn.CreateTableIfNotExists s tableName
      (getColumnDataFromStructExcludePrimaryKey p tableStruct)).2.calls = s.calls := by
    simp only [PostgresConn.CreateTableIfNotExists]
    split
    · rfl
    · simp only [PostgresConn.CreateTable]
      split
      · rfl
      · split_ifs <;> rfl
  refine ⟨(PostgresConn.CreateTableIfNotExists s tableName
      (getColumnDataFromStructExcludePrimaryKey p tableStruct)).2.record
        (.CreateTableIfNotExists tableName
          (getColumnDataFromStructExcludePrimaryKey p tableStruct)), ?_, ?_⟩
  · simp only [createTableForProfileStoreTableStruct, hname, DBConn.CreateTableIfNotExists, h]
  · simp only [Store.record, hcalls]

/-! ### Keys of maps -/

theorem mem_mapKeys_mapSet {β : Type} :
    ∀ (m : GoMap β) (k : String) (v : β) (k2 : String),
      k2 ∈ mapKeys (mapSet m k v) ↔ k2 = k ∨ k2 ∈ mapKeys m
  | [], k, v, k2 => by simp [mapSet, mapKeys]
  | (k0, v0) :: rest, k, v, k2 => by
      by_cases h : k0 = k
      · subst h
        simp [mapSet, mapKeys]
      · have ih := mem_mapKeys_mapSet rest k v k2
        simp only [mapKeys] at ih
        simp only [mapSet, h, if_false, mapKeys, List.map_cons, List.mem_cons, ih]
        tauto

theorem mem_mapKeys_foldl_mapSet {α β : Type} (f : α → String) (g : α → β) :
    ∀ (l : List α) (init : GoMap β) (k : String),
      k ∈ mapKeys (l.foldl (fun acc x => mapSet acc (f x) (g x)) init)
        ↔ k ∈ mapKeys init ∨ ∃ x ∈ l, k = f x
  | [], init, k => by simp
  | x :: rest, init, k => by
      simp only [List.foldl_cons]
      rw [mem_mapKeys_foldl_mapSet f g rest (mapSet init (f x) (g x)) k,
        mem_mapKeys_mapSet]
      simp only [List.mem_cons, exists_eq_or_imp]
      tauto

theorem mem_mapKeys_handleColumnDataNamingConvention {β : Type} (p : ProfileStore)
    (data : GoMap β) (k : String) :
    k ∈ mapKeys (handleColumnDataNamingConvention p data)
      ↔ ∃ k0 ∈ mapKeys data, k = handleNamingConvention p k0 := by
  unfold handleColumnDataNamingConvention
  refine (mem_mapKeys_foldl_mapSet (fun kv : String × β => handleNamingConvention p kv.1)
    (fun kv : String × β => kv.2) data [] k).trans ?_
  simp [mapKeys]

theorem mem_mapKeys_profileColumnData (p : ProfileStore) (columnNamesID profileID : Int)
    (profileResults : List ColumnProfileData) (k : String) :
    k ∈ mapKeys (profileColumnData p columnNamesID profileID profileResults)
      ↔ k = p.consts.TABLE_COLUMN_NAME_ID ∨ k = p.consts.PROFILE_RECORD_ID
          ∨ ∃ data ∈ profileResults, k = data.name := by
  unfold profileColumnData
  refine (mem_mapKeys_foldl_mapSet (fun d : ColumnProfileData => d.name)
    (fun d : ColumnProfileData => d.data) profileResults _ k).trans ?_
  rw [mem_mapKeys_mapSet, mem_mapKeys_mapSet]
  simp only [mapKeys, List.map_nil, List.not_mem_nil, or_false]
  tauto

/-! ## Theorems on the join -/

/-- C1 (the code at the failing input): with two tasks of which the first to
be received delivers an error, `waitForTableChannels` returns that error after
one receive, and the outcome of the other task is left pending on the channel
that the caller then closes. -/
theorem C1_join_abandons_pending_task :
    waitForTableChannels [some "relation does not exist", none] 2
      = .returned (some "relation does not exist") 1 [none] := by
  decide

/-- C2: for `n ≥ 1` outcomes arriving on the channel, `waitForTableChannels`
returns; what it returns is the first non-nil error in arrival order when
there is one, and nil exactly when all `n` outcomes are nil. -/
theorem C2_join_returns_first_error (n : Nat) (arrivals : List GoError)
    (hn : 1 ≤ n) (hlen : arrivals.length = n) :
    ∃ err received pending,
      waitForTableChannels arrivals n = .returned err received pending ∧
      (err = none ↔ ∀ o ∈ arrivals, o = none) ∧
      (∀ e, err = some e →
        ∃ pre post, arrivals = pre ++ some e :: post ∧ ∀ o ∈ pre, o = none) ∧
      (∀ pre e post, arrivals = pre ++ some e :: post → (∀ o ∈ pre, o = none) →
        err = some e) := by
  have hne : arrivals ≠ [] := by
    intro h
    rw [h] at hlen
    simp only [List.length_nil] at hlen
    omega
  rcases split_first_error arrivals with hall | ⟨pre, e, post, hsplit, hpre⟩
  · refine ⟨none, 0 + arrivals.length, [], ?_, ?_, ?_, ?_⟩
    · exact waitLoop_all_nil n arrivals 0 0 hne (by omega) hall
    · exact ⟨fun _ => hall, fun _ => rfl⟩
    · intro e he
      cases he
    · intro pre e post hsplit _
      have := hall (some e) (by rw [hsplit]; simp)
      cases this
  · have hl : 0 + pre.length < n := by
      rw [← hlen, hsplit]
      simp only [List.length_append, List.length_cons]
      omega
    refine ⟨some e, 0 + pre.length + 1, post, ?_, ?_, ?_, ?_⟩
    · rw [hsplit]
      exact waitLoop_first_error n pre e post 0 0 hl hpre
    · constructor
      · intro h
        cases h
      · intro h
        have := h (some e) (by rw [hsplit]; simp)
        cases this
    · intro e2 he2
      cases he2
      exact ⟨pre, post, hsplit, hpre⟩
    · intro pre2 e2 post2 hsplit2 hpre2
      have h1 := waitLoop_first_error n pre e post 0 0 hl hpre
      have hl2 : 0 + pre2.length < n := by
        rw [← hlen, hsplit2]
        simp only [List.length_append, List.length_cons]
        omega
      have h2 := waitLoop_first_error n pre2 e2 post2 0 0 hl2 hpre2
      rw [← hsplit] at h1
      rw [← hsplit2] at h2
      rw [h1] at h2
      injection h2 with h2


/-- Witness of C2: three outcomes, the second and third of them errors. -/
theorem C2_join_returns_first_error_witness :
    ∃ err received pending,
      waitForTableChannels [none, some "a", some "b"] 3 = .returned err received pending ∧
      (err = none ↔ ∀ o ∈ [none, some "a", some "b"], o = none) ∧
      (∀ e, err = some e →
        ∃ pre post, [none, some "a", some "b"] = pre ++ some e :: post ∧
          ∀ o ∈ pre, o = none) ∧
      (∀ pre e post, [none, some "a", some "b"] = pre ++ some e :: post →
        (∀ o ∈ pre, o = none) → err = some e) :=
  C2_join_returns_first_error 3 [none, some "a", some "b"] (by decide) rfl

/-! ## Theorems on the type mapping and the aggregate expressions -/

/-- C4: the SQL type of a new column is computed from the runtime type of the
value when the value is non-null and from the fallback scan type otherwise; it
is `int` for every signed integer kind, `text` for the string kind,
`timestamptz` for `time.Time`, `numeric` for a slice of bytes, and for every
other type, and for a null value with a null fallback, the result is an error
and no type token. -/
theorem C4_resolved_sql_type (v : Option GoValue) (fb : Option GoType) :
    resolveDataType v fb = (match v with
      | some x => some x.TypeOf
      | none => fb) ∧
    (match resolveDataType v fb with
      | none => ∃ msg, convertTypeToSQLType (resolveDataType v fb) = .error msg
      | some t =>
          if t.Kind ∈ [Kind.Int, Kind.Int8, Kind.Int16, Kind.Int32, Kind.Int64] then
            convertTypeToSQLType (some t) = .ok "int"
          else if t.Kind = Kind.String then
            convertTypeToSQLType (some t) = .ok "text"
          else if t = timeTime then
            convertTypeToSQLType (some t) = .ok "timestamptz"
          else if t.Kind = Kind.Slice ∧ t.Elem.map GoType.Kind = some Kind.Uint8 then
            convertTypeToSQLType (some t) = .ok "numeric"
          else
            ∃ msg, convertTypeToSQLType (some t) = .error msg) := by
  constructor
  · cases v <;> rfl
  · cases hr : resolveDataType v fb with
    | none => exact ⟨_, rfl⟩
    | some t =>
        have htime : timeTime.Kind = Kind.Struct := rfl
        have hsame : ∀ x : GoType, isSameStructType x (.time 0) = true ↔ x = timeTime := by
          intro x
          simp [isSameStructType, GoValue.TypeOf]
        by_cases ht : t = timeTime
        · subst ht
          simp [convertTypeToSQLType, htime, (hsame timeTime).mpr rfl]
        · have hns : isSameStructType t (.time 0) = false := by
            cases h : isSameStructType t (.time 0)
            · rfl
            · exact absurd ((hsame t).mp h) ht
          cases hk : t.Kind <;>
            simp [convertTypeToSQLType, hk, ht, hns]
          split <;> simp_all

/-- C5: the aggregate expressions of a driver type name are maximum, minimum
and average for the integer and numeric names, maximum and minimum for the
timestamp and date names, maximal and average length for the character names,
and none for every other name. -/
theorem C5_ProfilesByType_table (t : String) :
    ProfilesByType t =
      if t ∈ ["INT2", "INT4", "INT8", "NUMERIC"] then
        [("maximum", "max(%s)"), ("minimum", "min(%s)"), ("average", "avg(%s)")]
      else if t ∈ ["TIMESTAMP", "TIMESTAMPTZ", "DATE"] then
        [("maximum", "max(%s)"), ("minimum", "min(%s)")]
      else if t ∈ ["VARCHAR", "BPCHAR", "TEXT"] then
        [("max_length", "max(length(%s))"), ("avg_length", "avg(length(%s))")]
      else
        [] := by
  have e1 : mapSet (mapSet (mapSet ([] : GoMap String) "maximum" "max(%s)")
      "minimum" "min(%s)") "average" "avg(%s)"
      = [("maximum", "max(%s)"), ("minimum", "min(%s)"), ("average", "avg(%s)")] := by
    decide
  have e2 : mapSet (mapSet ([] : GoMap String) "maximum" "max(%s)") "minimum" "min(%s)"
      = [("maximum", "max(%s)"), ("minimum", "min(%s)")] := by
    decide
  have e3 : mapSet (mapSet ([] : GoMap String) "max_length" "max(length(%s))")
      "avg_length" "avg(length(%s))"
      = [("max_length", "max(length(%s))"), ("avg_length", "avg(length(%s))")] := by
    decide
  unfold ProfilesByType
  simp only [List.mem_cons, List.mem_singleton, List.not_mem_nil, or_false]
  by_cases h1 : t = "INT4" ∨ t = "NUMERIC" ∨ t = "INT2" ∨ t = "INT8"
  · have h1b : t = "INT2" ∨ t = "INT4" ∨ t = "INT8" ∨ t = "NUMERIC" := by tauto
    rw [if_pos h1, if_pos h1b]
    exact e1
  · have h1b : ¬ (t = "INT2" ∨ t = "INT4" ∨ t = "INT8" ∨ t = "NUMERIC") := by tauto
    rw [if_neg h1, if_neg h1b]
    by_cases h2 : t = "TIMESTAMP" ∨ t = "TIMESTAMPTZ" ∨ t = "DATE"
    · rw [if_pos h2, if_pos h2]
      exact e2
    · rw [if_neg h2, if_neg h2]
      by_cases h3 : t = "VARCHAR" ∨ t = "BPCHAR" ∨ t = "TEXT"
      · rw [if_pos h3, if_pos h3]
        exact e3
      · rw [if_neg h3, if_neg h3]

/-! ## Theorems on the profile store -/

/-- C3: on a store that answers the lookup for the natural key `values` of a
table with no row, two calls of `getOrInsertTableRowID` in sequence return the
same id, and exactly one row is inserted over the two calls: the first call
looks up and inserts, the second call only looks up.  The key has at least one
column, its values are non-nil and its columns are distinct identifiers of the
store. -/
theorem C3_getOrInsertTableRowID_idempotent (p : ProfileStore) (tableName : String)
    (values : GoMap GoInterface) (s : Store)
    (hne : values ≠ [])
    (hsome : ∀ kv ∈ values, kv.2.isSome = true)
    (hnd : ((handleColumnDataNamingConvention p values).map
      (fun kv => ToLower kv.1)).Nodup)
    (hlookup : PostgresConn.GetRowsSelectWhere s (handleNamingConvention p tableName) ["id"]
      (handleColumnDataNamingConvention p values) = .ok []) :
    ∃ id s1 s2,
      getOrInsertTableRowID p tableName values s = (.ok id, s1) ∧
      getOrInsertTableRowID p tableName values s1 = (.ok id, s2) ∧
      s1.rowsOf (handleNamingConvention p tableName)
        = s.rowsOf (handleNamingConvention p tableName)
          ++ [PgRow.mk id ((handleColumnDataNamingConvention p values).map
                (fun kv => (ToLower kv.1, kv.2)))] ∧
      (∀ other, ToLower other ≠ ToLower (handleNamingConvention p tableName) →
        s1.table other = s.table other) ∧
      s2.tables = s1.tables ∧
      s2.calls = s.calls ++
        [ .GetRowsSelectWhere (handleNamingConvention p tableName) ["id"]
            (handleColumnDataNamingConvention p values),
          .InsertRowAndReturnID (handleNamingConvention p tableName)
            (handleColumnDataNamingConvention p values),
          .GetRowsSelectWhere (handleNamingConvention p tableName) ["id"]
            (handleColumnDataNamingConvention p values) ] := by
  generalize hT : handleNamingConvention p tableName = T at hlookup ⊢
  have hVne := handleColumnDataNamingConvention_ne_nil p values hne
  have hVsome := handleColumnDataNamingConvention_values p values
    (fun v => v.isSome = true) hsome
  generalize hV : handleColumnDataNamingConvention p values = V at hlookup hnd hVne hVsome ⊢
  obtain ⟨t, ht, hsel, hwh, hrows⟩ := GetRowsSelectWhere_inv s T ["id"] V [] hlookup
  have hcols : ∀ c ∈ V.map (fun kv => ToLower kv.1), c ∈ t.columns := by
    intro c hc
    obtain ⟨kv, hkv, rfl⟩ := List.mem_map.mp hc
    exact hwh kv hkv
  -- the insert of the first call
  have hins : PostgresConn.InsertRowAndReturnID (s.record (.GetRowsSelectWhere T ["id"] V)) T V
      = (.ok (t.serial + 1),
          Store.mk
            (putTable s.tables (ToLower T)
              (PgTable.mk t.columns
                (t.rows ++ [PgRow.mk (t.serial + 1) (V.map (fun kv => (ToLower kv.1, kv.2)))])
                (t.serial + 1)))
            (s.calls ++ [.GetRowsSelectWhere T ["id"] V])) := by
    simp only [PostgresConn.InsertRowAndReturnID, table_record, ht]
    rw [if_neg hVne, if_neg (not_not.mpr hcols), if_neg (not_not.mpr hnd)]
    rfl
  have hfirst : getOrInsertTableRowID p tableName values s
      = (.ok (t.serial + 1),
          (Store.mk
            (putTable s.tables (ToLower T)
              (PgTable.mk t.columns
                (t.rows ++ [PgRow.mk (t.serial + 1) (V.map (fun kv => (ToLower kv.1, kv.2)))])
                (t.serial + 1)))
            (s.calls ++ [.GetRowsSelectWhere T ["id"] V])).record
              (.InsertRowAndReturnID T V)) := by
    simp only [getOrInsertTableRowID, hT, hV, DBConn.GetRowsSelectWhere, hlookup,
      DBConn.InsertRowAndReturnID, hins]
  generalize hs1 : (Store.mk
      (putTable s.tables (ToLower T)
        (PgTable.mk t.columns
          (t.rows ++ [PgRow.mk (t.serial + 1) (V.map (fun kv => (ToLower kv.1, kv.2)))])
          (t.serial + 1)))
      (s.calls ++ [.GetRowsSelectWhere T ["id"] V])).record (.InsertRowAndReturnID T V)
    = s1 at hfirst
  have ht1 : s1.table T = some (PgTable.mk t.columns
      (t.rows ++ [PgRow.mk (t.serial + 1) (V.map (fun kv => (ToLower kv.1, kv.2)))])
      (t.serial + 1)) := by
    rw [← hs1, table_record]
    exact table_put_self s T _
  have hfilter : (t.rows ++ [PgRow.mk (t.serial + 1)
      (V.map (fun kv => (ToLower kv.1, kv.2)))]).filter (PostgresConn.rowMatches V)
      = [PgRow.mk (t.serial + 1) (V.map (fun kv => (ToLower kv.1, kv.2)))] := by
    rw [List.filter_append, ← hrows]
    simp [List.filter, rowMatches_inserted V (t.serial + 1) hVsome hnd]
  have hlookup2 : PostgresConn.GetRowsSelectWhere s1 T ["id"] V
      = .ok [PgRow.mk (t.serial + 1) (V.map (fun kv => (ToLower kv.1, kv.2)))] := by
    rw [GetRowsSelectWhere_of_table s1 T ["id"] V _ ht1 hsel hwh]
    simp only [hfilter]
  have hsecond : getOrInsertTableRowID p tableName values s1
      = (.ok (t.serial + 1), s1.record (.GetRowsSelectWhere T ["id"] V)) := by
    simp only [getOrInsertTableRowID, hT, hV, DBConn.GetRowsSelectWhere, hlookup2]
  refine ⟨t.serial + 1, s1, s1.record (.GetRowsSelectWhere T ["id"] V),
    hfirst, hsecond, ?_, ?_, rfl, ?_⟩
  · simp only [Store.rowsOf, ht1, ht]
  · intro other hother
    rw [← hs1, table_record]
    exact table_put_other s T other _ hother
  · rw [← hs1]
    simp [Store.record]

/-- Witness of C3: registering the table `orders` twice on the scaffolded store. -/
theorem C3_getOrInsertTableRowID_idempotent_witness :
    ∃ id s1 s2,
      getOrInsertTableRowID (sampleProfileStore false) "table_names" sampleKey scaffoldedStore
        = (.ok id, s1) ∧
      getOrInsertTableRowID (sampleProfileStore false) "table_names" sampleKey s1
        = (.ok id, s2) ∧
      s1.rowsOf (handleNamingConvention (sampleProfileStore false) "table_names")
        = scaffoldedStore.rowsOf (handleNamingConvention (sampleProfileStore false) "table_names")
          ++ [PgRow.mk id ((handleColumnDataNamingConvention (sampleProfileStore false)
                sampleKey).map (fun kv => (ToLower kv.1, kv.2)))] ∧
      (∀ other, ToLower other
          ≠ ToLower (handleNamingConvention (sampleProfileStore false) "table_names") →
        s1.table other = scaffoldedStore.table other) ∧
      s2.tables = s1.tables ∧
      s2.calls = scaffoldedStore.calls ++
        [ .GetRowsSelectWhere (handleNamingConvention (sampleProfileStore false) "table_names")
            ["id"] (handleColumnDataNamingConvention (sampleProfileStore false) sampleKey),
          .InsertRowAndReturnID (handleNamingConvention (sampleProfileStore false) "table_names")
            (handleColumnDataNamingConvention (sampleProfileStore false) sampleKey),
          .GetRowsSelectWhere (handleNamingConvention (sampleProfileStore false) "table_names")
            ["id"] (handleColumnDataNamingConvention (sampleProfileStore false) sampleKey) ] :=
  C3_getOrInsertTableRowID_idempotent (sampleProfileStore false) "table_names" sampleKey
    scaffoldedStore (by decide) (by decide) (by decide) rfl

/-- C6: when `StoreColumnProfileData` returns without error, the destination
fact table exists, every table of the store has kept every column it had
before the call, and the destination table has every column of the row the
call inserts: the column-name-id column, the profile-record-id column and the
column of each result name after the casing conversion.  The row is the last
call made on the store. -/
theorem C6_fact_table_columns_grow (p : ProfileStore) (columnNamesID : Int)
    (columnType : String) (profileID : Int) (profileResults : List ColumnProfileData)
    (s s' : Store)
    (h : StoreColumnProfileData p columnNamesID columnType profileID profileResults s
      = (.ok (), s')) :
    (s'.table (getColumnProfileTableName p columnType)).isSome = true ∧
    (∀ t, ∀ c ∈ s.columnsOf t, c ∈ s'.columnsOf t) ∧
    s'.calls.getLast? = some (.InsertRowAndReturnID (getColumnProfileTableName p columnType)
      (handleColumnDataNamingConvention p
        (profileColumnData p columnNamesID profileID profileResults))) ∧
    (∀ k ∈ mapKeys (handleColumnDataNamingConvention p
        (profileColumnData p columnNamesID profileID profileResults)),
      ToLower k ∈ s'.columnsOf (getColumnProfileTableName p columnType)) ∧
    ToLower (handleNamingConvention p p.consts.TABLE_COLUMN_NAME_ID)
      ∈ s'.columnsOf (getColumnProfileTableName p columnType) ∧
    ToLower (handleNamingConvention p p.consts.PROFILE_RECORD_ID)
      ∈ s'.columnsOf (getColumnProfileTableName p columnType) ∧
    (∀ data ∈ profileResults,
      ToLower (handleNamingConvention p data.name)
        ∈ s'.columnsOf (getColumnProfileTableName p columnType)) := by
  simp only [StoreColumnProfileData, DBConn.DoesTableExist] at h
  generalize hdest : getColumnProfileTableName p columnType = dest at h ⊢
  generalize hdata : handleColumnDataNamingConvention p
    (profileColumnData p columnNamesID profileID profileResults) = columnData at h ⊢
  have hmono1 := ensureProfileTable_columns_mono p dest
    (handleDBColumnDefinitionArrNamingConvention p (profileColumnDefinitions p profileResults))
    profileResults (PostgresConn.DoesTableExist s dest).1
    (s.record (.DoesTableExist dest))
  cases hens : ensureProfileTable p dest
    (handleDBColumnDefinitionArrNamingConvention p (profileColumnDefinitions p profileResults))
    profileResults (PostgresConn.DoesTableExist s dest).1
    (s.record (.DoesTableExist dest)) with
  | mk e s2 =>
    rw [hens] at h hmono1
    cases e with
    | some err =>
        simp only [Prod.mk.injEq] at h
        exact absurd h.1 (by simp)
    | none =>
        simp only [DBConn.InsertRowAndReturnID] at h
        have hnp : ∀ msg, (PostgresConn.InsertRowAndReturnID s2 dest columnData).1
            ≠ .panic msg := by
          intro msg hm
          rw [hm] at h
          simp only [Prod.mk.injEq] at h
          exact absurd h.1 (by simp)
        obtain ⟨t, ht, _, hcols, _, heq⟩ := InsertRowAndReturnID_inv s2 dest columnData hnp
        rw [heq] at h
        simp only [Prod.mk.injEq, true_and] at h
        have htab : s'.table dest = some
            (PgTable.mk t.columns
              (t.rows ++ [PgRow.mk (t.serial + 1)
                (columnData.map (fun kv => (ToLower kv.1, kv.2)))])
              (t.serial + 1)) := by
          rw [← h, table_record]
          exact table_put_self s2 dest _
        have hcolsOf : s'.columnsOf dest = t.columns := by
          simp only [Store.columnsOf, htab]
        have hrow : ∀ k ∈ mapKeys columnData, ToLower k ∈ s'.columnsOf dest := by
          intro k hk
          rw [hcolsOf]
          apply hcols
          simp only [mapKeys, List.mem_map] at hk ⊢
          obtain ⟨kv, hkv, rfl⟩ := hk
          exact ⟨kv, hkv, rfl⟩
        have hkey : ∀ k0 ∈ mapKeys (profileColumnData p columnNamesID profileID
            profileResults), ToLower (handleNamingConvention p k0) ∈ s'.columnsOf dest := by
          intro k0 hk0
          apply hrow
          rw [← hdata, mem_mapKeys_handleColumnDataNamingConvention]
          exact ⟨k0, hk0, rfl⟩
        refine ⟨by rw [htab]; rfl, ?_, ?_, hrow, ?_, ?_, ?_⟩
        · intro other c hc
          have h1 := hmono1 other c (by rw [columnsOf_record]; exact hc)
          have h2 := InsertRowAndReturnID_columns_mono s2 dest columnData other c h1
          rw [heq] at h2
          rw [← h, columnsOf_record]
          exact h2
        · rw [← h]
          simp [Store.record]
        · exact hkey _ ((mem_mapKeys_profileColumnData p columnNamesID profileID
            profileResults _).mpr (Or.inl rfl))
        · exact hkey _ ((mem_mapKeys_profileColumnData p columnNamesID profileID
            profileResults _).mpr (Or.inr (Or.inl rfl)))
        · intro data hd
          exact hkey _ ((mem_mapKeys_profileColumnData p columnNamesID profileID
            profileResults _).mpr (Or.inr (Or.inr ⟨data, hd, rfl⟩)))

/-- Witness of C6: a second write of `INT4` facts, which adds the column `minimum`
to the table that the first write created. -/
theorem C6_fact_table_columns_grow_witness :
    StoreColumnProfileData (sampleProfileStore false) 8 "INT4" 1 sampleResultsB
        storeAfterFirstWrite
      = (.ok (), (StoreColumnProfileData (sampleProfileStore false) 8 "INT4" 1
          sampleResultsB storeAfterFirstWrite).2) ∧
    storeAfterFirstWrite.columnsOf "table_column_profile_INT4"
      = ["id", "table_column_name_id", "profile_record_id", "maximum", "average"] ∧
    ToLower (handleNamingConvention (sampleProfileStore false) "minimum")
      ∈ (StoreColumnProfileData (sampleProfileStore false) 8 "INT4" 1
          sampleResultsB storeAfterFirstWrite).2.columnsOf
            (getColumnProfileTableName (sampleProfileStore false) "INT4") :=
  ⟨by decide, by decide,
    (C6_fact_table_columns_grow (sampleProfileStore false) 8 "INT4" 1 sampleResultsB
      storeAfterFirstWrite _ (by decide)).2.2.2.2.2.2
      { data := some (.int 1), name := "minimum", scanType := some (.basic .int64) }
      (by decide)⟩

/-- C7: in default mode `ScaffoldProfileStore` succeeds on every store of the
model and makes exactly six calls of `CreateTableIfNotExists`, one per fixed
table and in this order, each with the table's non-identity columns in
declaration order; `id` is in none of these column lists, and it is in none of
the key sets that `getOrInsertTableRowIDFromStruct` builds for the lookup and
the insert, whatever the values of the fields. -/
theorem C7_scaffold_requests (p : ProfileStore) (hp : p.UsePascalCase = false) (s : Store) :
    (ScaffoldProfileStore p s).1 = none ∧
    (ScaffoldProfileStore p s).2.2.calls = s.calls ++
      [ .CreateTableIfNotExists "profile_records"
          [⟨"profile_date", some timeTime⟩],
        .CreateTableIfNotExists "table_names"
          [⟨"table_name", some (.basic .string)⟩],
        .CreateTableIfNotExists "table_profiles"
          [⟨"table_name_id", some (.basic .int)⟩, ⟨"table_row_count", some (.basic .int)⟩,
           ⟨"profile_record_id", some (.basic .int)⟩],
        .CreateTableIfNotExists "table_column_names"
          [⟨"table_name_id", some (.basic .int)⟩, ⟨"table_column_name", some (.basic .string)⟩,
           ⟨"table_column_type_id", some (.basic .int)⟩],
        .CreateTableIfNotExists "table_custom_column_names"
          [⟨"table_name_id", some (.basic .int)⟩, ⟨"table_column_name", some (.basic .string)⟩,
           ⟨"table_column_type_id", some (.basic .int)⟩,
           ⟨"table_custom_column_definition", some (.basic .string)⟩],
        .CreateTableIfNotExists "table_column_types"
          [⟨"table_column_type", some (.basic .string)⟩] ] ∧
    (∀ id date, mapKeys (handleColumnDataNamingConvention p
        (columnDataMapFromStruct p (ProfileRecord id date) [])) = ["profile_date"]) ∧
    (∀ id name, mapKeys (handleColumnDataNamingConvention p
        (columnDataMapFromStruct p (TableName id name) [])) = ["table_name"]) ∧
    (∀ id t n r, mapKeys (handleColumnDataNamingConvention p
        (columnDataMapFromStruct p (TableProfile id t n r) []))
      = ["table_name_id", "table_row_count", "profile_record_id"]) ∧
    (∀ id t c ty, mapKeys (handleColumnDataNamingConvention p
        (columnDataMapFromStruct p (TableColumnName id t c ty) []))
      = ["table_name_id", "table_column_name", "table_column_type_id"]) ∧
    (∀ id t c ty d, mapKeys (handleColumnDataNamingConvention p
        (columnDataMapFromStruct p (TableCustomColumnName id t c ty d) []))
      = ["table_name_id", "table_column_name", "table_column_type_id",
         "table_custom_column_definition"]) ∧
    (∀ id ty, mapKeys (handleColumnDataNamingConvention p
        (columnDataMapFromStruct p (TableColumnType id ty) [])) = ["table_column_type"]) := by
  have hid : ∀ x, handleNamingConvention p x = x := by
    intro x
    simp [handleNamingConvention, hp]
  have hd1 : getColumnDataFromStructExcludePrimaryKey p (ProfileRecord 0 0)
      = [⟨"profile_date", some timeTime⟩] := by
    simp [getColumnDataFromStructExcludePrimaryKey, ProfileRecord, idField, dbField,
      List.lookup, hid]
  have hd2 : getColumnDataFromStructExcludePrimaryKey p (TableName 0 "")
      = [⟨"table_name", some (.basic .string)⟩] := by
    simp [getColumnDataFromStructExcludePrimaryKey, TableName, idField, dbField,
      List.lookup, hid]
  have hd3 : getColumnDataFromStructExcludePrimaryKey p (TableProfile 0 0 0 0)
      = [⟨"table_name_id", some (.basic .int)⟩, ⟨"table_row_count", some (.basic .int)⟩,
         ⟨"profile_record_id", some (.basic .int)⟩] := by
    simp [getColumnDataFromStructExcludePrimaryKey, TableProfile, idField, dbField,
      List.lookup, hid]
  have hd4 : getColumnDataFromStructExcludePrimaryKey p (TableColumnName 0 0 "" 0)
      = [⟨"table_name_id", some (.basic .int)⟩, ⟨"table_column_name", some (.basic .string)⟩,
         ⟨"table_column_type_id", some (.basic .int)⟩] := by
    simp [getColumnDataFromStructExcludePrimaryKey, TableColumnName, idField, dbField,
      List.lookup, hid]
  have hd5 : getColumnDataFromStructExcludePrimaryKey p (TableCustomColumnName 0 0 "" 0 "")
      = [⟨"table_name_id", some (.basic .int)⟩, ⟨"table_column_name", some (.basic .string)⟩,
         ⟨"table_column_type_id", some (.basic .int)⟩,
         ⟨"table_custom_column_definition", some (.basic .string)⟩] := by
    simp [getColumnDataFromStructExcludePrimaryKey, TableCustomColumnName, idField, dbField,
      List.lookup, hid]
  have hd6 : getColumnDataFromStructExcludePrimaryKey p (TableColumnType 0 "")
      = [⟨"table_column_type", some (.basic .string)⟩] := by
    simp [getColumnDataFromStructExcludePrimaryKey, TableColumnType, idField, dbField,
      List.lookup, hid]
  have hn1 : getTableNameFromStruct p (ProfileRecord 0 0) = .ok "profile_records" := by
    simp [getTableNameFromStruct, ProfileRecord, idField, List.lookup, hid]
  have hn2 : getTableNameFromStruct p (TableName 0 "") = .ok "table_names" := by
    simp [getTableNameFromStruct, TableName, idField, List.lookup, hid]
  have hn3 : getTableNameFromStruct p (TableProfile 0 0 0 0) = .ok "table_profiles" := by
    simp [getTableNameFromStruct, TableProfile, idField, List.lookup, hid]
  have hn4 : getTableNameFromStruct p (TableColumnName 0 0 "" 0)
      = .ok "table_column_names" := by
    simp [getTableNameFromStruct, TableColumnName, idField, List.lookup, hid]
  have hn5 : getTableNameFromStruct p (TableCustomColumnName 0 0 "" 0 "")
      = .ok "table_custom_column_names" := by
    simp [getTableNameFromStruct, TableCustomColumnName, idField, List.lookup, hid]
  have hn6 : getTableNameFromStruct p (TableColumnType 0 "") = .ok "table_column_types" := by
    simp [getTableNameFromStruct, TableColumnType, idField, List.lookup, hid]
  obtain ⟨s1, e1, c1⟩ := createTableForProfileStoreTableStruct_ok p (ProfileRecord 0 0) s _ hn1
    (by rw [hd1]; exact ⟨_, rfl⟩) (by rw [hd1]; simp) (by rw [hd1]; decide)
  obtain ⟨s2, e2, c2⟩ := createTableForProfileStoreTableStruct_ok p (TableName 0 "") s1 _ hn2
    (by rw [hd2]; exact ⟨_, rfl⟩) (by rw [hd2]; simp) (by rw [hd2]; decide)
  obtain ⟨s3, e3, c3⟩ := createTableForProfileStoreTableStruct_ok p (TableProfile 0 0 0 0) s2 _
    hn3 (by rw [hd3]; exact ⟨_, rfl⟩) (by rw [hd3]; simp) (by rw [hd3]; decide)
  obtain ⟨s4, e4, c4⟩ := createTableForProfileStoreTableStruct_ok p (TableColumnName 0 0 "" 0)
    s3 _ hn4 (by rw [hd4]; exact ⟨_, rfl⟩) (by rw [hd4]; simp) (by rw [hd4]; decide)
  obtain ⟨s5, e5, c5⟩ := createTableForProfileStoreTableStruct_ok p
    (TableCustomColumnName 0 0 "" 0 "") s4 _ hn5
    (by rw [hd5]; exact ⟨_, rfl⟩) (by rw [hd5]; simp) (by rw [hd5]; decide)
  obtain ⟨s6, e6, c6⟩ := createTableForProfileStoreTableStruct_ok p (TableColumnType 0 "") s5 _
    hn6 (by rw [hd6]; exact ⟨_, rfl⟩) (by rw [hd6]; simp) (by rw [hd6]; decide)
  have hloop : scaffoldLoop p scaffoldStructs s = (none, s6) := by
    simp only [scaffoldStructs, scaffoldLoop, e1, e2, e3, e4, e5, e6]
  refine ⟨?_, ?_, ?_, ?_, ?_, ?_, ?_, ?_⟩
  · simp only [ScaffoldProfileStore, hloop]
  · simp only [ScaffoldProfileStore, hloop]
    rw [c6, c5, c4, c3, c2, c1, hd1, hd2, hd3, hd4, hd5, hd6]
    simp
  · intro id date
    simp [columnDataMapFromStruct, ProfileRecord, idField, dbField, List.lookup, hid,
      handleColumnDataNamingConvention, mapSet, mapKeys]
  · intro id name
    simp [columnDataMapFromStruct, TableName, idField, dbField, List.lookup, hid,
      handleColumnDataNamingConvention, mapSet, mapKeys]
  · intro id t n r
    simp [columnDataMapFromStruct, TableProfile, idField, dbField, List.lookup, hid,
      handleColumnDataNamingConvention, mapSet, mapKeys]
  · intro id t c ty
    simp [columnDataMapFromStruct, TableColumnName, idField, dbField, List.lookup, hid,
      handleColumnDataNamingConvention, mapSet, mapKeys]
  · intro id t c ty d
    simp [columnDataMapFromStruct, TableCustomColumnName, idField, dbField, List.lookup, hid,
      handleColumnDataNamingConvention, mapSet, mapKeys]
  · intro id ty
    simp [columnDataMapFromStruct, TableColumnType, idField, dbField, List.lookup, hid,
      handleColumnDataNamingConvention, mapSet, mapKeys]

/-- Witness of C7: the default mode on the empty store. -/
theorem C7_scaffold_requests_witness :
    (sampleProfileStore false).UsePascalCase = false ∧
    (ScaffoldProfileStore (sampleProfileStore false) emptyStore).1 = none ∧
    ((ScaffoldProfileStore (sampleProfileStore false) emptyStore).2.2.calls.map
      (fun c => match c with
        | .CreateTableIfNotExists t cols => (t, cols.map (fun d => d.ColumnName))
        | _ => ("", [])))
      = [ ("profile_records", ["profile_date"]),
          ("table_names", ["table_name"]),
          ("table_profiles", ["table_name_id", "table_row_count", "profile_record_id"]),
          ("table_column_names",
            ["table_name_id", "table_column_name", "table_column_type_id"]),
          ("table_custom_column_names",
            ["table_name_id", "table_column_name", "table_column_type_id",
             "table_custom_column_definition"]),
          ("table_column_types", ["table_column_type"]) ] :=
  ⟨rfl, (C7_scaffold_requests (sampleProfileStore false) rfl emptyStore).1, by
    rw [(C7_scaffold_requests (sampleProfileStore false) rfl emptyStore).2.1]
    rfl⟩

/-! ## Theorems on identifier casing -/

/-- C8: in each casing mode `handleNamingConvention` is idempotent on every
identifier, and it sends `table_name` to `TableName` in pascal mode and leaves
it unchanged in default mode.  The title-case table of the standard library is
a parameter; all that is asked of it is that no rune above ASCII title-cases
to the underscore. -/
theorem C8_handleNamingConvention_idempotent (p : ProfileStore)
    (hu : ∀ r : Char, 0x7F < r.toNat → p.unicode.ToTitleCase r ≠ '_') :
    (∀ s : String,
      handleNamingConvention p (handleNamingConvention p s) = handleNamingConvention p s) ∧
    handleNamingConvention { p with UsePascalCase := true } "table_name" = "TableName" ∧
    handleNamingConvention { p with UsePascalCase := false } "table_name" = "table_name" := by
  refine ⟨?_, rfl, rfl⟩
  intro s
  unfold handleNamingConvention
  by_cases hp : p.UsePascalCase = true
  · simp only [hp, if_true]
    exact convertSnakeCaseToPascalCase_idem p hu s
  · simp [hp]

/-- Witness of C8: a profile store in pascal mode over the ASCII-only tables. -/
theorem C8_handleNamingConvention_idempotent_witness :
    (∀ s : String,
      handleNamingConvention (sampleProfileStore true)
          (handleNamingConvention (sampleProfileStore true) s)
        = handleNamingConvention (sampleProfileStore true) s) ∧
    handleNamingConvention { sampleProfileStore true with UsePascalCase := true } "table_name"
      = "TableName" ∧
    handleNamingConvention { sampleProfileStore true with UsePascalCase := false } "table_name"
      = "table_name" :=
  C8_handleNamingConvention_idempotent (sampleProfileStore true)
    (fun r hr h => by
      have h2 : r = '_' := h
      rw [h2] at hr
      exact absurd hr (by decide))

/-- C9 (the claim at a single-word identifier): in pascal mode `id` is returned
unchanged, which is not its capitalized-concatenated form `Id`. -/
theorem C9_single_word_not_capitalized :
    handleNamingConvention (sampleProfileStore true) (specSeparatorWordForm ["id".data])
        = "id" ∧
      specCapitalizedConcatenated ["id".data] = "Id" ∧
      handleNamingConvention (sampleProfileStore true) (specSeparatorWordForm ["id".data])
        ≠ specCapitalizedConcatenated ["id".data] := by
  decide

/-- C9 (amended): in pascal mode an identifier of two or more lowercase ASCII
words joined by single underscores is converted to its capitalized-concatenated
form, and an identifier of a single such word is returned unchanged. -/
theorem C9_pascal_mode_on_separator_word_form (p : ProfileStore)
    (hp : p.UsePascalCase = true) (ws : List (List Char))
    (hws : ∀ w ∈ ws, specLowercaseWord w) :
    handleNamingConvention p (specSeparatorWordForm ws)
      = if 2 ≤ ws.length then specCapitalizedConcatenated ws
        else specSeparatorWordForm ws := by
  by_cases hlen : 2 ≤ ws.length
  · have hmem : ContainsAny "_" (specSeparatorWordForm ws) = true :=
      ContainsAny_underscore_true _ (underscore_mem_joinWords ws hlen)
    have h1 : (ReplaceAll (specSeparatorWordForm ws) '_' " ").data = joinWords ' ' ws :=
      flatMap_joinWords '_' ' ' ws
        (fun w hw c hc => lower_ne_underscore c ((hws w hw).2 c hc))
    have h2 : (Title p.unicode (ReplaceAll (specSeparatorWordForm ws) '_' " ")).data
        = joinWords ' ' (ws.map specCapitalize) := by
      simp only [Title, h1]
      exact titleLoop_joinWords p.unicode ws hws
    have h3 : (ReplaceAll (Title p.unicode (ReplaceAll (specSeparatorWordForm ws) '_' " "))
        ' ' "").data = (ws.map specCapitalize).flatten := by
      simp only [ReplaceAll] at h2 ⊢
      rw [h2]
      apply flatMap_joinWords_delete ' ' (ws.map specCapitalize)
      intro w hw
      obtain ⟨w0, hw0, rfl⟩ := List.mem_map.mp hw
      exact specCapitalize_no_space w0 (hws w0 hw0)
    simp only [handleNamingConvention, hp, if_true, convertSnakeCaseToPascalCase, hmem,
      Bool.not_true, Bool.false_eq_true, if_false, specCapitalizedConcatenated, hlen]
    exact String.ext h3
  · have hno : ContainsAny "_" (specSeparatorWordForm ws) = false := by
      apply ContainsAny_underscore_false
      match ws, hlen, hws with
      | [], _, _ =>
          intro c hc
          cases hc
      | [w], _, hws =>
          intro c hc
          exact lower_ne_underscore c ((hws w (List.mem_cons_self _ _)).2 c hc)
      | _ :: _ :: _, hlen, _ =>
          exact absurd (by simp only [List.length_cons]; omega) hlen
    simp only [handleNamingConvention, hp, if_true, convertSnakeCaseToPascalCase, hno,
      Bool.not_false, hlen, if_false]

/-- Witness of C9 (amended): the identifier `table_column_name` in pascal mode. -/
theorem C9_pascal_mode_on_separator_word_form_witness :
    (sampleProfileStore true).UsePascalCase = true ∧
    (∀ w ∈ ["table".data, "column".data, "name".data], specLowercaseWord w) ∧
    handleNamingConvention (sampleProfileStore true)
        (specSeparatorWordForm ["table".data, "column".data, "name".data])
      = if 2 ≤ ["table".data, "column".data, "name".data].length then
          specCapitalizedConcatenated ["table".data, "column".data, "name".data]
        else specSeparatorWordForm ["table".data, "column".data, "name".data] :=
  have hws : ∀ w ∈ ["table".data, "column".data, "name".data], specLowercaseWord w := by
    intro w hw
    simp only [List.mem_cons, List.mem_singleton, List.not_mem_nil, or_false] at hw
    rcases hw with rfl | rfl | rfl <;> exact ⟨by decide, by decide⟩
  ⟨rfl, hws,
    C9_pascal_mode_on_separator_word_form (sampleProfileStore true) rfl
      ["table".data, "column".data, "name".data] hws⟩

/-- C10 (the claim at the type name `INT4`): in default mode the table name
keeps the upper-case type name, so it is not the prefix followed by the
lower-cased type name. -/
theorem C10_type_name_not_lowercased :
    getColumnProfileTableName (sampleProfileStore false) "INT4"
        = "table_column_profile_INT4" ∧
      getColumnProfileTableName (sampleProfileStore false) "INT4"
        ≠ (sampleProfileStore false).consts.TABLE_COLUMN_PROFILE_PREFIX ++ ToLower "INT4" ∧
      getCustomColumnProfileTableName (sampleProfileStore false) "INT4"
        ≠ (sampleProfileStore false).consts.TABLE_CUSTOM_COLUMN_PROFILE_PREFIX
            ++ ToLower "INT4" := by
  decide

/-- C10 (amended): in default mode `getColumnProfileTableName t` is the
plain-column prefix followed by `t` as given, and
`getCustomColumnProfileTableName t` is the custom-column prefix followed by `t`
as given; the type name is not lower-cased. -/
theorem C10_profile_table_names (p : ProfileStore) (hp : p.UsePascalCase = false)
    (t : String) :
    getColumnProfileTableName p t = p.consts.TABLE_COLUMN_PROFILE_PREFIX ++ t ∧
    getCustomColumnProfileTableName p t
      = p.consts.TABLE_CUSTOM_COLUMN_PROFILE_PREFIX ++ t := by
  simp [getColumnProfileTableName, getCustomColumnProfileTableName,
    handleNamingConvention, hp]

/-- Witness of C10 (amended): the type name `NUMERIC` in default mode. -/
theorem C10_profile_table_names_witness :
    (sampleProfileStore false).UsePascalCase = false ∧
    getColumnProfileTableName (sampleProfileStore false) "NUMERIC"
      = (sampleProfileStore false).consts.TABLE_COLUMN_PROFILE_PREFIX ++ "NUMERIC" ∧
    getCustomColumnProfileTableName (sampleProfileStore false) "NUMERIC"
      = (sampleProfileStore false).consts.TABLE_CUSTOM_COLUMN_PROFILE_PREFIX ++ "NUMERIC" :=
  ⟨rfl, C10_profile_table_names (sampleProfileStore false) rfl "NUMERIC"⟩

/-! ## Lemmas on the lookup-or-insert -/

/-- The lookup-or-insert on a table without a matching row: one lookup, one insert. -/
theorem getOrInsertTableRowID_insert (p : ProfileStore) (tableName : String)
    (values : GoMap GoInterface) (s : Store) (t : PgTable)
    (ht : s.table (handleNamingConvention p tableName) = some t)
    (hid : ToLower "id" ∈ t.columns)
    (hwh : ∀ kv ∈ handleColumnDataNamingConvention p values, ToLower kv.1 ∈ t.columns)
    (hne : handleColumnDataNamingConvention p values ≠ [])
    (hnd : ((handleColumnDataNamingConvention p values).map
      (fun kv => ToLower kv.1)).Nodup)
    (hno : t.rows.filter
      (PostgresConn.rowMatches (handleColumnDataNamingConvention p values)) = []) :
    getOrInsertTableRowID p tableName values s
      = (.ok (t.serial + 1),
          (Store.mk
            (putTable s.tables (ToLower (handleNamingConvention p tableName))
              (PgTable.mk t.columns
                (t.rows ++ [PgRow.mk (t.serial + 1)
                  ((handleColumnDataNamingConvention p values).map
                    (fun kv => (ToLower kv.1, kv.2)))])
                (t.serial + 1)))
            (s.calls ++ [.GetRowsSelectWhere (handleNamingConvention p tableName) ["id"]
              (handleColumnDataNamingConvention p values)])).record
              (.InsertRowAndReturnID (handleNamingConvention p tableName)
                (handleColumnDataNamingConvention p values))) := by
  generalize hT : handleNamingConvention p tableName = T at ht ⊢
  generalize hV : handleColumnDataNamingConvention p values = V at hwh hne hnd hno ⊢
  have hsel : ∀ c ∈ ["id"], c = "*" ∨ ToLower c ∈ t.columns := by
    intro c hc
    rw [List.mem_singleton] at hc
    rw [hc]
    exact Or.inr hid
  have hlookup : PostgresConn.GetRowsSelectWhere s T ["id"] V = .ok [] := by
    rw [GetRowsSelectWhere_of_table s T ["id"] V t ht hsel hwh, hno]
  have hcols : ∀ c ∈ V.map (fun kv => ToLower kv.1), c ∈ t.columns := by
    intro c hc
    obtain ⟨kv, hkv, rfl⟩ := List.mem_map.mp hc
    exact hwh kv hkv
  have hins : PostgresConn.InsertRowAndReturnID (s.record (.GetRowsSelectWhere T ["id"] V)) T V
      = (.ok (t.serial + 1),
          Store.mk
            (putTable s.tables (ToLower T)
              (PgTable.mk t.columns
                (t.rows ++ [PgRow.mk (t.serial + 1) (V.map (fun kv => (ToLower kv.1, kv.2)))])
                (t.serial + 1)))
            (s.calls ++ [.GetRowsSelectWhere T ["id"] V])) := by
    simp only [PostgresConn.InsertRowAndReturnID, table_record, ht]
    rw [if_neg hne, if_neg (not_not.mpr hcols), if_neg (not_not.mpr hnd)]
    rfl
  simp only [getOrInsertTableRowID, hT, hV, DBConn.GetRowsSelectWhere, hlookup,
    DBConn.InsertRowAndReturnID, hins]

/-- The lookup-or-insert on a table with a matching row: one lookup, and the
id of the first matching row. -/
theorem getOrInsertTableRowID_found (p : ProfileStore) (tableName : String)
    (values : GoMap GoInterface) (s : Store) (t : PgTable) (row : PgRow) (rest : List PgRow)
    (ht : s.table (handleNamingConvention p tableName) = some t)
    (hid : ToLower "id" ∈ t.columns)
    (hwh : ∀ kv ∈ handleColumnDataNamingConvention p values, ToLower kv.1 ∈ t.columns)
    (hfound : t.rows.filter
      (PostgresConn.rowMatches (handleColumnDataNamingConvention p values)) = row :: rest) :
    getOrInsertTableRowID p tableName values s
      = (.ok row.id,
          s.record (.GetRowsSelectWhere (handleNamingConvention p tableName) ["id"]
            (handleColumnDataNamingConvention p values))) := by
  generalize hT : handleNamingConvention p tableName = T at ht ⊢
  generalize hV : handleColumnDataNamingConvention p values = V at hwh hfound ⊢
  have hsel : ∀ c ∈ ["id"], c = "*" ∨ ToLower c ∈ t.columns := by
    intro c hc
    rw [List.mem_singleton] at hc
    rw [hc]
    exact Or.inr hid
  have hlookup : PostgresConn.GetRowsSelectWhere s T ["id"] V = .ok (row :: rest) := by
    rw [GetRowsSelectWhere_of_table s T ["id"] V t ht hsel hwh, hfound]
  simp only [getOrInsertTableRowID, hT, hV, DBConn.GetRowsSelectWhere, hlookup]

/-! ## Lemmas on `RecordTableProfile` -/

/-- The key of a `table_profiles` row under converted column names. -/
theorem rowMatches_profile_key (K1 K2 K3 : String) (t c r : Int) (row : PgRow) :
    PostgresConn.rowMatches
        [(K1, some (.int t)), (K2, some (.int c)), (K3, some (.int r))] row
      = (row.cells.lookup (ToLower K1) == some (some (.int t))
          && (row.cells.lookup (ToLower K2) == some (some (.int c))
          && row.cells.lookup (ToLower K3) == some (some (.int r)))) := by
  simp [PostgresConn.rowMatches]

/-- Two calls of `RecordTableProfile` for one table and one run, under given
converted names of the table and of its three key columns. -/
theorem RecordTableProfile_twice (p : ProfileStore) (T K1 K2 K3 : String)
    (hT1 : handleNamingConvention p "table_profiles" = T)
    (hT2 : handleNamingConvention p T = T)
    (hK1 : handleNamingConvention p "table_name_id" = K1)
    (hK2 : handleNamingConvention p "table_row_count" = K2)
    (hK3 : handleNamingConvention p "profile_record_id" = K3)
    (hK1c : handleNamingConvention p K1 = K1)
    (hK2c : handleNamingConvention p K2 = K2)
    (hK3c : handleNamingConvention p K3 = K3)
    (h12 : ToLower K1 ≠ ToLower K2) (h13 : ToLower K1 ≠ ToLower K3)
    (h23 : ToLower K2 ≠ ToLower K3)
    (t r c1 c2 : Int) (s : Store) (tbl : PgTable)
    (htbl : s.table T = some tbl)
    (hid : ToLower "id" ∈ tbl.columns)
    (hc1 : ToLower K1 ∈ tbl.columns) (hc2 : ToLower K2 ∈ tbl.columns)
    (hc3 : ToLower K3 ∈ tbl.columns)
    (hnone : ∀ row ∈ tbl.rows, specTableProfileRowFor p t r row = false) :
    ∃ id1 id2 s1 s2,
      RecordTableProfile p t c1 r s = (.ok id1, s1) ∧
      RecordTableProfile p t c2 r s1 = (.ok id2, s2) ∧
      ((s2.rowsOf T).filter (specTableProfileRowFor p t r)).length
        = if c1 = c2 then 1 else 2 := by
  have hk12 : K1 ≠ K2 := fun e => h12 (by rw [e])
  have hk13 : K1 ≠ K3 := fun e => h13 (by rw [e])
  have hk23 : K2 ≠ K3 := fun e => h23 (by rw [e])
  have hmap : ∀ c, columnDataMapFromStruct p (TableProfile 0 t c r) []
      = [(K1, some (.int t)), (K2, some (.int c)), (K3, some (.int r))] := by
    intro c
    simp [columnDataMapFromStruct, TableProfile, idField, dbField, List.lookup, mapSet,
      hK1, hK2, hK3, hk12, hk13, hk23]
  have hconv : ∀ c, handleColumnDataNamingConvention p
      [(K1, some (.int t)), (K2, some (.int c)), (K3, some (.int r))]
      = [(K1, some (GoValue.int t)), (K2, some (.int c)), (K3, some (.int r))] := by
    intro c
    simp [handleColumnDataNamingConvention, mapSet, hK1c, hK2c, hK3c, hk12, hk13, hk23]
  have hrec : ∀ c s0, RecordTableProfile p t c r s0
      = getOrInsertTableRowID p T
          [(K1, some (.int t)), (K2, some (.int c)), (K3, some (.int r))] s0 := by
    intro c s0
    have hname : getTableNameFromStruct p (TableProfile 0 t c r) = .ok T := by
      simp [getTableNameFromStruct, TableProfile, idField, List.lookup, hT1]
    simp only [RecordTableProfile, getOrInsertTableRowIDFromStruct, hname, hmap]
  have hspec : ∀ row, specTableProfileRowFor p t r row
      = (row.cells.lookup (ToLower K1) == some (some (.int t))
          && row.cells.lookup (ToLower K3) == some (some (.int r))) := by
    intro row
    simp only [specTableProfileRowFor, hK1, hK3]
  have hwh : ∀ c, ∀ kv ∈ handleColumnDataNamingConvention p
      [(K1, some (GoValue.int t)), (K2, some (.int c)), (K3, some (.int r))],
      ToLower kv.1 ∈ tbl.columns := by
    intro c kv hkv
    rw [hconv] at hkv
    simp only [List.mem_cons, List.mem_singleton, List.not_mem_nil, or_false] at hkv
    rcases hkv with h | h | h <;> rw [h] <;> assumption
  have hnd : ∀ c, ((handleColumnDataNamingConvention p
      [(K1, some (GoValue.int t)), (K2, some (.int c)), (K3, some (.int r))]).map
      (fun kv => ToLower kv.1)).Nodup := by
    intro c
    rw [hconv]
    simp [h12, h13, h23]
  have hold : ∀ c, tbl.rows.filter (PostgresConn.rowMatches
      [(K1, some (GoValue.int t)), (K2, some (.int c)), (K3, some (.int r))]) = [] := by
    intro c
    rw [List.filter_eq_nil_iff]
    intro row hrow hm
    have h1 := hnone row hrow
    rw [hspec] at h1
    rw [rowMatches_profile_key] at hm
    simp only [Bool.and_eq_true] at hm
    simp [hm.1, hm.2.2] at h1
  have holdspec : tbl.rows.filter (specTableProfileRowFor p t r) = [] := by
    rw [List.filter_eq_nil_iff]
    intro row hrow
    simp [hnone row hrow]
  -- the first call inserts
  have hfirst := getOrInsertTableRowID_insert p T
    [(K1, some (.int t)), (K2, some (.int c1)), (K3, some (.int r))] s tbl
    (by rw [hT2]; exact htbl) hid (hwh c1) (by rw [hconv]; simp) (hnd c1)
    (by rw [hconv]; exact hold c1)
  rw [hT2, hconv] at hfirst
  generalize hs1 : (Store.mk
      (putTable s.tables (ToLower T)
        (PgTable.mk tbl.columns
          (tbl.rows ++ [PgRow.mk (tbl.serial + 1)
            (List.map (fun kv => (ToLower kv.1, kv.2))
              [(K1, some (GoValue.int t)), (K2, some (.int c1)), (K3, some (.int r))])])
          (tbl.serial + 1)))
      (s.calls ++ [.GetRowsSelectWhere T ["id"]
        [(K1, some (.int t)), (K2, some (.int c1)), (K3, some (.int r))]])).record
      (.InsertRowAndReturnID T
        [(K1, some (.int t)), (K2, some (.int c1)), (K3, some (.int r))]) = s1 at hfirst
  generalize hrow1 : PgRow.mk (tbl.serial + 1)
      (List.map (fun kv => (ToLower kv.1, kv.2))
        [(K1, some (GoValue.int t)), (K2, some (.int c1)), (K3, some (.int r))]) = row1
    at hs1
  have ht1 : s1.table T = some (PgTable.mk tbl.columns (tbl.rows ++ [row1])
      (tbl.serial + 1)) := by
    rw [← hs1, table_record]
    exact table_put_self s T _
  have hl1 : row1.cells.lookup (ToLower K1) = some (some (.int t)) := by
    rw [← hrow1]
    simp [List.lookup]
  have hl2 : row1.cells.lookup (ToLower K2) = some (some (.int c1)) := by
    rw [← hrow1]
    have e : (ToLower K2 == ToLower K1) = false := by
      simpa using fun e => h12 e.symm
    simp [List.lookup, e]
  have hl3 : row1.cells.lookup (ToLower K3) = some (some (.int r)) := by
    rw [← hrow1]
    have e1 : (ToLower K3 == ToLower K1) = false := by
      simpa using fun e => h13 e.symm
    have e2 : (ToLower K3 == ToLower K2) = false := by
      simpa using fun e => h23 e.symm
    simp [List.lookup, e1, e2]
  have hspec1 : specTableProfileRowFor p t r row1 = true := by
    rw [hspec, hl1, hl3]
    simp
  by_cases hc : c1 = c2
  · -- the second call finds the row of the first call
    have hm : PostgresConn.rowMatches
        [(K1, some (GoValue.int t)), (K2, some (.int c2)), (K3, some (.int r))] row1
        = true := by
      rw [rowMatches_profile_key, hl1, hl2, hl3, hc]
      simp
    have hfound : (tbl.rows ++ [row1]).filter (PostgresConn.rowMatches
        [(K1, some (GoValue.int t)), (K2, some (.int c2)), (K3, some (.int r))])
        = row1 :: [] := by
      rw [List.filter_append, hold c2]
      simp [List.filter, hm]
    have hsecond := getOrInsertTableRowID_found p T
      [(K1, some (.int t)), (K2, some (.int c2)), (K3, some (.int r))] s1
      (PgTable.mk tbl.columns (tbl.rows ++ [row1]) (tbl.serial + 1)) row1 []
      (by rw [hT2]; exact ht1) hid (hwh c2) (by rw [hconv]; exact hfound)
    refine ⟨_, _, s1, _, by rw [hrec]; exact hfirst, by rw [hrec]; exact hsecond, ?_⟩
    simp only [Store.rowsOf, table_record, ht1, List.filter_append, holdspec, hc, if_true]
    simp [List.filter, hspec1]
  · -- the second call inserts a second row
    have hm : PostgresConn.rowMatches
        [(K1, some (GoValue.int t)), (K2, some (.int c2)), (K3, some (.int r))] row1
        = false := by
      rw [rowMatches_profile_key, hl1, hl2, hl3]
      simp [hc]
    have hnot : (tbl.rows ++ [row1]).filter (PostgresConn.rowMatches
        [(K1, some (GoValue.int t)), (K2, some (.int c2)), (K3, some (.int r))]) = [] := by
      rw [List.filter_append, hold c2]
      simp [List.filter, hm]
    have hsecond := getOrInsertTableRowID_insert p T
      [(K1, some (.int t)), (K2, some (.int c2)), (K3, some (.int r))] s1
      (PgTable.mk tbl.columns (tbl.rows ++ [row1]) (tbl.serial + 1))
      (by rw [hT2]; exact ht1) hid (hwh c2) (by rw [hconv]; simp) (hnd c2)
      (by rw [hconv]; exact hnot)
    rw [hT2, hconv] at hsecond
    refine ⟨_, _, s1, _, by rw [hrec]; exact hfirst, by rw [hrec]; exact hsecond, ?_⟩
    have hl1b : ([(ToLower K1, some (GoValue.int t)), (ToLower K2, some (GoValue.int c2)),
        (ToLower K3, some (GoValue.int r))] : List (String × GoInterface)).lookup (ToLower K1)
        = some (some (.int t)) := by
      simp [List.lookup]
    have hl3b : ([(ToLower K1, some (GoValue.int t)), (ToLower K2, some (GoValue.int c2)),
        (ToLower K3, some (GoValue.int r))] : List (String × GoInterface)).lookup (ToLower K3)
        = some (some (.int r)) := by
      have e1 : (ToLower K3 == ToLower K1) = false := by
        simpa using fun e => h13 e.symm
      have e2 : (ToLower K3 == ToLower K2) = false := by
        simpa using fun e => h23 e.symm
      simp [List.lookup, e1, e2]
    have hspec2 : specTableProfileRowFor p t r
        (PgRow.mk (tbl.serial + 1 + 1)
          [(ToLower K1, some (GoValue.int t)), (ToLower K2, some (GoValue.int c2)),
            (ToLower K3, some (GoValue.int r))]) = true := by
      rw [hspec]
      simp only [hl1b, hl3b]
      simp
    have ht2 := table_put_self s1 T
      (PgTable.mk tbl.columns
        ((tbl.rows ++ [row1]) ++ [PgRow.mk (tbl.serial + 1 + 1)
          [(ToLower K1, some (GoValue.int t)), (ToLower K2, some (GoValue.int c2)),
            (ToLower K3, some (GoValue.int r))]])
        (tbl.serial + 1 + 1))
    simp only [Store.rowsOf, table_record, List.map_cons, List.map_nil]
    simp only [Store.table] at ht2 ⊢
    rw [ht2]
    simp only [List.filter_append, holdspec, hc, if_false]
    simp [List.filter, hspec1, hspec2]

/-! ## Lemmas on the rows of the store -/

/-- The two parts of `StoreColumnProfileData`, one after the other, are the
function. -/
theorem StoreColumnProfileData_parts (p : ProfileStore) (columnNamesID : Int)
    (columnType : String) (profileID : Int) (profileResults : List ColumnProfileData)
    (s : Store) :
    StoreColumnProfileData.afterCheck p columnNamesID columnType profileID profileResults
        (StoreColumnProfileData.tableExists p columnType s).1
        (StoreColumnProfileData.tableExists p columnType s).2
      = StoreColumnProfileData p columnNamesID columnType profileID profileResults s :=
  rfl

/-- Writing a table with the rows it had keeps the rows of every table. -/
theorem rowsOf_put_same (s : Store) (tableName : String) (t : PgTable)
    (hrows : t.rows = s.rowsOf tableName) (other : String) :
    ({ s with tables := putTable s.tables (ToLower tableName) t } : Store).rowsOf other
      = s.rowsOf other := by
  by_cases h : ToLower other = ToLower tableName
  · have h1 : s.table other = s.table tableName := by
      simp only [Store.table, h]
    have h2 : ({ s with tables := putTable s.tables (ToLower tableName) t } : Store).table
        other = some t := by
      simp only [Store.table, h]
      exact lookup_putTable_self s.tables (ToLower tableName) t
    simp only [Store.rowsOf, h2, h1]
    simp only [Store.rowsOf] at hrows
    exact hrows
  · simp only [Store.rowsOf, table_put_other s tableName other t h]

theorem CreateTable_rowsOf (s : Store) (tableName : String)
    (columns : List DBColumnDefinition) (other : String) :
    (PostgresConn.CreateTable s tableName columns).2.rowsOf other = s.rowsOf other := by
  simp only [PostgresConn.CreateTable]
  split
  · rfl
  · by_cases h2 : (s.table tableName).isSome = true
    · split_ifs <;> rfl
    · have hnone : s.table tableName = none := by
        cases hq : s.table tableName with
        | none => rfl
        | some t => simp [hq] at h2
      split_ifs
      · rfl
      · apply rowsOf_put_same s tableName _ _ other
        simp [Store.rowsOf, hnone]
      · rfl

theorem AddTableColumn_rowsOf (s : Store) (tableName : String)
    (column : DBColumnDefinition) (other : String) :
    (PostgresConn.AddTableColumn s tableName column).2.rowsOf other = s.rowsOf other := by
  unfold PostgresConn.AddTableColumn
  split
  · rfl
  · split
    · rfl
    · rename_i t ht
      split_ifs with h1
      · rfl
      · apply rowsOf_put_same s tableName _ _ other
        simp only [Store.rowsOf, ht]

theorem ensureProfileColumns_rowsOf (p : ProfileStore) (profileTable : String) :
    ∀ (profileResults : List ColumnProfileData) (s : Store) (other : String),
      (ensureProfileColumns p profileTable profileResults s).2.rowsOf other = s.rowsOf other
  | [], _, _ => rfl
  | data :: rest, s, other => by
      simp only [ensureProfileColumns, DBConn.DoesTableColumnExist, DBConn.AddTableColumn]
      split_ifs with hex
      · have h1 := AddTableColumn_rowsOf
          (s.record (.DoesTableColumnExist profileTable (handleNamingConvention p data.name)))
          profileTable
          { ColumnName := handleNamingConvention p data.name,
            ColumnType := resolveDataType data.data data.scanType } other
        split
        · rename_i heq
          simp only [Prod.mk.injEq] at heq
          rw [← heq.2, rowsOf_record, h1, rowsOf_record]
        · rename_i heq
          simp only [Prod.mk.injEq] at heq
          rw [ensureProfileColumns_rowsOf p profileTable rest _ other, ← heq.2,
            rowsOf_record, h1, rowsOf_record]
      · rw [ensureProfileColumns_rowsOf p profileTable rest _ other, rowsOf_record]

theorem ensureProfileTable_rowsOf (p : ProfileStore) (profileTable : String)
    (columnDefinitions : List DBColumnDefinition) (profileResults : List ColumnProfileData)
    (tableExists : Bool) (s : Store) (other : String) :
    (ensureProfileTable p profileTable columnDefinitions profileResults
        tableExists s).2.rowsOf other = s.rowsOf other := by
  unfold ensureProfileTable
  split_ifs
  · simp only [DBConn.CreateTable, rowsOf_record]
    exact CreateTable_rowsOf s profileTable columnDefinitions other
  · exact ensureProfileColumns_rowsOf p profileTable profileResults s other

/-- A fact write that returns nil has ended with the insert of one row, which
is the new last row of the fact table of the type. -/
theorem StoreColumnProfileData_ok_rows (p : ProfileStore) (columnNamesID : Int)
    (columnType : String) (profileID : Int) (profileResults : List ColumnProfileData)
    (s : Store)
    (h : (StoreColumnProfileData p columnNamesID columnType profileID profileResults s).1
      = .ok ()) :
    (StoreColumnProfileData p columnNamesID columnType profileID profileResults s).2.calls.getLast?
      = some (.InsertRowAndReturnID (getColumnProfileTableName p columnType)
          (handleColumnDataNamingConvention p
            (profileColumnData p columnNamesID profileID profileResults))) ∧
    ∃ id, (StoreColumnProfileData p columnNamesID columnType profileID profileResults
        s).2.rowsOf (getColumnProfileTableName p columnType)
      = s.rowsOf (getColumnProfileTableName p columnType)
        ++ [PgRow.mk id ((handleColumnDataNamingConvention p
            (profileColumnData p columnNamesID profileID profileResults)).map
              (fun kv => (ToLower kv.1, kv.2)))] := by
  simp only [StoreColumnProfileData, DBConn.DoesTableExist] at h ⊢
  generalize hdest : getColumnProfileTableName p columnType = dest at h ⊢
  generalize hdata : handleColumnDataNamingConvention p
    (profileColumnData p columnNamesID profileID profileResults) = columnData at h ⊢
  have hrows1 := ensureProfileTable_rowsOf p dest
    (handleDBColumnDefinitionArrNamingConvention p (profileColumnDefinitions p profileResults))
    profileResults (PostgresConn.DoesTableExist s dest).1
    (s.record (.DoesTableExist dest)) dest
  cases hens : ensureProfileTable p dest
    (handleDBColumnDefinitionArrNamingConvention p (profileColumnDefinitions p profileResults))
    profileResults (PostgresConn.DoesTableExist s dest).1
    (s.record (.DoesTableExist dest)) with
  | mk e s2 =>
    rw [hens] at h hrows1
    cases e with
    | some err =>
        simp only at h
        cases h
    | none =>
        simp only [DBConn.InsertRowAndReturnID] at h ⊢
        have hnp : ∀ msg, (PostgresConn.InsertRowAndReturnID s2 dest columnData).1
            ≠ .panic msg := by
          intro msg hm
          rw [hm] at h
          simp only at h
          cases h
        obtain ⟨t, ht, _, _, _, heq⟩ := InsertRowAndReturnID_inv s2 dest columnData hnp
        rw [heq]
        simp only
        refine ⟨by simp [Store.record], t.serial + 1, ?_⟩
        rw [rowsOf_record]
        have htab := table_put_self s2 dest
          (PgTable.mk t.columns
            (t.rows ++ [PgRow.mk (t.serial + 1)
              (columnData.map (fun kv => (ToLower kv.1, kv.2)))])
            (t.serial + 1))
        simp only [rowsOf_record] at hrows1
        rw [← hrows1]
        simp only [Store.rowsOf, htab, ht]

/-- A call on the profile store inside a function that returned nil. -/
theorem callStore_ok {α : Type} (w : World) (c : ProfilerCall)
    (f : Store → Outcome α × Store) (rest : α → World → Outcome Unit × World)
    (h : (w.callStore c f rest).1 = .ok ()) :
    ∃ a, (f w.store).1 = .ok a ∧
      w.callStore c f rest
        = rest a { store := (f w.store).2, steps := w.steps ++ [⟨c, .ok ()⟩] } := by
  simp only [World.callStore, World.onStore] at h ⊢
  cases hf : (f w.store).1 with
  | error e =>
      rw [hf] at h
      cases h
  | panic m =>
      rw [hf] at h
      cases h
  | ok a => exact ⟨a, rfl, rfl⟩

/-- A query on the target inside a function that returned nil. -/
theorem callTarget_ok {α : Type} (w : World) (c : ProfilerCall)
    (answer : Outcome α) (rest : α → World → Outcome Unit × World)
    (h : (w.callTarget c answer rest).1 = .ok ()) :
    ∃ a, answer = .ok a ∧
      w.callTarget c answer rest
        = rest a { store := w.store, steps := w.steps ++ [⟨c, .ok ()⟩] } := by
  simp only [World.callTarget, World.query] at h ⊢
  cases answer with
  | error e => cases h
  | panic m => cases h
  | ok a => exact ⟨a, rfl, rfl⟩

/-! ## Lemmas on the calls of a task -/

theorem Calls_prefix {names : List String} {out : Outcome Unit} {steps : List Step}
    (h : Calls names out steps) : steps.map (fun st => st.call.name) <+: names := by
  induction h with
  | done => exact List.prefix_refl _
  | ownError names err => exact List.nil_prefix
  | next names step out rest _ _ ih =>
      simp only [List.map_cons]
      exact (List.prefix_cons_inj _).mpr ih
  | failed names step _ =>
      simp only [List.map_cons, List.map_nil]
      exact (List.prefix_cons_inj _).mpr List.nil_prefix

theorem Calls_ok {names : List String} {out : Outcome Unit} {steps : List Step}
    (h : Calls names out steps) (hout : out = .ok ()) :
    steps.map (fun st => st.call.name) = names ∧ ∀ st ∈ steps, st.result = .ok () := by
  induction h with
  | done => exact ⟨rfl, by simp⟩
  | ownError names err => cases hout
  | next names step out rest hstep _ ih =>
      obtain ⟨h1, h2⟩ := ih hout
      refine ⟨by simp only [List.map_cons, h1], ?_⟩
      intro st hst
      rcases List.mem_cons.mp hst with h | h
      · rw [h]
        exact hstep
      · exact h2 st h
  | failed names step hne => exact absurd hout hne

/-- A call that failed is the last call, and its result is the outcome. -/
theorem Calls_propagates {names : List String} {out : Outcome Unit} {steps : List Step}
    (h : Calls names out steps) :
    ∀ pre step post, steps = pre ++ step :: post → step.result ≠ .ok () →
      post = [] ∧ out = step.result := by
  induction h with
  | done =>
      intro pre step post he
      cases pre <;> cases he
  | ownError names err =>
      intro pre step post he
      cases pre <;> cases he
  | next names st out rest hst _ ih =>
      intro pre step post he hne
      cases pre with
      | nil =>
          simp only [List.nil_append, List.cons.injEq] at he
          rw [← he.1] at hne
          exact absurd hst hne
      | cons a pre =>
          simp only [List.cons_append, List.cons.injEq] at he
          exact ih pre step post he.2 hne
  | failed names st hst =>
      intro pre step post he _
      cases pre with
      | nil =>
          simp only [List.nil_append, List.cons.injEq] at he
          exact ⟨he.2.symm, by rw [he.1]⟩
      | cons a pre =>
          simp only [List.cons_append, List.cons.injEq] at he
          cases pre <;> cases he.2

/-- Calls that ended without error, followed by further calls. -/
theorem Calls_append {names1 names2 : List String} {out : Outcome Unit}
    {steps1 steps2 : List Step}
    (h1 : Calls names1 (.ok ()) steps1) (h2 : Calls names2 out steps2) :
    Calls (names1 ++ names2) out (steps1 ++ steps2) := by
  generalize hok : Outcome.ok () = o at h1
  induction h1 with
  | done => exact h2
  | ownError names err => cases hok
  | next names step out1 rest hstep _ ih =>
      exact Calls.next _ step out _ hstep (ih hok)
  | failed names step hne => exact absurd hok.symm hne

/-- Calls that ended with a failure stay as they are under more expected methods. -/
theorem Calls_stop {names1 : List String} (names2 : List String) {out : Outcome Unit}
    {steps : List Step}
    (h : Calls names1 out steps) (hout : out ≠ .ok ()) :
    Calls (names1 ++ names2) out steps := by
  induction h with
  | done => exact absurd rfl hout
  | ownError names err => exact Calls.ownError _ err
  | next names step out rest hstep _ ih =>
      exact Calls.next _ step out rest hstep (ih hout)
  | failed names step hne => exact Calls.failed _ step hne

theorem Calls_failed_at (n : String) (names : List String) (c : ProfilerCall)
    (r : Outcome Unit) (hn : c.name = n) (hr : r ≠ .ok ()) :
    Calls (n :: names) r [⟨c, r⟩] := by
  rw [← hn]
  exact Calls.failed names ⟨c, r⟩ hr

theorem Calls_next_at (n : String) (names : List String) (c : ProfilerCall)
    (out : Outcome Unit) (rest : List Step) (hn : c.name = n) (h : Calls names out rest) :
    Calls (n :: names) out (⟨c, .ok ()⟩ :: rest) := by
  rw [← hn]
  exact Calls.next names ⟨c, .ok ()⟩ out rest rfl h

theorem ofExcept_eq_ok {α : Type} {x : Except String α} {a : α}
    (h : Outcome.ofExcept x = .ok a) : x = .ok a := by
  cases x with
  | error e => cases h
  | ok b =>
      injection h with h
      rw [h]

theorem RunsCalls_done (w : World) : RunsCalls [] w (.ok (), w) :=
  ⟨[], by simp, Calls.done⟩

theorem RunsCalls_ownError (names : List String) (w : World) (err : String) :
    RunsCalls names w (.error err, w) :=
  ⟨[], by simp, Calls.ownError names err⟩

/-- A call on the profile store followed by the rest of the function. -/
theorem callStore_runs {α : Type} (w : World) (c : ProfilerCall)
    (f : Store → Outcome α × Store) (names : List String)
    (rest : α → World → Outcome Unit × World)
    (hrest : ∀ a w1, RunsCalls names w1 (rest a w1)) :
    RunsCalls (c.name :: names) w (w.callStore c f rest) := by
  simp only [World.callStore, World.onStore, RunsCalls]
  cases h : (f w.store).1 with
  | error e =>
      exact ⟨[⟨c, .error e⟩], by simp [Outcome.void],
        Calls_failed_at _ _ c _ rfl (by simp)⟩
  | panic m =>
      exact ⟨[⟨c, .panic m⟩], by simp [Outcome.void],
        Calls_failed_at _ _ c _ rfl (by simp)⟩
  | ok a =>
      simp only [Outcome.void]
      obtain ⟨new, h1, h2⟩ := hrest a
        { store := (f w.store).2, steps := w.steps ++ [⟨c, .ok ()⟩] }
      refine ⟨⟨c, .ok ()⟩ :: new, ?_, ?_⟩
      · rw [h1]
        simp
      · exact Calls_next_at _ _ c _ _ rfl h2

/-- A query on the target connection followed by the rest of the function. -/
theorem callTarget_runs {α : Type} (w : World) (c : ProfilerCall)
    (answer : Outcome α) (names : List String)
    (rest : α → World → Outcome Unit × World)
    (hrest : ∀ a w1, answer = .ok a → RunsCalls names w1 (rest a w1)) :
    RunsCalls (c.name :: names) w (w.callTarget c answer rest) := by
  simp only [World.callTarget, World.query, RunsCalls]
  cases answer with
  | error e =>
      exact ⟨[⟨c, .error e⟩], by simp [Outcome.void],
        Calls_failed_at _ _ c _ rfl (by simp)⟩
  | panic m =>
      exact ⟨[⟨c, .panic m⟩], by simp [Outcome.void],
        Calls_failed_at _ _ c _ rfl (by simp)⟩
  | ok a =>
      simp only [Outcome.void]
      obtain ⟨new, h1, h2⟩ := hrest a { w with steps := w.steps ++ [⟨c, .ok ()⟩] } rfl
      refine ⟨⟨c, .ok ()⟩ :: new, ?_, ?_⟩
      · rw [h1]
        simp
      · exact Calls_next_at _ _ c _ _ rfl h2

/-- A function of the task followed by the rest of the calling function. -/
theorem andThen_runs (names1 names2 : List String) (w : World)
    (r : Outcome Unit × World) (rest : World → Outcome Unit × World)
    (h1 : RunsCalls names1 w r) (h2 : ∀ w1, RunsCalls names2 w1 (rest w1)) :
    RunsCalls (names1 ++ names2) w (andThen r rest) := by
  obtain ⟨out, w1⟩ := r
  obtain ⟨new1, hs1, hc1⟩ := h1
  simp only at hs1 hc1
  cases out with
  | error e =>
      exact ⟨new1, hs1, Calls_stop names2 hc1 (by simp [andThen])⟩
  | panic m =>
      exact ⟨new1, hs1, Calls_stop names2 hc1 (by simp [andThen])⟩
  | ok u =>
      obtain ⟨new2, hs2, hc2⟩ := h2 w1
      refine ⟨new1 ++ new2, ?_, ?_⟩
      · simp only [andThen]
        rw [hs2, hs1, List.append_assoc]
      · simp only [andThen]
        exact Calls_append hc1 hc2

/-! ## Lemmas on the tasks -/

theorem handleProfileTableColumn_runs (T : TargetDB) (p : ProfileStore) (tableNameID : Int)
    (tableName : String) (profileID : Int) (columnData : ColumnType) (w : World) :
    RunsCalls columnCalls w
      (handleProfileTableColumn T p tableNameID tableName profileID columnData w) := by
  unfold handleProfileTableColumn
  apply callStore_runs w (.RegisterTableColumnType columnData.DatabaseTypeName) _
    ["RegisterTableColumn", "GetRowsSelect", "StoreColumnProfileData"]
  intro columnTypeID w1
  apply callStore_runs w1 (.RegisterTableColumn tableNameID columnTypeID columnData.Name) _
    ["GetRowsSelect", "StoreColumnProfileData"]
  intro columnNamesID w2
  apply callTarget_runs w2 (.GetRowsSelect tableName _) _ ["StoreColumnProfileData"]
  intro rows w3 _
  cases rows.ColumnTypes with
  | error e => exact RunsCalls_ownError _ w3 e
  | ok profileColumnData =>
      apply callStore_runs w3 (.StoreColumnProfileData columnNamesID
        columnData.DatabaseTypeName profileID _) _ []
      intro _ w4
      exact RunsCalls_done w4

theorem handleProfileTableColumns_runs (T : TargetDB) (p : ProfileStore) (tableNameID : Int)
    (tableName : String) (profileID : Int) :
    ∀ (columnsData : List ColumnType) (w : World),
      RunsCalls (List.replicate columnsData.length columnCalls).flatten w
        (handleProfileTableColumns T p tableNameID tableName profileID columnsData w)
  | [], w => RunsCalls_done w
  | columnData :: rest, w => by
      simp only [handleProfileTableColumns, List.length_cons, List.replicate_succ,
        List.flatten_cons]
      exact andThen_runs columnCalls _ w _ _
        (handleProfileTableColumn_runs T p tableNameID tableName profileID columnData w)
        (fun w1 => handleProfileTableColumns_runs T p tableNameID tableName profileID rest w1)

theorem recordTableRowCount_runs (T : TargetDB) (p : ProfileStore) (tableNameID : Int)
    (tableName : String) (profileID : Int) (w : World) :
    RunsCalls ["GetTableRowCount", "RecordTableProfile"] w
      (recordTableRowCount T p tableNameID tableName profileID w) := by
  unfold recordTableRowCount
  apply callTarget_runs w (.GetTableRowCount tableName) _ ["RecordTableProfile"]
  intro rowCount w1 _
  apply callStore_runs w1 (.RecordTableProfile tableNameID rowCount profileID) _ []
  intro _ w2
  exact RunsCalls_done w2

theorem profileTableWithColumnsData_runs (T : TargetDB) (p : ProfileStore)
    (tableName : String) (profileID : Int) (columnsData : List ColumnType) (w : World) :
    RunsCalls (tableCalls columnsData.length) w
      (profileTableWithColumnsData T p tableName profileID columnsData w) := by
  unfold profileTableWithColumnsData
  apply callStore_runs w (.RegisterTable tableName) _
    (["GetTableRowCount", "RecordTableProfile"]
      ++ (List.replicate columnsData.length columnCalls).flatten)
  intro tableNameID w1
  exact andThen_runs _ _ w1 _ _
    (recordTableRowCount_runs T p tableNameID tableName profileID w1)
    (fun w2 => handleProfileTableColumns_runs T p tableNameID tableName profileID
      columnsData w2)

theorem profileTable_runs (T : TargetDB) (p : ProfileStore) (tableName : String)
    (profileID : Int) (w : World) :
    RunsCalls (fullTableCalls (sampledColumns T tableName).length) w
      (profileTable T p tableName profileID w) := by
  unfold profileTable
  apply callTarget_runs w (.GetSelectAllColumnsSingle tableName) _
    (tableCalls (sampledColumns T tableName).length)
  intro rows w1 hrows
  cases hct : rows.ColumnTypes with
  | error e => exact RunsCalls_ownError _ w1 e
  | ok columnsData =>
      have hs : sampledColumns T tableName = columnsData := by
        simp only [sampledColumns, ofExcept_eq_ok hrows, hct]
      rw [hs]
      exact profileTableWithColumnsData_runs T p tableName profileID columnsData w1

theorem profileTableDefinedColumns_runs (T : TargetDB) (p : ProfileStore)
    (tableName : String) (profileID : Int) (columns : List String) :
    ∃ names, ∀ w, RunsCalls names w
      (profileTableDefinedColumns T p tableName profileID columns w) := by
  cases hq : T.GetSelectSingle tableName columns with
  | error e =>
      refine ⟨["GetSelectSingle"], fun w => ?_⟩
      unfold profileTableDefinedColumns
      apply callTarget_runs w (.GetSelectSingle tableName columns) _ []
      intro rows w1 h
      rw [hq] at h
      cases h
  | ok rows0 =>
      cases hct : rows0.ColumnTypes with
      | error e =>
          refine ⟨["GetSelectSingle"], fun w => ?_⟩
          unfold profileTableDefinedColumns
          apply callTarget_runs w (.GetSelectSingle tableName columns) _ []
          intro rows w1 h
          rw [hq] at h
          injection h with h
          rw [← h, hct]
          exact RunsCalls_ownError _ w1 e
      | ok columnsData =>
          refine ⟨"GetSelectSingle" :: tableCalls columnsData.length, fun w => ?_⟩
          unfold profileTableDefinedColumns
          apply callTarget_runs w (.GetSelectSingle tableName columns) _
            (tableCalls columnsData.length)
          intro rows w1 h
          rw [hq] at h
          injection h with h
          rw [← h, hct]
          exact profileTableWithColumnsData_runs T p tableName profileID columnsData w1

theorem customColumnsLoop_runs (p : ProfileStore) (tableDef : TableDefinition)
    (tableNameID : Int) (profileID : Int) :
    ∀ (columns : List (ColumnType × GoInterface)) (w : World),
      RunsCalls (List.replicate columns.length
          ["RegisterTableColumnType", "RegisterTableCustomColumn",
            "StoreCustomColumnProfileData"]).flatten w
        (customColumnsLoop p tableDef tableNameID profileID columns w)
  | [], w => RunsCalls_done w
  | (columnData, profileValue) :: rest, w => by
      simp only [customColumnsLoop, List.length_cons, List.replicate_succ, List.flatten_cons]
      apply callStore_runs w (.RegisterTableColumnType columnData.DatabaseTypeName) _
        (["RegisterTableCustomColumn", "StoreCustomColumnProfileData"]
          ++ (List.replicate rest.length
            ["RegisterTableColumnType", "RegisterTableCustomColumn",
              "StoreCustomColumnProfileData"]).flatten)
      intro columnTypeID w1
      apply callStore_runs w1
        (.RegisterTableCustomColumn tableNameID columnTypeID columnData.Name _) _
        (["StoreCustomColumnProfileData"]
          ++ (List.replicate rest.length
            ["RegisterTableColumnType", "RegisterTableCustomColumn",
              "StoreCustomColumnProfileData"]).flatten)
      intro columnNamesID w2
      apply callStore_runs w2
        (.StoreCustomColumnProfileData columnNamesID columnData profileID profileValue) _
        (List.replicate rest.length
            ["RegisterTableColumnType", "RegisterTableCustomColumn",
              "StoreCustomColumnProfileData"]).flatten
      intro _ w3
      exact customColumnsLoop_runs p tableDef tableNameID profileID rest w3

/-- A step that succeeded, put in front of the calls that follow it. -/
theorem RunsCalls_after (c : ProfilerCall) (names : List String) (w w1 : World)
    (r : Outcome Unit × World) (hw : w1.steps = w.steps ++ [⟨c, .ok ()⟩])
    (h : RunsCalls names w1 r) : RunsCalls (c.name :: names) w r := by
  obtain ⟨new, h1, h2⟩ := h
  refine ⟨⟨c, .ok ()⟩ :: new, ?_, Calls_next_at _ _ c _ _ rfl h2⟩
  rw [h1, hw]
  simp

/-- The calls of the custom-column task: either a sequence of calls that ends
at the first failure with the result of the failed call, or the sample query
failed and the task panicked on the rows it did not get. -/
theorem profileTableCustomColumns_runs (T : TargetDB) (p : ProfileStore)
    (tableDef : TableDefinition) (profileID : Int) (w : World) :
    (∃ names, RunsCalls names w (profileTableCustomColumns T p tableDef profileID w)) ∨
    (∃ e, T.GetRowsSelect tableDef.TableName
          (tableDef.CustomColumns.map
            (fun col => col.ColumnDefinition ++ " as " ++ col.ColumnName)) = .error e ∧
      (profileTableCustomColumns T p tableDef profileID w).1
        = .panic "runtime error: invalid memory address or nil pointer dereference" ∧
      (profileTableCustomColumns T p tableDef profileID w).2.steps
        = w.steps ++
          [⟨.RegisterTable tableDef.TableName, .ok ()⟩,
           ⟨.GetRowsSelect tableDef.TableName
              (tableDef.CustomColumns.map
                (fun col => col.ColumnDefinition ++ " as " ++ col.ColumnName)),
            .error e⟩]) := by
  unfold profileTableCustomColumns
  cases hq : T.GetRowsSelect tableDef.TableName
      (tableDef.CustomColumns.map
        (fun col => col.ColumnDefinition ++ " as " ++ col.ColumnName)) with
  | error e =>
      cases hreg : (RegisterTable p tableDef.TableName w.store).1 with
      | error e1 =>
          left
          refine ⟨["RegisterTable"], [⟨.RegisterTable tableDef.TableName, .error e1⟩], ?_, ?_⟩
          · simp [World.callStore, World.onStore, hreg, Outcome.void]
          · simp only [World.callStore, World.onStore, hreg]
            exact Calls_failed_at _ _ _ _ rfl (by simp)
      | panic m =>
          left
          refine ⟨["RegisterTable"], [⟨.RegisterTable tableDef.TableName, .panic m⟩], ?_, ?_⟩
          · simp [World.callStore, World.onStore, hreg, Outcome.void]
          · simp only [World.callStore, World.onStore, hreg]
            exact Calls_failed_at _ _ _ _ rfl (by simp)
      | ok tableNameID =>
          right
          refine ⟨e, rfl, ?_, ?_⟩
          · simp [World.callStore, World.onStore, hreg, World.query, hq]
          · simp [World.callStore, World.onStore, hreg, World.query, hq, Outcome.void]
  | panic m =>
      left
      refine ⟨["RegisterTable", "GetRowsSelect"], ?_⟩
      apply callStore_runs w (.RegisterTable tableDef.TableName) _ ["GetRowsSelect"]
      intro tableNameID w1
      simp only [World.query, hq]
      exact ⟨[⟨.GetRowsSelect tableDef.TableName _, .panic m⟩], rfl,
        Calls_failed_at _ _ _ _ rfl (by simp)⟩
  | ok rows =>
      left
      obtain ⟨dnames, hd⟩ := profileTableDefinedColumns_runs T p tableDef.TableName profileID
        tableDef.Columns
      cases hct : rows.ColumnTypes with
      | error e1 =>
          refine ⟨["RegisterTable", "GetRowsSelect"], ?_⟩
          apply callStore_runs w (.RegisterTable tableDef.TableName) _ ["GetRowsSelect"]
          intro tableNameID w1
          simp only [World.query, hq, hct]
          exact RunsCalls_after (.GetRowsSelect tableDef.TableName _) [] w1 _ _ rfl
            (RunsCalls_ownError _ _ e1)
      | ok columnsData =>
          cases hdata : rows.data with
          | nil =>
              refine ⟨["RegisterTable", "GetRowsSelect"], ?_⟩
              apply callStore_runs w (.RegisterTable tableDef.TableName) _ ["GetRowsSelect"]
              intro tableNameID w1
              simp only [World.query, hq, hct, hdata]
              exact RunsCalls_after (.GetRowsSelect tableDef.TableName _) [] w1 _ _ rfl
                (RunsCalls_ownError _ _ _)
          | cons row rest =>
              refine ⟨"RegisterTable" :: "GetRowsSelect" ::
                ((List.replicate (columnsData.zip
                    (scanFirstRow columnsData.length (row :: rest))).length
                  ["RegisterTableColumnType", "RegisterTableCustomColumn",
                    "StoreCustomColumnProfileData"]).flatten
                  ++ (if tableDef.Columns.length > 0 then dnames else [])), ?_⟩
              apply callStore_runs w (.RegisterTable tableDef.TableName) _
              intro tableNameID w1
              simp only [World.query, hq, hct, hdata]
              refine RunsCalls_after
                (.GetRowsSelect tableDef.TableName
                  (tableDef.CustomColumns.map
                    (fun col => col.ColumnDefinition ++ " as " ++ col.ColumnName))) _ w1
                ⟨w1.store, w1.steps ++
                  [⟨.GetRowsSelect tableDef.TableName
                    (tableDef.CustomColumns.map
                      (fun col => col.ColumnDefinition ++ " as " ++ col.ColumnName)),
                    .ok ()⟩]⟩ _ rfl ?_
              apply andThen_runs
              · exact customColumnsLoop_runs p tableDef tableNameID profileID _ _
              · intro w3
                split_ifs
                · exact hd w3
                · exact RunsCalls_done w3

/-! ## Lemmas on the calls of a task with their arguments -/

theorem Follows_prefix {expected : List ProfilerCall} {out : Outcome Unit}
    {steps : List Step}
    (h : Follows expected out steps) : steps.map (fun st => st.call) <+: expected := by
  induction h with
  | done => exact List.prefix_refl _
  | ownError expected err => exact List.nil_prefix
  | next expected step out rest _ _ ih =>
      simp only [List.map_cons]
      exact (List.prefix_cons_inj _).mpr ih
  | failed expected step _ =>
      simp only [List.map_cons, List.map_nil]
      exact (List.prefix_cons_inj _).mpr List.nil_prefix

theorem Follows_ok {expected : List ProfilerCall} {out : Outcome Unit} {steps : List Step}
    (h : Follows expected out steps) (hout : out = .ok ()) :
    steps.map (fun st => st.call) = expected ∧ ∀ st ∈ steps, st.result = .ok () := by
  induction h with
  | done => exact ⟨rfl, by simp⟩
  | ownError expected err => cases hout
  | next expected step out rest hstep _ ih =>
      obtain ⟨h1, h2⟩ := ih hout
      refine ⟨by simp only [List.map_cons, h1], ?_⟩
      intro st hst
      rcases List.mem_cons.mp hst with h | h
      · rw [h]
        exact hstep
      · exact h2 st h
  | failed expected step hne => exact absurd hout hne

/-- A call that failed is the last call, and its result is the outcome. -/
theorem Follows_propagates {expected : List ProfilerCall} {out : Outcome Unit}
    {steps : List Step} (h : Follows expected out steps) :
    ∀ pre step post, steps = pre ++ step :: post → step.result ≠ .ok () →
      post = [] ∧ out = step.result := by
  induction h with
  | done =>
      intro pre step post he
      cases pre <;> cases he
  | ownError expected err =>
      intro pre step post he
      cases pre <;> cases he
  | next expected st out rest hst _ ih =>
      intro pre step post he hne
      cases pre with
      | nil =>
          simp only [List.nil_append, List.cons.injEq] at he
          rw [← he.1] at hne
          exact absurd hst hne
      | cons a pre =>
          simp only [List.cons_append, List.cons.injEq] at he
          exact ih pre step post he.2 hne
  | failed expected st hst =>
      intro pre step post he _
      cases pre with
      | nil =>
          simp only [List.nil_append, List.cons.injEq] at he
          exact ⟨he.2.symm, by rw [he.1]⟩
      | cons a pre =>
          simp only [List.cons_append, List.cons.injEq] at he
          cases pre <;> cases he.2

theorem Follows_append {expected1 expected2 : List ProfilerCall} {out : Outcome Unit}
    {steps1 steps2 : List Step}
    (h1 : Follows expected1 (.ok ()) steps1) (h2 : Follows expected2 out steps2) :
    Follows (expected1 ++ expected2) out (steps1 ++ steps2) := by
  generalize hok : Outcome.ok () = o at h1
  induction h1 with
  | done => exact h2
  | ownError expected err => cases hok
  | next expected step out1 rest hstep _ ih =>
      exact Follows.next _ step out _ hstep (ih hok)
  | failed expected step hne => exact absurd hok.symm hne

theorem Follows_stop {expected1 : List ProfilerCall} (expected2 : List ProfilerCall)
    {out : Outcome Unit} {steps : List Step}
    (h : Follows expected1 out steps) (hout : out ≠ .ok ()) :
    Follows (expected1 ++ expected2) out steps := by
  induction h with
  | done => exact absurd rfl hout
  | ownError expected err => exact Follows.ownError _ err
  | next expected step out rest hstep _ ih =>
      exact Follows.next _ step out rest hstep (ih hout)
  | failed expected step hne => exact Follows.failed _ step hne

theorem RunsExactly_done (w : World) : RunsExactly [] w.store w (.ok (), w) :=
  ⟨[], by simp, Follows.done, fun _ => rfl⟩

theorem RunsExactly_ownError (expected : List ProfilerCall) (after : Store) (w : World)
    (err : String) : RunsExactly expected after w (.error err, w) :=
  ⟨[], by simp, Follows.ownError expected err, fun h => by cases h⟩

theorem callStore_exactly {α : Type} (w : World) (c : ProfilerCall)
    (f : Store → Outcome α × Store) (expected : List ProfilerCall) (after : Store)
    (rest : α → World → Outcome Unit × World)
    (hrest : ∀ a w1, (f w.store).1 = .ok a → w1.store = (f w.store).2 →
      RunsExactly expected after w1 (rest a w1)) :
    RunsExactly (c :: expected) after w (w.callStore c f rest) := by
  simp only [World.callStore, World.onStore, RunsExactly]
  cases h : (f w.store).1 with
  | error e =>
      exact ⟨[⟨c, .error e⟩], by simp [Outcome.void],
        Follows.failed expected ⟨c, .error e⟩ (by simp), fun h => by cases h⟩
  | panic m =>
      exact ⟨[⟨c, .panic m⟩], by simp [Outcome.void],
        Follows.failed expected ⟨c, .panic m⟩ (by simp), fun h => by cases h⟩
  | ok a =>
      simp only [Outcome.void]
      obtain ⟨new, h1, h2, h3⟩ := hrest a
        { store := (f w.store).2, steps := w.steps ++ [⟨c, .ok ()⟩] } h rfl
      refine ⟨⟨c, .ok ()⟩ :: new, ?_, Follows.next expected ⟨c, .ok ()⟩ _ new rfl h2, h3⟩
      rw [h1]
      simp

theorem callTarget_exactly {α : Type} (w : World) (c : ProfilerCall)
    (answer : Outcome α) (expected : List ProfilerCall) (after : Store)
    (rest : α → World → Outcome Unit × World)
    (hrest : ∀ a w1, answer = .ok a → w1.store = w.store →
      RunsExactly expected after w1 (rest a w1)) :
    RunsExactly (c :: expected) after w (w.callTarget c answer rest) := by
  simp only [World.callTarget, World.query, RunsExactly]
  cases answer with
  | error e =>
      exact ⟨[⟨c, .error e⟩], by simp [Outcome.void],
        Follows.failed expected ⟨c, .error e⟩ (by simp), fun h => by cases h⟩
  | panic m =>
      exact ⟨[⟨c, .panic m⟩], by simp [Outcome.void],
        Follows.failed expected ⟨c, .panic m⟩ (by simp), fun h => by cases h⟩
  | ok a =>
      simp only [Outcome.void]
      obtain ⟨new, h1, h2, h3⟩ := hrest a
        { store := w.store, steps := w.steps ++ [⟨c, .ok ()⟩] } rfl rfl
      refine ⟨⟨c, .ok ()⟩ :: new, ?_, Follows.next expected ⟨c, .ok ()⟩ _ new rfl h2, h3⟩
      rw [h1]
      simp

theorem andThen_exactly (expected1 expected2 : List ProfilerCall) (after1 after2 : Store)
    (w : World) (r : Outcome Unit × World) (rest : World → Outcome Unit × World)
    (h1 : RunsExactly expected1 after1 w r)
    (h2 : ∀ w1, w1.store = after1 → RunsExactly expected2 after2 w1 (rest w1)) :
    RunsExactly (expected1 ++ expected2) after2 w (andThen r rest) := by
  obtain ⟨out, w1⟩ := r
  obtain ⟨new1, hs1, hc1, hst1⟩ := h1
  simp only at hs1 hc1 hst1
  cases out with
  | error e =>
      exact ⟨new1, hs1, Follows_stop expected2 hc1 (by simp [andThen]),
        fun h => by simp [andThen] at h⟩
  | panic m =>
      exact ⟨new1, hs1, Follows_stop expected2 hc1 (by simp [andThen]),
        fun h => by simp [andThen] at h⟩
  | ok u =>
      obtain ⟨new2, hs2, hc2, hst2⟩ := h2 w1 (hst1 rfl)
      refine ⟨new1 ++ new2, ?_, ?_, ?_⟩
      · simp only [andThen]
        rw [hs2, hs1, List.append_assoc]
      · simp only [andThen]
        exact Follows_append hc1 hc2
      · simp only [andThen]
        exact hst2

theorem returnedID_ok {o : Outcome Int} {a : Int} (h : o = .ok a) : returnedID o = a := by
  rw [h]
  rfl

theorem handleProfileTableColumn_exactly (T : TargetDB) (p : ProfileStore)
    (tableNameID : Int) (tableName : String) (profileID : Int) (columnData : ColumnType)
    (w : World) :
    RunsExactly
      (specColumnCalls T p tableNameID tableName profileID columnData w.store).1
      (specColumnCalls T p tableNameID tableName profileID columnData w.store).2
      w (handleProfileTableColumn T p tableNameID tableName profileID columnData w) := by
  unfold handleProfileTableColumn
  simp only [specColumnCalls]
  apply callStore_exactly
  intro columnTypeID w1 h1 hw1
  rw [returnedID_ok h1, ← hw1]
  apply callStore_exactly
  intro columnNamesID w2 h2 hw2
  rw [returnedID_ok h2, ← hw2]
  have hsel : (ProfilesByType columnData.DatabaseTypeName).map
      (fun cp => Sprintf cp.2 ("\"" ++ columnData.Name ++ "\"") ++ " as \"" ++ cp.1 ++ "\"")
      = specAggregateSelects columnData := rfl
  simp only [hsel]
  apply callTarget_exactly
  intro rows w3 hrows hw3
  cases hct : rows.ColumnTypes with
  | error e => exact RunsExactly_ownError _ _ w3 e
  | ok profileColumnData =>
      have hres : specAggregateResults T tableName columnData
          = profileResultsOf profileColumnData
              (scanFirstRow profileColumnData.length rows.data) := by
        simp only [specAggregateResults, hrows, hct]
      rw [hres, ← hw3]
      simp only
      apply callStore_exactly
      intro _ w4 _ hw4
      rw [← hw4]
      exact RunsExactly_done w4

theorem handleProfileTableColumns_exactly (T : TargetDB) (p : ProfileStore)
    (tableNameID : Int) (tableName : String) (profileID : Int) :
    ∀ (columnsData : List ColumnType) (w : World),
      RunsExactly
        (specColumnsCalls T p tableNameID tableName profileID columnsData w.store).1
        (specColumnsCalls T p tableNameID tableName profileID columnsData w.store).2
        w (handleProfileTableColumns T p tableNameID tableName profileID columnsData w)
  | [], w => RunsExactly_done w
  | columnData :: rest, w => by
      simp only [handleProfileTableColumns, specColumnsCalls]
      apply andThen_exactly _ _ _ _ w _ _
        (handleProfileTableColumn_exactly T p tableNameID tableName profileID columnData w)
      intro w1 hw1
      rw [← hw1]
      exact handleProfileTableColumns_exactly T p tableNameID tableName profileID rest w1

theorem recordTableRowCount_exactly (T : TargetDB) (p : ProfileStore) (tableNameID : Int)
    (tableName : String) (profileID : Int) (w : World) :
    RunsExactly
      [ .GetTableRowCount tableName,
        .RecordTableProfile tableNameID (countedRows T tableName) profileID ]
      (RecordTableProfile p tableNameID (countedRows T tableName) profileID w.store).2
      w (recordTableRowCount T p tableNameID tableName profileID w) := by
  unfold recordTableRowCount
  apply callTarget_exactly
  intro rowCount w1 hcount hw1
  have hc : countedRows T tableName = rowCount := returnedID_ok hcount
  rw [hc, ← hw1]
  apply callStore_exactly
  intro _ w2 _ hw2
  rw [← hw2]
  exact RunsExactly_done w2

theorem profileTableWithColumnsData_exactly (T : TargetDB) (p : ProfileStore)
    (tableName : String) (profileID : Int) (columnsData : List ColumnType) (w : World) :
    RunsExactly
      (specTableCalls T p tableName profileID columnsData w.store).1
      (specTableCalls T p tableName profileID columnsData w.store).2
      w (profileTableWithColumnsData T p tableName profileID columnsData w) := by
  unfold profileTableWithColumnsData
  simp only [specTableCalls]
  apply callStore_exactly
  intro tableNameID w1 h1 hw1
  rw [returnedID_ok h1, ← hw1]
  apply andThen_exactly _ _ _ _ w1 _ _
    (recordTableRowCount_exactly T p tableNameID tableName profileID w1)
  intro w2 hw2
  rw [← hw2]
  exact handleProfileTableColumns_exactly T p tableNameID tableName profileID columnsData w2

theorem profileTable_exactly (T : TargetDB) (p : ProfileStore) (tableName : String)
    (profileID : Int) (w : World) :
    RunsExactly (specFullTableCalls T p tableName profileID w.store)
      (specTableCalls T p tableName profileID (sampledColumns T tableName) w.store).2
      w (profileTable T p tableName profileID w) := by
  unfold profileTable
  simp only [specFullTableCalls]
  apply callTarget_exactly
  intro rows w1 hrows hw1
  cases hct : rows.ColumnTypes with
  | error e => exact RunsExactly_ownError _ _ w1 e
  | ok columnsData =>
      have hs : sampledColumns T tableName = columnsData := by
        simp only [sampledColumns, ofExcept_eq_ok hrows, hct]
      rw [hs, ← hw1]
      exact profileTableWithColumnsData_exactly T p tableName profileID columnsData w1

/-! ## Lemmas on the ids of the store -/

theorem mem_putTable :
    ∀ (ts : List (String × PgTable)) (k : String) (t : PgTable) (x : String × PgTable),
      x ∈ putTable ts k t → x = (k, t) ∨ x ∈ ts
  | [], k, t, x, h => by
      simp only [putTable, List.mem_singleton] at h
      exact Or.inl h
  | (k0, t0) :: rest, k, t, x, h => by
      by_cases hk : k0 = k
      · simp only [putTable, hk, if_true, List.mem_cons] at h
        rcases h with h | h
        · exact Or.inl h
        · exact Or.inr (List.mem_cons_of_mem _ h)
      · simp only [putTable, hk, if_false, List.mem_cons] at h
        rcases h with h | h
        · exact Or.inr (by rw [h]; exact List.mem_cons_self _ _)
        · rcases mem_putTable rest k t x h with h2 | h2
          · exact Or.inl h2
          · exact Or.inr (List.mem_cons_of_mem _ h2)

theorem mem_of_lookup_eq_some :
    ∀ (ts : List (String × PgTable)) (k : String) (t : PgTable),
      ts.lookup k = some t → (k, t) ∈ ts ∨ ∃ k0, (k0, t) ∈ ts
  | [], _, _, h => by cases h
  | (k0, t0) :: rest, k, t, h => by
      by_cases hk : k = k0
      · have hb : (k == k0) = true := by simpa using hk
        simp only [List.lookup, hb] at h
        injection h with h
        exact Or.inr ⟨k0, by rw [h]; exact List.mem_cons_self _ _⟩
      · have hb : (k == k0) = false := by simpa using hk
        simp only [List.lookup, hb] at h
        rcases mem_of_lookup_eq_some rest k t h with h2 | ⟨k1, h2⟩
        · exact Or.inl (List.mem_cons_of_mem _ h2)
        · exact Or.inr ⟨k1, List.mem_cons_of_mem _ h2⟩

theorem idsUnique_table (s : Store) (h : s.idsUnique) (name : String) (t : PgTable)
    (ht : s.table name = some t) : t.idsUnique := by
  simp only [Store.table] at ht
  rcases mem_of_lookup_eq_some s.tables _ t ht with h1 | ⟨k, h1⟩
  · exact h _ h1
  · exact h _ h1

theorem idsUnique_put (s : Store) (h : s.idsUnique) (k : String) (t : PgTable)
    (ht : t.idsUnique) :
    ({ s with tables := putTable s.tables k t } : Store).idsUnique := by
  intro kt hkt
  rcases mem_putTable s.tables k t kt hkt with h1 | h1
  · rw [h1]
    exact ht
  · exact h kt h1

theorem idsUnique_record (s : Store) (c : DBCall) (h : s.idsUnique) :
    (s.record c).idsUnique := h

theorem keepsRows_refl (s : Store) : s.keepsRows s := fun _ _ h => h

theorem keepsRows_trans {s1 s2 s3 : Store} (h1 : s1.keepsRows s2) (h2 : s2.keepsRows s3) :
    s1.keepsRows s3 := fun name r h => h2 name r (h1 name r h)

theorem keepsRows_of_rowsOf_eq {s s1 : Store} (h : ∀ name, s1.rowsOf name = s.rowsOf name) :
    s.keepsRows s1 := by
  intro name r hr
  rw [h name]
  exact hr

theorem CreateTable_idsUnique (s : Store) (tableName : String)
    (columns : List DBColumnDefinition) (h : s.idsUnique) :
    (PostgresConn.CreateTable s tableName columns).2.idsUnique := by
  simp only [PostgresConn.CreateTable]
  split
  · exact h
  · split_ifs
    all_goals first
      | exact h
      | (apply idsUnique_put s h
         exact ⟨by simp, by simp⟩)

theorem AddTableColumn_idsUnique (s : Store) (tableName : String)
    (column : DBColumnDefinition) (h : s.idsUnique) :
    (PostgresConn.AddTableColumn s tableName column).2.idsUnique := by
  unfold PostgresConn.AddTableColumn
  split
  · exact h
  · split
    · exact h
    · rename_i t ht
      split_ifs with h1
      · exact h
      · apply idsUnique_put s h
        exact idsUnique_table s h tableName t ht

theorem InsertRowAndReturnID_idsUnique (s : Store) (tableName : String)
    (values : GoMap GoInterface) (h : s.idsUnique) :
    (PostgresConn.InsertRowAndReturnID s tableName values).2.idsUnique := by
  simp only [PostgresConn.InsertRowAndReturnID]
  split
  · exact h
  · rename_i t ht
    have hu := idsUnique_table s h tableName t ht
    split_ifs
    all_goals first
      | exact h
      | (apply idsUnique_put s h
         refine ⟨?_, ?_⟩
         · simp only [List.map_append, List.map_cons, List.map_nil]
           rw [List.nodup_append]
           refine ⟨hu.1, by simp, ?_⟩
           intro a ha hb
           simp only [List.mem_singleton] at hb
           obtain ⟨r, hr, hra⟩ := List.mem_map.mp ha
           have := hu.2 r hr
           omega
         · intro r hr
           simp only [List.mem_append, List.mem_singleton] at hr
           rcases hr with hr | hr
           · have := hu.2 r hr
             simp only
             omega
           · rw [hr])

theorem InsertRowAndReturnID_keepsRows (s : Store) (tableName : String)
    (values : GoMap GoInterface) :
    s.keepsRows (PostgresConn.InsertRowAndReturnID s tableName values).2 := by
  intro other r hr
  simp only [PostgresConn.InsertRowAndReturnID]
  split
  · exact hr
  · rename_i t ht
    split_ifs
    all_goals first
      | exact hr
      | (by_cases hk : ToLower other = ToLower tableName
         · have h1 : s.table other = s.table tableName := by
             simp only [Store.table, hk]
           simp only [Store.rowsOf, h1, ht] at hr
           simp only [Store.rowsOf, Store.table, hk, lookup_putTable_self]
           exact List.mem_append_left _ hr
         · simp only [Store.rowsOf, table_put_other s tableName other _ hk]
           exact hr)

theorem grownTo_refl (s : Store) : s.grownTo s := ⟨id, keepsRows_refl s⟩

theorem grownTo_trans {s1 s2 s3 : Store} (h1 : s1.grownTo s2) (h2 : s2.grownTo s3) :
    s1.grownTo s3 := ⟨fun h => h2.1 (h1.1 h), keepsRows_trans h1.2 h2.2⟩

theorem grownTo_record (s : Store) (c : DBCall) : s.grownTo (s.record c) :=
  ⟨id, fun _ _ h => h⟩

theorem grownTo_record_right {s s1 : Store} (c : DBCall) (h : s.grownTo s1) :
    s.grownTo (s1.record c) := grownTo_trans h (grownTo_record s1 c)

theorem CreateTable_grownTo (s : Store) (tableName : String)
    (columns : List DBColumnDefinition) :
    s.grownTo (PostgresConn.CreateTable s tableName columns).2 :=
  ⟨CreateTable_idsUnique s tableName columns,
    keepsRows_of_rowsOf_eq (CreateTable_rowsOf s tableName columns)⟩

theorem AddTableColumn_grownTo (s : Store) (tableName : String)
    (column : DBColumnDefinition) :
    s.grownTo (PostgresConn.AddTableColumn s tableName column).2 :=
  ⟨AddTableColumn_idsUnique s tableName column,
    keepsRows_of_rowsOf_eq (AddTableColumn_rowsOf s tableName column)⟩

theorem InsertRowAndReturnID_grownTo (s : Store) (tableName : String)
    (values : GoMap GoInterface) :
    s.grownTo (PostgresConn.InsertRowAndReturnID s tableName values).2 :=
  ⟨InsertRowAndReturnID_idsUnique s tableName values,
    InsertRowAndReturnID_keepsRows s tableName values⟩

theorem DBConn_InsertRowAndReturnID_grownTo (s : Store) (tableName : String)
    (values : GoMap GoInterface) :
    s.grownTo (DBConn.InsertRowAndReturnID s tableName values).2 := by
  simp only [DBConn.InsertRowAndReturnID]
  exact grownTo_record_right _ (InsertRowAndReturnID_grownTo s tableName values)

theorem row_eq_of_id_eq (s : Store) (h : s.idsUnique) (name : String) (r1 r2 : PgRow)
    (h1 : r1 ∈ s.rowsOf name) (h2 : r2 ∈ s.rowsOf name) (hid : r1.id = r2.id) : r1 = r2 := by
  simp only [Store.rowsOf] at h1 h2
  cases ht : s.table name with
  | none =>
      rw [ht] at h1
      cases h1
  | some t =>
      rw [ht] at h1 h2
      have hu := (idsUnique_table s h name t ht).1
      exact List.inj_on_of_nodup_map hu h1 h2 hid

theorem nodup_map_of_nodup_map {α β γ : Type} (f : α → β) (g : α → γ) :
    ∀ (l : List α), (l.map g).Nodup →
      (∀ x ∈ l, ∀ y ∈ l, f x = f y → g x = g y) → (l.map f).Nodup
  | [], _, _ => List.nodup_nil
  | a :: rest, hnd, hfg => by
      simp only [List.map_cons, List.nodup_cons] at hnd ⊢
      refine ⟨?_, nodup_map_of_nodup_map f g rest hnd.2
        (fun x hx y hy => hfg x (List.mem_cons_of_mem _ hx) y (List.mem_cons_of_mem _ hy))⟩
      intro hmem
      obtain ⟨y, hy, hfy⟩ := List.mem_map.mp hmem
      apply hnd.1
      rw [hfg a (List.mem_cons_self _ _) y (List.mem_cons_of_mem _ hy) hfy.symm]
      exact List.mem_map.mpr ⟨y, hy, rfl⟩

/-! ## Lemmas on the tasks call by call: run alone, they are the task functions -/

theorem Prog.run_bind {α β : Type} (f : α → Prog β) :
    ∀ (m : Prog α) (s : Store),
      (m.bind f).run s =
        match m.run s with
        | (.ok a, s1) => (f a).run s1
        | (.error err, s1) => (.error err, s1)
        | (.panic msg, s1) => (.panic msg, s1) := by
  intro m
  induction m with
  | ret out =>
      intro s
      cases out <;> rfl
  | DoesTableExist tableName k ih =>
      intro s
      simp only [Prog.bind, Prog.run]
      exact ih _ _
  | CreateTable tableName columns k ih =>
      intro s
      simp only [Prog.bind, Prog.run]
      exact ih _ _
  | DoesTableColumnExist tableName columnName k ih =>
      intro s
      simp only [Prog.bind, Prog.run]
      exact ih _ _
  | AddTableColumn tableName column k ih =>
      intro s
      simp only [Prog.bind, Prog.run]
      exact ih _ _
  | InsertRowAndReturnID tableName values fact k ih =>
      intro s
      simp only [Prog.bind, Prog.run]
      cases h : DBConn.InsertRowAndReturnID s tableName values with
      | mk o s1 =>
        cases o with
        | ok id => exact ih id s1
        | error e => rfl
        | panic msg => rfl
  | GetRowsSelectWhere tableName selects wheres k ih =>
      intro s
      simp only [Prog.bind, Prog.run]
      exact ih _ _

theorem InsertRowAndReturnID_ne_error (s : Store) (tableName : String)
    (values : GoMap GoInterface) (err : String) (s1 : Store) :
    DBConn.InsertRowAndReturnID s tableName values ≠ (.error err, s1) := by
  simp only [DBConn.InsertRowAndReturnID, PostgresConn.InsertRowAndReturnID]
  intro h
  split at h
  · simp at h
  · split_ifs at h <;> simp at h

theorem getOrInsertTableRowID_run (p : ProfileStore) (tableName : String)
    (values : GoMap GoInterface) (s : Store) :
    (Stepwise.getOrInsertTableRowID p tableName values).run s
      = getOrInsertTableRowID p tableName values s := by
  simp only [Stepwise.getOrInsertTableRowID, getOrInsertTableRowID, Prog.run,
    DBConn.GetRowsSelectWhere]
  cases PostgresConn.GetRowsSelectWhere s (handleNamingConvention p tableName) ["id"]
      (handleColumnDataNamingConvention p values) with
  | error e => rfl
  | ok rows =>
      cases rows with
      | cons row rest => rfl
      | nil =>
          simp only [Prog.run]
          cases h : DBConn.InsertRowAndReturnID
              (s.record (.GetRowsSelectWhere (handleNamingConvention p tableName) ["id"]
                (handleColumnDataNamingConvention p values)))
              (handleNamingConvention p tableName)
              (handleColumnDataNamingConvention p values) with
          | mk o s1 => cases o <;> rfl

theorem getOrInsertTableRowIDFromStruct_run (p : ProfileStore) (tableStruct : TableStruct)
    (s : Store) :
    (Stepwise.getOrInsertTableRowIDFromStruct p tableStruct).run s
      = getOrInsertTableRowIDFromStruct p tableStruct s := by
  simp only [Stepwise.getOrInsertTableRowIDFromStruct, getOrInsertTableRowIDFromStruct]
  cases getTableNameFromStruct p tableStruct with
  | error e => rfl
  | ok tableName => exact getOrInsertTableRowID_run p tableName _ s

theorem ensureProfileColumns_run (p : ProfileStore) (profileTable : String) :
    ∀ (profileResults : List ColumnProfileData) (s : Store),
      (Stepwise.ensureProfileColumns p profileTable profileResults).run s =
        match ensureProfileColumns p profileTable profileResults s with
        | (some err, s2) => (.error err, s2)
        | (none, s2) => (.ok (), s2)
  | [], s => rfl
  | data :: rest, s => by
      simp only [Stepwise.ensureProfileColumns, ensureProfileColumns, Prog.run]
      split_ifs with hex
      · simp only [Prog.run]
        cases h : DBConn.AddTableColumn
            (DBConn.DoesTableColumnExist s profileTable
              (handleNamingConvention p data.name)).2 profileTable
            { ColumnName := handleNamingConvention p data.name,
              ColumnType := resolveDataType data.data data.scanType } with
        | mk e s2 =>
          cases e with
          | some err => rfl
          | none => exact ensureProfileColumns_run p profileTable rest s2
      · exact ensureProfileColumns_run p profileTable rest _

theorem ensureProfileTable_run (p : ProfileStore) (profileTable : String)
    (columnDefinitions : List DBColumnDefinition) (profileResults : List ColumnProfileData)
    (tableExists : Bool) (s : Store) :
    (Stepwise.ensureProfileTable p profileTable columnDefinitions profileResults
        tableExists).run s =
      match ensureProfileTable p profileTable columnDefinitions profileResults
          tableExists s with
      | (some err, s2) => (.error err, s2)
      | (none, s2) => (.ok (), s2) := by
  simp only [Stepwise.ensureProfileTable, ensureProfileTable]
  split_ifs
  · simp only [Prog.run]
    cases h : DBConn.CreateTable s profileTable columnDefinitions with
    | mk e s2 => cases e <;> rfl
  · exact ensureProfileColumns_run p profileTable profileResults s

theorem StoreColumnProfileData_run (p : ProfileStore) (columnNamesID : Int)
    (columnType : String) (profileID : Int) (profileResults : List ColumnProfileData)
    (s : Store) :
    (Stepwise.StoreColumnProfileData p columnNamesID columnType profileID
        profileResults).run s
      = StoreColumnProfileData p columnNamesID columnType profileID profileResults s := by
  simp only [Stepwise.StoreColumnProfileData, StoreColumnProfileData, Prog.run,
    Prog.run_bind, ensureProfileTable_run]
  cases h : ensureProfileTable p (getColumnProfileTableName p columnType)
      (handleDBColumnDefinitionArrNamingConvention p
        (profileColumnDefinitions p profileResults))
      profileResults (DBConn.DoesTableExist s (getColumnProfileTableName p columnType)).1.1
      (DBConn.DoesTableExist s (getColumnProfileTableName p columnType)).2 with
  | mk e s2 =>
    cases e with
    | some err => rfl
    | none =>
        simp only [Prog.run]
        cases h2 : DBConn.InsertRowAndReturnID s2 (getColumnProfileTableName p columnType)
            (handleColumnDataNamingConvention p
              (profileColumnData p columnNamesID profileID profileResults)) with
        | mk o s3 =>
          cases o with
          | ok id => rfl
          | error e => exact absurd h2 (InsertRowAndReturnID_ne_error _ _ _ e s3)
          | panic msg => rfl

theorem StoreCustomColumnProfileData_run (p : ProfileStore) (columnNamesID : Int)
    (columnType : ColumnType) (profileID : Int) (profileValue : GoInterface) (s : Store) :
    (Stepwise.StoreCustomColumnProfileData p columnNamesID columnType profileID
        profileValue).run s
      = StoreCustomColumnProfileData p columnNamesID columnType profileID profileValue s := by
  simp only [Stepwise.StoreCustomColumnProfileData, StoreCustomColumnProfileData, Prog.run,
    Prog.run_bind]
  split_ifs with hex
  · simp only [Prog.run]
    cases h : DBConn.CreateTable
        (DBConn.DoesTableExist s
          (getCustomColumnProfileTableName p columnType.DatabaseTypeName)).2
        (getCustomColumnProfileTableName p columnType.DatabaseTypeName)
        (handleDBColumnDefinitionArrNamingConvention p
          [ { ColumnName := p.consts.TABLE_CUSTOM_COLUMN_NAME_ID,
              ColumnType := some (.basic .int) },
            { ColumnName := p.consts.PROFILE_RECORD_ID, ColumnType := some (.basic .int) },
            { ColumnName := "value",
              ColumnType := resolveDataType profileValue columnType.ScanType } ]) with
    | mk e s2 =>
      cases e with
      | some err => rfl
      | none =>
          simp only [Prog.run]
          cases h2 : DBConn.InsertRowAndReturnID s2
              (getCustomColumnProfileTableName p columnType.DatabaseTypeName)
              (handleColumnDataNamingConvention p
                (mapSet (mapSet (mapSet [] p.consts.TABLE_CUSTOM_COLUMN_NAME_ID
                  (some (.int columnNamesID))) p.consts.PROFILE_RECORD_ID
                    (some (.int profileID))) "value" profileValue)) with
          | mk o s3 =>
            cases o with
            | ok id => rfl
            | error e => exact absurd h2 (InsertRowAndReturnID_ne_error _ _ _ e s3)
            | panic msg => rfl
  · simp only [Prog.run]
    cases h2 : DBConn.InsertRowAndReturnID
        (DBConn.DoesTableExist s
          (getCustomColumnProfileTableName p columnType.DatabaseTypeName)).2
        (getCustomColumnProfileTableName p columnType.DatabaseTypeName)
        (handleColumnDataNamingConvention p
          (mapSet (mapSet (mapSet [] p.consts.TABLE_CUSTOM_COLUMN_NAME_ID
            (some (.int columnNamesID))) p.consts.PROFILE_RECORD_ID
              (some (.int profileID))) "value" profileValue)) with
    | mk o s3 =>
      cases o with
      | ok id => rfl
      | error e => exact absurd h2 (InsertRowAndReturnID_ne_error _ _ _ e s3)
      | panic msg => rfl

/-- What a task function leaves apart from its list of calls. -/
theorem bind_callStore {α : Type} (m : Prog α) (k : α → Prog Unit) (w : World)
    (c : ProfilerCall) (f : Store → Outcome α × Store)
    (rest : α → World → Outcome Unit × World)
    (hm : ∀ s, m.run s = f s)
    (hk : ∀ a w1, (k a).run w1.store = ((rest a w1).1, (rest a w1).2.store)) :
    (m.bind k).run w.store
      = ((w.callStore c f rest).1, (w.callStore c f rest).2.store) := by
  rw [Prog.run_bind, hm]
  simp only [World.callStore, World.onStore]
  cases h : f w.store with
  | mk o s1 =>
    cases o with
    | ok a => exact hk a ⟨s1, w.steps ++ [⟨c, .ok ()⟩]⟩
    | error e => rfl
    | panic msg => rfl

theorem bind_callTarget {α : Type} (answer : Outcome α) (k : α → Prog Unit) (w : World)
    (c : ProfilerCall) (rest : α → World → Outcome Unit × World)
    (hk : ∀ a w1, (k a).run w1.store = ((rest a w1).1, (rest a w1).2.store)) :
    ((Prog.ofTarget answer).bind k).run w.store
      = ((w.callTarget c answer rest).1, (w.callTarget c answer rest).2.store) := by
  simp only [World.callTarget, World.query, Prog.ofTarget]
  cases answer with
  | ok a => exact hk a ⟨w.store, w.steps ++ [⟨c, .ok ()⟩]⟩
  | error e => rfl
  | panic msg => rfl

theorem bind_andThen (m : Prog Unit) (k : Unit → Prog Unit) (w : World)
    (r : Outcome Unit × World) (rest : World → Outcome Unit × World)
    (hm : m.run w.store = (r.1, r.2.store))
    (hk : ∀ w1, (k ()).run w1.store = ((rest w1).1, (rest w1).2.store)) :
    (m.bind k).run w.store = ((andThen r rest).1, (andThen r rest).2.store) := by
  rw [Prog.run_bind, hm]
  obtain ⟨o, w1⟩ := r
  cases o with
  | ok a => exact hk w1
  | error e => rfl
  | panic msg => rfl

theorem handleProfileTableColumn_run (T : TargetDB) (p : ProfileStore) (tableNameID : Int)
    (tableName : String) (profileID : Int) (columnData : ColumnType) (w : World) :
    (Stepwise.handleProfileTableColumn T p tableNameID tableName profileID columnData).run
        w.store
      = ((handleProfileTableColumn T p tableNameID tableName profileID columnData w).1,
         (handleProfileTableColumn T p tableNameID tableName profileID columnData
           w).2.store) := by
  unfold Stepwise.handleProfileTableColumn handleProfileTableColumn
  apply bind_callStore _ _ w _ _ _
    (fun s => getOrInsertTableRowIDFromStruct_run p _ s)
  intro columnTypeID w1
  apply bind_callStore _ _ w1 _ _ _
    (fun s => getOrInsertTableRowIDFromStruct_run p _ s)
  intro columnNamesID w2
  apply bind_callTarget
  intro rows w3
  cases rows.ColumnTypes with
  | error e => rfl
  | ok profileColumnData =>
      simp only
      have h := bind_callStore
        (Stepwise.StoreColumnProfileData p columnNamesID columnData.DatabaseTypeName
          profileID
          (profileResultsOf profileColumnData
            (scanFirstRow profileColumnData.length rows.data)))
        (fun _ => .ret (.ok ())) w3
        (.StoreColumnProfileData columnNamesID columnData.DatabaseTypeName profileID
          (profileResultsOf profileColumnData
            (scanFirstRow profileColumnData.length rows.data)))
        (StoreColumnProfileData p columnNamesID columnData.DatabaseTypeName profileID
          (profileResultsOf profileColumnData
            (scanFirstRow profileColumnData.length rows.data)))
        (fun _ w4 => (.ok (), w4))
        (fun s => StoreColumnProfileData_run p _ _ _ _ s)
        (fun _ _ => rfl)
      rw [← h, Prog.run_bind]
      cases Prog.run (Stepwise.StoreColumnProfileData p columnNamesID
          columnData.DatabaseTypeName profileID
          (profileResultsOf profileColumnData
            (scanFirstRow profileColumnData.length rows.data))) w3.store with
      | mk o s1 => cases o <;> rfl

theorem handleProfileTableColumns_run (T : TargetDB) (p : ProfileStore) (tableNameID : Int)
    (tableName : String) (profileID : Int) :
    ∀ (columnsData : List ColumnType) (w : World),
      (Stepwise.handleProfileTableColumns T p tableNameID tableName profileID
          columnsData).run w.store
        = ((handleProfileTableColumns T p tableNameID tableName profileID columnsData w).1,
           (handleProfileTableColumns T p tableNameID tableName profileID columnsData
             w).2.store)
  | [], w => rfl
  | columnData :: rest, w => by
      simp only [Stepwise.handleProfileTableColumns, handleProfileTableColumns]
      exact bind_andThen _ _ w _ _
        (handleProfileTableColumn_run T p tableNameID tableName profileID columnData w)
        (fun w1 => handleProfileTableColumns_run T p tableNameID tableName profileID rest w1)

theorem recordTableRowCount_run (T : TargetDB) (p : ProfileStore) (tableNameID : Int)
    (tableName : String) (profileID : Int) (w : World) :
    (Stepwise.recordTableRowCount T p tableNameID tableName profileID).run w.store
      = ((recordTableRowCount T p tableNameID tableName profileID w).1,
         (recordTableRowCount T p tableNameID tableName profileID w).2.store) := by
  unfold Stepwise.recordTableRowCount recordTableRowCount
  apply bind_callTarget
  intro rowCount w1
  apply bind_callStore _ _ w1 _ _ _ (fun s => getOrInsertTableRowIDFromStruct_run p _ s)
  intro _ w2
  rfl

theorem profileTableWithColumnsData_run (T : TargetDB) (p : ProfileStore)
    (tableName : String) (profileID : Int) (columnsData : List ColumnType) (w : World) :
    (Stepwise.profileTableWithColumnsData T p tableName profileID columnsData).run w.store
      = ((profileTableWithColumnsData T p tableName profileID columnsData w).1,
         (profileTableWithColumnsData T p tableName profileID columnsData w).2.store) := by
  unfold Stepwise.profileTableWithColumnsData profileTableWithColumnsData
  apply bind_callStore _ _ w _ _ _ (fun s => getOrInsertTableRowIDFromStruct_run p _ s)
  intro tableNameID w1
  exact bind_andThen _ _ w1 _ _
    (recordTableRowCount_run T p tableNameID tableName profileID w1)
    (fun w2 => handleProfileTableColumns_run T p tableNameID tableName profileID
      columnsData w2)

theorem profileTable_run (T : TargetDB) (p : ProfileStore) (tableName : String)
    (profileID : Int) (w : World) :
    (Stepwise.profileTable T p tableName profileID).run w.store
      = ((profileTable T p tableName profileID w).1,
         (profileTable T p tableName profileID w).2.store) := by
  unfold Stepwise.profileTable profileTable
  apply bind_callTarget
  intro rows w1
  cases rows.ColumnTypes with
  | error e => rfl
  | ok columnsData =>
      exact profileTableWithColumnsData_run T p tableName profileID columnsData w1

theorem profileTableDefinedColumns_run (T : TargetDB) (p : ProfileStore)
    (tableName : String) (profileID : Int) (columns : List String) (w : World) :
    (Stepwise.profileTableDefinedColumns T p tableName profileID columns).run w.store
      = ((profileTableDefinedColumns T p tableName profileID columns w).1,
         (profileTableDefinedColumns T p tableName profileID columns w).2.store) := by
  unfold Stepwise.profileTableDefinedColumns profileTableDefinedColumns
  apply bind_callTarget
  intro rows w1
  cases rows.ColumnTypes with
  | error e => rfl
  | ok columnsData =>
      exact profileTableWithColumnsData_run T p tableName profileID columnsData w1

theorem customColumnsLoop_run (p : ProfileStore) (tableDef : TableDefinition)
    (tableNameID : Int) (profileID : Int) :
    ∀ (columns : List (ColumnType × GoInterface)) (w : World),
      (Stepwise.customColumnsLoop p tableDef tableNameID profileID columns).run w.store
        = ((customColumnsLoop p tableDef tableNameID profileID columns w).1,
           (customColumnsLoop p tableDef tableNameID profileID columns w).2.store)
  | [], w => rfl
  | (columnData, profileValue) :: rest, w => by
      simp only [Stepwise.customColumnsLoop, customColumnsLoop]
      apply bind_callStore _ _ w _ _ _ (fun s => getOrInsertTableRowIDFromStruct_run p _ s)
      intro columnTypeID w1
      apply bind_callStore _ _ w1 _ _ _
        (fun s => getOrInsertTableRowIDFromStruct_run p _ s)
      intro columnNamesID w2
      apply bind_callStore _ _ w2 _ _ _
        (fun s => StoreCustomColumnProfileData_run p _ _ _ _ s)
      intro _ w3
      exact customColumnsLoop_run p tableDef tableNameID profileID rest w3

theorem profileTableCustomColumns_run (T : TargetDB) (p : ProfileStore)
    (tableDef : TableDefinition) (profileID : Int) (w : World) :
    (Stepwise.profileTableCustomColumns T p tableDef profileID).run w.store
      = ((profileTableCustomColumns T p tableDef profileID w).1,
         (profileTableCustomColumns T p tableDef profileID w).2.store) := by
  unfold Stepwise.profileTableCustomColumns profileTableCustomColumns
  apply bind_callStore _ _ w _ _ _ (fun s => getOrInsertTableRowIDFromStruct_run p _ s)
  intro tableNameID w1
  simp only [World.query]
  cases T.GetRowsSelect tableDef.TableName
      (tableDef.CustomColumns.map
        (fun col => col.ColumnDefinition ++ " as " ++ col.ColumnName)) with
  | error e => rfl
  | panic msg => rfl
  | ok rows =>
      simp only
      cases rows.ColumnTypes with
      | error e => rfl
      | ok columnsData =>
          cases rows.data with
          | nil => rfl
          | cons row rest =>
              simp only
              refine bind_andThen _ _
                ⟨w1.store, w1.steps ++
                  [⟨.GetRowsSelect tableDef.TableName
                    (tableDef.CustomColumns.map
                      (fun col => col.ColumnDefinition ++ " as " ++ col.ColumnName)),
                    (Outcome.ok rows).void⟩]⟩ _ _
                (customColumnsLoop_run p tableDef tableNameID profileID _ _) ?_
              intro w3
              split_ifs
              · exact profileTableDefinedColumns_run T p tableDef.TableName profileID
                  tableDef.Columns w3
              · rfl

/-- A task that makes its calls with no other task in between is the task
function: it ends the same way and leaves the same store. -/
theorem Task_prog_run (T : TargetDB) (p : ProfileStore) (task : Task) (w : World) :
    (task.prog T p).run w.store = ((task.run T p w).1, (task.run T p w).2.store) := by
  cases task with
  | profileTableChannel tableName profileID => exact profileTable_run T p tableName profileID w
  | profileTableCustomColumnsChannel tableDef profileID =>
      exact profileTableCustomColumns_run T p tableDef profileID w

/-! ## Lemmas on the calls of concurrent tasks -/

theorem DBConn_DoesTableExist_grownTo (s : Store) (tableName : String) :
    s.grownTo (DBConn.DoesTableExist s tableName).2 :=
  grownTo_record s _

theorem DBConn_CreateTable_grownTo (s : Store) (tableName : String)
    (columns : List DBColumnDefinition) :
    s.grownTo (DBConn.CreateTable s tableName columns).2 := by
  simp only [DBConn.CreateTable]
  exact grownTo_record_right _ (CreateTable_grownTo s tableName columns)

theorem DBConn_DoesTableColumnExist_grownTo (s : Store) (tableName columnName : String) :
    s.grownTo (DBConn.DoesTableColumnExist s tableName columnName).2 :=
  grownTo_record s _

theorem DBConn_AddTableColumn_grownTo (s : Store) (tableName : String)
    (column : DBColumnDefinition) :
    s.grownTo (DBConn.AddTableColumn s tableName column).2 := by
  simp only [DBConn.AddTableColumn]
  exact grownTo_record_right _ (AddTableColumn_grownTo s tableName column)

theorem DBConn_GetRowsSelectWhere_grownTo (s : Store) (tableName : String)
    (selects : List String) (wheres : GoMap GoInterface) :
    s.grownTo (DBConn.GetRowsSelectWhere s tableName selects wheres).2 :=
  grownTo_record s _

/-- A step of a task lets the store grow. -/
theorem Prog_step_grownTo {α : Type} (m : Prog α) (s : Store) : s.grownTo (m.step s).2.1 := by
  cases m with
  | ret out => exact grownTo_refl s
  | DoesTableExist tableName k => exact DBConn_DoesTableExist_grownTo s tableName
  | CreateTable tableName columns k => exact DBConn_CreateTable_grownTo s tableName columns
  | DoesTableColumnExist tableName columnName k =>
      exact DBConn_DoesTableColumnExist_grownTo s tableName columnName
  | AddTableColumn tableName column k => exact DBConn_AddTableColumn_grownTo s tableName column
  | InsertRowAndReturnID tableName values fact k =>
      exact DBConn_InsertRowAndReturnID_grownTo s tableName values
  | GetRowsSelectWhere tableName selects wheres k =>
      exact DBConn_GetRowsSelectWhere_grownTo s tableName selects wheres

theorem safe_conseq {α : Type} (p : ProfileStore)
    (post post1 : Outcome α → Store → List (String × String) → Prop)
    (himp : ∀ out s labels, post out s labels → post1 out s labels) :
    ∀ (m : Prog α) (s : Store) (labels : List (String × String)),
      m.safe p s labels post → m.safe p s labels post1 := by
  intro m
  induction m with
  | ret out =>
      intro s labels h
      exact himp _ _ _ h
  | DoesTableExist tableName k ih =>
      intro s labels h s1 hs1
      exact ih _ _ _ (h s1 hs1)
  | CreateTable tableName columns k ih =>
      intro s labels h s1 hs1
      exact ih _ _ _ (h s1 hs1)
  | DoesTableColumnExist tableName columnName k ih =>
      intro s labels h s1 hs1
      exact ih _ _ _ (h s1 hs1)
  | AddTableColumn tableName column k ih =>
      intro s labels h s1 hs1
      exact ih _ _ _ (h s1 hs1)
  | GetRowsSelectWhere tableName selects wheres k ih =>
      intro s labels h s1 hs1
      exact ih _ _ _ (h s1 hs1)
  | InsertRowAndReturnID tableName values fact k ih =>
      intro s labels h
      cases fact with
      | none =>
          intro s1 hs1
          have h1 := h s1 hs1
          cases hr : DBConn.InsertRowAndReturnID s1 tableName values with
          | mk o s2 =>
            rw [hr] at h1
            cases o with
            | ok id => exact ih id _ _ h1
            | error e => exact himp _ _ _ h1
            | panic msg => exact himp _ _ _ h1
      | some pair =>
          intro s1 hs1
          obtain ⟨label, rest, hl, hc, h1⟩ := h s1 hs1
          refine ⟨label, rest, hl, hc, ?_⟩
          cases hr : DBConn.InsertRowAndReturnID s1 tableName values with
          | mk o s2 =>
            rw [hr] at h1
            cases o with
            | ok id => exact ih id _ _ h1
            | error e => exact himp _ _ _ h1
            | panic msg => exact himp _ _ _ h1

/-- The rule of `bind`: the rest of the calling function goes on from where the
called function ended. -/
theorem safe_bind {α β : Type} (p : ProfileStore) (f : α → Prog β)
    (post : Outcome β → Store → List (String × String) → Prop) :
    ∀ (m : Prog α) (s : Store) (labels : List (String × String)),
      m.safe p s labels (fun out s1 labels1 =>
        match out with
        | .ok a => (f a).safe p s1 labels1 post
        | .error err => post (.error err) s1 labels1
        | .panic msg => post (.panic msg) s1 labels1) →
      (m.bind f).safe p s labels post := by
  intro m
  induction m with
  | ret out =>
      intro s labels h
      cases out with
      | ok a => exact h
      | error e => exact h
      | panic msg => exact h
  | DoesTableExist tableName k ih =>
      intro s labels h s1 hs1
      exact ih _ _ _ (h s1 hs1)
  | CreateTable tableName columns k ih =>
      intro s labels h s1 hs1
      exact ih _ _ _ (h s1 hs1)
  | DoesTableColumnExist tableName columnName k ih =>
      intro s labels h s1 hs1
      exact ih _ _ _ (h s1 hs1)
  | AddTableColumn tableName column k ih =>
      intro s labels h s1 hs1
      exact ih _ _ _ (h s1 hs1)
  | GetRowsSelectWhere tableName selects wheres k ih =>
      intro s labels h s1 hs1
      exact ih _ _ _ (h s1 hs1)
  | InsertRowAndReturnID tableName values fact k ih =>
      intro s labels h
      cases fact with
      | none =>
          intro s1 hs1
          have h1 := h s1 hs1
          cases hr : DBConn.InsertRowAndReturnID s1 tableName values with
          | mk o s2 =>
            rw [hr] at h1
            cases o with
            | ok id => exact ih id _ _ h1
            | error e => exact h1
            | panic msg => exact h1
      | some pair =>
          intro s1 hs1
          obtain ⟨label, rest, hl, hc, h1⟩ := h s1 hs1
          refine ⟨label, rest, hl, hc, ?_⟩
          cases hr : DBConn.InsertRowAndReturnID s1 tableName values with
          | mk o s2 =>
            rw [hr] at h1
            cases o with
            | ok id => exact ih id _ _ h1
            | error e => exact h1
            | panic msg => exact h1

/-- The store at the end of a function has grown from the store at its start. -/
theorem safe_assume_grown {α : Type} (p : ProfileStore)
    (post : Outcome α → Store → List (String × String) → Prop) :
    ∀ (m : Prog α) (s0 s : Store) (labels : List (String × String)), s0.grownTo s →
      m.safe p s labels (fun out s1 labels1 => s0.grownTo s1 → post out s1 labels1) →
      m.safe p s labels post := by
  intro m
  induction m with
  | ret out =>
      intro s0 s labels hg h
      exact h hg
  | DoesTableExist tableName k ih =>
      intro s0 s labels hg h s1 hs1
      exact ih _ s0 _ _
        (grownTo_trans (grownTo_trans hg hs1) (DBConn_DoesTableExist_grownTo s1 tableName))
        (h s1 hs1)
  | CreateTable tableName columns k ih =>
      intro s0 s labels hg h s1 hs1
      exact ih _ s0 _ _
        (grownTo_trans (grownTo_trans hg hs1)
          (DBConn_CreateTable_grownTo s1 tableName columns))
        (h s1 hs1)
  | DoesTableColumnExist tableName columnName k ih =>
      intro s0 s labels hg h s1 hs1
      exact ih _ s0 _ _
        (grownTo_trans (grownTo_trans hg hs1)
          (DBConn_DoesTableColumnExist_grownTo s1 tableName columnName))
        (h s1 hs1)
  | AddTableColumn tableName column k ih =>
      intro s0 s labels hg h s1 hs1
      exact ih _ s0 _ _
        (grownTo_trans (grownTo_trans hg hs1)
          (DBConn_AddTableColumn_grownTo s1 tableName column))
        (h s1 hs1)
  | GetRowsSelectWhere tableName selects wheres k ih =>
      intro s0 s labels hg h s1 hs1
      exact ih _ s0 _ _
        (grownTo_trans (grownTo_trans hg hs1)
          (DBConn_GetRowsSelectWhere_grownTo s1 tableName selects wheres))
        (h s1 hs1)
  | InsertRowAndReturnID tableName values fact k ih =>
      intro s0 s labels hg h
      cases fact with
      | none =>
          intro s1 hs1
          have h1 := h s1 hs1
          have hg2 := grownTo_trans (grownTo_trans hg hs1)
            (DBConn_InsertRowAndReturnID_grownTo s1 tableName values)
          cases hr : DBConn.InsertRowAndReturnID s1 tableName values with
          | mk o s2 =>
            rw [hr] at h1 hg2
            cases o with
            | ok id => exact ih id s0 _ _ hg2 h1
            | error e => exact h1 hg2
            | panic msg => exact h1 hg2
      | some pair =>
          intro s1 hs1
          obtain ⟨label, rest, hl, hc, h1⟩ := h s1 hs1
          refine ⟨label, rest, hl, hc, ?_⟩
          have hg2 := grownTo_trans (grownTo_trans hg hs1)
            (DBConn_InsertRowAndReturnID_grownTo s1 tableName values)
          cases hr : DBConn.InsertRowAndReturnID s1 tableName values with
          | mk o s2 =>
            rw [hr] at h1 hg2
            cases o with
            | ok id => exact ih id s0 _ _ hg2 h1
            | error e => exact h1 hg2
            | panic msg => exact h1 hg2

/-- What holds of a function from a store on holds from every store grown from
it, when nothing is asked of the end. -/
theorem safe_grown {α : Type} (p : ProfileStore) (m : Prog α) (s s1 : Store)
    (labels : List (String × String)) (hg : s.grownTo s1)
    (h : m.safe p s labels (fun _ _ _ => True)) :
    m.safe p s1 labels (fun _ _ _ => True) := by
  cases m with
  | ret out => trivial
  | DoesTableExist tableName k => exact fun s2 hs2 => h s2 (grownTo_trans hg hs2)
  | CreateTable tableName columns k => exact fun s2 hs2 => h s2 (grownTo_trans hg hs2)
  | DoesTableColumnExist tableName columnName k =>
      exact fun s2 hs2 => h s2 (grownTo_trans hg hs2)
  | AddTableColumn tableName column k => exact fun s2 hs2 => h s2 (grownTo_trans hg hs2)
  | GetRowsSelectWhere tableName selects wheres k =>
      exact fun s2 hs2 => h s2 (grownTo_trans hg hs2)
  | InsertRowAndReturnID tableName values fact k =>
      cases fact with
      | none => exact fun s2 hs2 => h s2 (grownTo_trans hg hs2)
      | some pair => exact fun s2 hs2 => h s2 (grownTo_trans hg hs2)

theorem Prog.ret_bind {α β : Type} (a : α) (f : α → Prog β) :
    (Prog.ret (.ok a)).bind f = f a := rfl

theorem safe_bind_ok {α β : Type} (p : ProfileStore) (m : Prog α) (f : α → Prog β)
    (s : Store) (labels : List (String × String))
    (R : α → Store → List (String × String) → Prop)
    (post : Outcome β → Store → List (String × String) → Prop)
    (hm : m.safe p s labels (fun out s1 labels1 => ∀ a, out = .ok a → R a s1 labels1))
    (hf : ∀ a s1 labels1, s.grownTo s1 → R a s1 labels1 → (f a).safe p s1 labels1 post)
    (herr : ∀ err s1 labels1, post (.error err) s1 labels1)
    (hpanic : ∀ msg s1 labels1, post (.panic msg) s1 labels1) :
    (m.bind f).safe p s labels post := by
  apply safe_bind
  apply safe_assume_grown p _ m s s labels (grownTo_refl s)
  refine safe_conseq p _ _ ?_ m s labels hm
  intro out s1 labels1 h hg
  cases out with
  | ok a => exact hf a s1 labels1 hg (h a rfl)
  | error e => exact herr e s1 labels1
  | panic msg => exact hpanic msg s1 labels1

theorem safe_bind_of_ok {α β : Type} (p : ProfileStore) (m : Prog α) (f : α → Prog β)
    (s : Store) (labels : List (String × String))
    (R : α → Store → List (String × String) → Prop)
    (R2 : β → Store → List (String × String) → Prop)
    (hm : m.safe p s labels (fun out s1 labels1 => ∀ a, out = .ok a → R a s1 labels1))
    (hf : ∀ a s1 labels1, s.grownTo s1 → R a s1 labels1 →
      (f a).safe p s1 labels1 (fun out s2 labels2 => ∀ b, out = .ok b → R2 b s2 labels2)) :
    (m.bind f).safe p s labels (fun out s2 labels2 => ∀ b, out = .ok b → R2 b s2 labels2) :=
  safe_bind_ok p m f s labels R _ hm hf
    (fun _ _ _ _ h => by cases h) (fun _ _ _ _ h => by cases h)

theorem safe_bind_of_true {α β : Type} (p : ProfileStore) (m : Prog α) (f : α → Prog β)
    (s : Store) (labels : List (String × String))
    (R : α → Store → List (String × String) → Prop)
    (hm : m.safe p s labels (fun out s1 labels1 => ∀ a, out = .ok a → R a s1 labels1))
    (hf : ∀ a s1 labels1, s.grownTo s1 → R a s1 labels1 →
      (f a).safe p s1 labels1 (fun _ _ _ => True)) :
    (m.bind f).safe p s labels (fun _ _ _ => True) :=
  safe_bind_ok p m f s labels R _ hm hf (fun _ _ _ => trivial) (fun _ _ _ => trivial)

theorem tableHasID_mono {p : ProfileStore} {s s1 : Store} (h : s.keepsRows s1)
    (tableNameID : Int) (tableName : String) (hr : tableHasID p s tableNameID tableName) :
    tableHasID p s1 tableNameID tableName := by
  obtain ⟨r, hr1, h1⟩ := hr
  exact ⟨r, h _ r hr1, h1⟩

theorem columnHasID_mono {p : ProfileStore} {s s1 : Store} (h : s.keepsRows s1)
    (columnNamesID : Int) (tableName columnName : String)
    (hr : columnHasID p s columnNamesID tableName columnName) :
    columnHasID p s1 columnNamesID tableName columnName := by
  obtain ⟨tid, ht, r, hr1, h1⟩ := hr
  exact ⟨tid, tableHasID_mono h _ _ ht, r, h _ r hr1, h1⟩

/-- A column-name id stands for one column of one table. -/
theorem columnHasID_unique (p : ProfileStore) (s : Store) (h : s.idsUnique)
    (columnNamesID : Int) (t1 c1 t2 c2 : String)
    (h1 : columnHasID p s columnNamesID t1 c1) (h2 : columnHasID p s columnNamesID t2 c2) :
    t1 = t2 ∧ c1 = c2 := by
  obtain ⟨tid1, ⟨r1, hr1, hid1, hn1⟩, ⟨q1, hq1, hqid1, hqt1, hqc1⟩⟩ := h1
  obtain ⟨tid2, ⟨r2, hr2, hid2, hn2⟩, ⟨q2, hq2, hqid2, hqt2, hqc2⟩⟩ := h2
  have hq : q1 = q2 := row_eq_of_id_eq s h _ q1 q2 hq1 hq2 (by rw [hqid1, hqid2])
  subst hq
  rw [hqt1] at hqt2
  rw [hqc1] at hqc2
  have htid : tid1 = tid2 := by
    injection hqt2 with e
    injection e with e
    injection e
  have hc : c1 = c2 := by
    injection hqc2 with e
    injection e with e
    injection e
  have hr : r1 = r2 := row_eq_of_id_eq s h _ r1 r2 hr1 hr2 (by rw [hid1, hid2, htid])
  subst hr
  rw [hn1] at hn2
  refine ⟨?_, hc⟩
  injection hn2 with e
  injection e with e
  injection e

/-- The lookup-or-insert among the calls of other tasks: it inserts no fact
row, and an id that it returns is the id of a row of the table that holds the
values of the key. -/
theorem getOrInsertTableRowID_safe (p : ProfileStore) (tableName : String)
    (values : GoMap GoInterface) (s : Store) (labels : List (String × String)) :
    (Stepwise.getOrInsertTableRowID p tableName values).safe p s labels
      (fun out s1 labels1 => labels1 = labels ∧
        ∀ id, out = .ok id →
          ∃ r ∈ s1.rowsOf (handleNamingConvention p tableName), r.id = id ∧
            ∀ kv ∈ handleColumnDataNamingConvention p values,
              r.cells.lookup (ToLower kv.1) = some kv.2) := by
  simp only [Stepwise.getOrInsertTableRowID]
  generalize handleNamingConvention p tableName = T
  generalize handleColumnDataNamingConvention p values = V
  intro s1 _
  simp only [DBConn.GetRowsSelectWhere]
  cases hq : PostgresConn.GetRowsSelectWhere s1 T ["id"] V with
  | error e =>
      refine ⟨rfl, ?_⟩
      intro id hid
      cases hid
  | ok rows =>
      obtain ⟨t, ht, _, _, hrows⟩ := GetRowsSelectWhere_inv s1 T ["id"] V rows hq
      cases rows with
      | cons row rest =>
          refine ⟨rfl, ?_⟩
          intro id hid
          injection hid with hid
          have hmem : row ∈ t.rows.filter (PostgresConn.rowMatches V) := by
            rw [← hrows]
            exact List.mem_cons_self _ _
          obtain ⟨hin, hmatch⟩ := List.mem_filter.mp hmem
          refine ⟨row, ?_, hid, ?_⟩
          · simp only [Store.rowsOf, table_record, ht]
            exact hin
          · intro kv hkv
            simp only [PostgresConn.rowMatches, List.all_eq_true, Bool.and_eq_true,
              beq_iff_eq] at hmatch
            exact (hmatch kv hkv).2
      | nil =>
          intro s2 _
          simp only [DBConn.InsertRowAndReturnID]
          cases hres : PostgresConn.InsertRowAndReturnID s2 T V with
          | mk o s3 =>
            cases o with
            | error e =>
                refine ⟨by first | rfl | trivial, ?_⟩
                intro id hid
                cases hid
            | panic msg =>
                refine ⟨by first | rfl | trivial, ?_⟩
                intro id hid
                cases hid
            | ok id0 =>
                have hnp : ∀ msg, (PostgresConn.InsertRowAndReturnID s2 T V).1
                    ≠ .panic msg := by
                  intro msg hm
                  rw [hres] at hm
                  cases hm
                obtain ⟨t1, ht1, _, _, hnd, heq⟩ := InsertRowAndReturnID_inv s2 T V hnp
                rw [hres] at heq
                injection heq with h1 h2
                injection h1 with h1
                refine ⟨rfl, ?_⟩
                intro id hid
                injection hid with hid
                refine ⟨PgRow.mk (t1.serial + 1) (V.map (fun kv => (ToLower kv.1, kv.2))),
                  ?_, by rw [← hid, h1], ?_⟩
                · rw [rowsOf_record, h2]
                  simp only [Store.rowsOf, Store.table, lookup_putTable_self]
                  exact List.mem_append_right _ (List.mem_singleton.mpr rfl)
                · intro kv hkv
                  exact lookup_cells_of_nodup ToLower V hnd kv hkv

theorem getOrInsertTableRowIDFromStruct_safe (p : ProfileStore) (tableStruct : TableStruct)
    (s : Store) (labels : List (String × String)) :
    (Stepwise.getOrInsertTableRowIDFromStruct p tableStruct).safe p s labels
      (fun out _ labels1 => ∀ a, out = .ok a → labels1 = labels) := by
  simp only [Stepwise.getOrInsertTableRowIDFromStruct]
  cases getTableNameFromStruct p tableStruct with
  | error e =>
      intro a ha
      cases ha
  | ok tableName =>
      refine safe_conseq p _ _ ?_ _ s labels
        (getOrInsertTableRowID_safe p tableName _ s labels)
      intro out s1 labels1 h a _
      exact h.1

/-- The keys of a registration of a column, as the lookup-or-insert gets them. -/
theorem columnKey_converted (p : ProfileStore) (tableNameID columnTypeID : Int)
    (columnName : String) :
    handleColumnDataNamingConvention p
        (columnDataMapFromStruct p
          (TableColumnName 0 tableNameID columnName columnTypeID) [])
      = [(dimensionName p "table_name_id", some (.int tableNameID)),
         (dimensionName p "table_column_name", some (.string columnName)),
         (dimensionName p "table_column_type_id", some (.int columnTypeID))] := by
  cases hp : p.UsePascalCase with
  | false =>
      simp [columnDataMapFromStruct, TableColumnName, idField, dbField, List.lookup, mapSet,
        handleColumnDataNamingConvention, dimensionName, handleNamingConvention, hp]
  | true =>
      have h1 : handleNamingConvention p "table_name_id" = "TableNameId" := by
        simp only [handleNamingConvention, hp, if_true]
        rfl
      have h2 : handleNamingConvention p "table_column_name" = "TableColumnName" := by
        simp only [handleNamingConvention, hp, if_true]
        rfl
      have h3 : handleNamingConvention p "table_column_type_id" = "TableColumnTypeId" := by
        simp only [handleNamingConvention, hp, if_true]
        rfl
      have h4 : handleNamingConvention p "TableNameId" = "TableNameId" := by
        simp only [handleNamingConvention, hp, if_true]
        rfl
      have h5 : handleNamingConvention p "TableColumnName" = "TableColumnName" := by
        simp only [handleNamingConvention, hp, if_true]
        rfl
      have h6 : handleNamingConvention p "TableColumnTypeId" = "TableColumnTypeId" := by
        simp only [handleNamingConvention, hp, if_true]
        rfl
      simp [columnDataMapFromStruct, TableColumnName, idField, dbField, List.lookup, mapSet,
        handleColumnDataNamingConvention, dimensionName, h1, h2, h3, h4, h5, h6]

theorem tableKey_converted (p : ProfileStore) (tableName : String) :
    handleColumnDataNamingConvention p (columnDataMapFromStruct p (TableName 0 tableName) [])
      = [(dimensionName p "table_name", some (.string tableName))] := by
  simp [columnDataMapFromStruct, TableName, idField, dbField, List.lookup, mapSet,
    handleColumnDataNamingConvention, dimensionName]

theorem RegisterTable_safe (p : ProfileStore) (tableName : String) (s : Store)
    (labels : List (String × String)) :
    (Stepwise.RegisterTable p tableName).safe p s labels
      (fun out s1 labels1 => ∀ id, out = .ok id →
        labels1 = labels ∧ tableHasID p s1 id tableName) := by
  have hT : getTableNameFromStruct p (TableName 0 tableName)
      = .ok (handleNamingConvention p "table_names") := by
    simp [getTableNameFromStruct, TableName, idField, List.lookup]
  simp only [Stepwise.RegisterTable, Stepwise.getOrInsertTableRowIDFromStruct, hT]
  refine safe_conseq p _ _ ?_ _ s labels (getOrInsertTableRowID_safe p _ _ s labels)
  intro out s1 labels1 h id hid
  obtain ⟨hl, hrow⟩ := h
  obtain ⟨r, hr, hrid, hcells⟩ := hrow id hid
  refine ⟨hl, r, hr, hrid, ?_⟩
  rw [tableKey_converted] at hcells
  exact hcells (dimensionName p "table_name", some (.string tableName))
    (List.mem_singleton.mpr rfl)

theorem RegisterTableColumn_safe (p : ProfileStore) (tableNameID columnTypeID : Int)
    (columnName : String) (s : Store) (labels : List (String × String)) :
    (Stepwise.RegisterTableColumn p tableNameID columnTypeID columnName).safe p s labels
      (fun out s1 labels1 => ∀ id, out = .ok id →
        labels1 = labels ∧
        ∃ r ∈ s1.rowsOf (dimensionName p "table_column_names"), r.id = id ∧
          r.cells.lookup (ToLower (dimensionName p "table_name_id"))
            = some (some (.int tableNameID)) ∧
          r.cells.lookup (ToLower (dimensionName p "table_column_name"))
            = some (some (.string columnName))) := by
  have hT : getTableNameFromStruct p (TableColumnName 0 tableNameID columnName columnTypeID)
      = .ok (handleNamingConvention p "table_column_names") := by
    simp [getTableNameFromStruct, TableColumnName, idField, List.lookup]
  simp only [Stepwise.RegisterTableColumn, Stepwise.getOrInsertTableRowIDFromStruct, hT]
  refine safe_conseq p _ _ ?_ _ s labels (getOrInsertTableRowID_safe p _ _ s labels)
  intro out s1 labels1 h id hid
  obtain ⟨hl, hrow⟩ := h
  obtain ⟨r, hr, hrid, hcells⟩ := hrow id hid
  rw [columnKey_converted] at hcells
  refine ⟨hl, r, hr, hrid, ?_, ?_⟩
  · exact hcells (dimensionName p "table_name_id", some (.int tableNameID)) (by simp)
  · exact hcells (dimensionName p "table_column_name", some (.string columnName)) (by simp)

theorem ensureProfileColumns_safe (p : ProfileStore) (profileTable : String)
    (labels : List (String × String)) :
    ∀ (profileResults : List ColumnProfileData) (s : Store),
      (Stepwise.ensureProfileColumns p profileTable profileResults).safe p s labels
        (fun out _ labels1 => ∀ a, out = .ok a → labels1 = labels)
  | [], s => fun _ _ => rfl
  | data :: rest, s => by
      simp only [Stepwise.ensureProfileColumns]
      intro s1 _
      beta_reduce
      split_ifs with hex
      · intro s2 _
        cases DBConn.AddTableColumn s2 profileTable
            { ColumnName := handleNamingConvention p data.name,
              ColumnType := resolveDataType data.data data.scanType } with
        | mk e s3 =>
          cases e with
          | some err =>
              intro a ha
              cases ha
          | none => exact ensureProfileColumns_safe p profileTable labels rest s3
      · exact ensureProfileColumns_safe p profileTable labels rest _

theorem ensureProfileTable_safe (p : ProfileStore) (profileTable : String)
    (columnDefinitions : List DBColumnDefinition) (profileResults : List ColumnProfileData)
    (tableExists : Bool) (s : Store) (labels : List (String × String)) :
    (Stepwise.ensureProfileTable p profileTable columnDefinitions profileResults
        tableExists).safe p s labels
      (fun out _ labels1 => ∀ a, out = .ok a → labels1 = labels) := by
  simp only [Stepwise.ensureProfileTable]
  split_ifs
  · intro s1 _
    cases DBConn.CreateTable s1 profileTable columnDefinitions with
    | mk e s2 =>
      cases e with
      | some err =>
          intro a ha
          cases ha
      | none => exact fun _ _ => rfl
  · exact ensureProfileColumns_safe p profileTable labels profileResults s

/-- The fact write among the calls of other tasks: its insert is the one fact
insert it makes, under the column-name id it was called with. -/
theorem StoreColumnProfileData_safe (p : ProfileStore) (columnNamesID : Int)
    (columnType : String) (profileID : Int) (profileResults : List ColumnProfileData)
    (s : Store) (tableName columnName : String) (labels : List (String × String))
    (h : columnHasID p s columnNamesID tableName columnName) :
    (Stepwise.StoreColumnProfileData p columnNamesID columnType profileID
        profileResults).safe p s ((tableName, columnName) :: labels)
      (fun out _ labels1 => ∀ a, out = .ok a → labels1 = labels) := by
  simp only [Stepwise.StoreColumnProfileData]
  intro s1 hs1
  have hg1 : s.grownTo (DBConn.DoesTableExist s1 (getColumnProfileTableName p columnType)).2 :=
    grownTo_trans hs1 (DBConn_DoesTableExist_grownTo s1 _)
  refine safe_bind_of_ok p _ _ _ _
    (fun _ _ labels1 => labels1 = (tableName, columnName) :: labels)
    _ (ensureProfileTable_safe p _ _ _ _ _ _) ?_
  intro _ s2 labels2 hg2 hl2 s3 hs3
  refine ⟨(tableName, columnName), labels, hl2, ?_, ?_⟩
  · exact columnHasID_mono (grownTo_trans (grownTo_trans hg1 hg2) hs3).2 _ _ _ h
  · cases DBConn.InsertRowAndReturnID s3 (getColumnProfileTableName p columnType)
        (handleColumnDataNamingConvention p
          (profileColumnData p columnNamesID profileID profileResults)) with
    | mk o s4 =>
      cases o with
      | ok id => exact fun _ _ => rfl
      | error e =>
          intro a ha
          cases ha
      | panic msg =>
          intro a ha
          cases ha

theorem StoreCustomColumnProfileData_safe (p : ProfileStore) (columnNamesID : Int)
    (columnType : ColumnType) (profileID : Int) (profileValue : GoInterface) (s : Store)
    (labels : List (String × String)) :
    (Stepwise.StoreCustomColumnProfileData p columnNamesID columnType profileID
        profileValue).safe p s labels
      (fun out _ labels1 => ∀ a, out = .ok a → labels1 = labels) := by
  simp only [Stepwise.StoreCustomColumnProfileData]
  intro s1 _
  refine safe_bind_of_ok p _ _ _ _ (fun _ _ labels1 => labels1 = labels) _ ?_ ?_
  · split_ifs
    · intro s2 _
      cases DBConn.CreateTable s2
          (getCustomColumnProfileTableName p columnType.DatabaseTypeName)
          (handleDBColumnDefinitionArrNamingConvention p
            [ { ColumnName := p.consts.TABLE_CUSTOM_COLUMN_NAME_ID,
                ColumnType := some (.basic .int) },
              { ColumnName := p.consts.PROFILE_RECORD_ID, ColumnType := some (.basic .int) },
              { ColumnName := "value",
                ColumnType := resolveDataType profileValue columnType.ScanType } ]) with
      | mk e s3 =>
        cases e with
        | some err =>
            intro a ha
            cases ha
        | none => exact fun _ _ => rfl
    · exact fun _ _ => rfl
  · intro _ s2 labels2 _ hl2 s3 _
    cases DBConn.InsertRowAndReturnID s3
        (getCustomColumnProfileTableName p columnType.DatabaseTypeName)
        (handleColumnDataNamingConvention p
          (mapSet (mapSet (mapSet [] p.consts.TABLE_CUSTOM_COLUMN_NAME_ID
            (some (.int columnNamesID))) p.consts.PROFILE_RECORD_ID
              (some (.int profileID))) "value" profileValue)) with
    | mk o s4 =>
      cases o with
      | ok id => exact fun _ _ => hl2
      | error e =>
          intro a ha
          cases ha
      | panic msg =>
          intro a ha
          cases ha

theorem handleProfileTableColumn_safe (T : TargetDB) (p : ProfileStore) (tableNameID : Int)
    (tableName : String) (profileID : Int) (columnData : ColumnType) (s : Store)
    (labels : List (String × String)) (htid : tableHasID p s tableNameID tableName) :
    (Stepwise.handleProfileTableColumn T p tableNameID tableName profileID columnData).safe
      p s ((tableName, columnData.Name) :: labels)
      (fun out _ labels1 => ∀ a, out = .ok a → labels1 = labels) := by
  simp only [Stepwise.handleProfileTableColumn]
  refine safe_bind_of_ok p _ _ _ _
    (fun _ _ labels1 => labels1 = (tableName, columnData.Name) :: labels) _
    (getOrInsertTableRowIDFromStruct_safe p _ s _) ?_
  intro columnTypeID s1 labels1 hg1 hl1
  rw [hl1]
  refine safe_bind_of_ok p _ _ _ _ _ _
    (RegisterTableColumn_safe p tableNameID columnTypeID columnData.Name s1 _) ?_
  intro columnNamesID s2 labels2 hg2 h2
  obtain ⟨hl2, hrow⟩ := h2
  rw [hl2]
  have hcol : columnHasID p s2 columnNamesID tableName columnData.Name :=
    ⟨tableNameID, tableHasID_mono (grownTo_trans hg1 hg2).2 _ _ htid, hrow⟩
  simp only [Prog.ofTarget]
  cases T.GetRowsSelect tableName
      ((ProfilesByType columnData.DatabaseTypeName).map
        (fun cp => Sprintf cp.2 ("\"" ++ columnData.Name ++ "\"") ++ " as \"" ++ cp.1
          ++ "\"")) with
  | error e =>
      intro a ha
      cases ha
  | panic msg =>
      intro a ha
      cases ha
  | ok rows =>
      rw [Prog.ret_bind]
      cases rows.ColumnTypes with
      | error e =>
          intro a ha
          cases ha
      | ok profileColumnData =>
          exact StoreColumnProfileData_safe p columnNamesID columnData.DatabaseTypeName
            profileID _ s2 tableName columnData.Name labels hcol

theorem handleProfileTableColumns_safe (T : TargetDB) (p : ProfileStore) (tableNameID : Int)
    (tableName : String) (profileID : Int) (labels : List (String × String)) :
    ∀ (columnsData : List ColumnType) (s : Store), tableHasID p s tableNameID tableName →
      (Stepwise.handleProfileTableColumns T p tableNameID tableName profileID
          columnsData).safe p s
        (columnsData.map (fun c => (tableName, c.Name)) ++ labels)
        (fun out _ labels1 => ∀ a, out = .ok a → labels1 = labels)
  | [], s, _ => fun _ _ => rfl
  | columnData :: rest, s, htid => by
      simp only [Stepwise.handleProfileTableColumns, List.map_cons, List.cons_append]
      refine safe_bind_of_ok p _ _ _ _ _ _
        (handleProfileTableColumn_safe T p tableNameID tableName profileID columnData s
          (rest.map (fun c => (tableName, c.Name)) ++ labels) htid) ?_
    
      intro _ s1 labels1 hg1 hl1
      rw [hl1]
      exact handleProfileTableColumns_safe T p tableNameID tableName profileID labels rest s1
        (tableHasID_mono hg1.2 _ _ htid)

theorem recordTableRowCount_safe (T : TargetDB) (p : ProfileStore) (tableNameID : Int)
    (tableName : String) (profileID : Int) (s : Store) (labels : List (String × String)) :
    (Stepwise.recordTableRowCount T p tableNameID tableName profileID).safe p s labels
      (fun out _ labels1 => ∀ a, out = .ok a → labels1 = labels) := by
  simp only [Stepwise.recordTableRowCount, Prog.ofTarget]
  cases T.GetTableRowCount tableName with
  | error e =>
      intro a ha
      cases ha
  | panic msg =>
      intro a ha
      cases ha
  | ok rowCount =>
      rw [Prog.ret_bind]
      refine safe_bind_of_ok p _ _ _ _ _ _
        (getOrInsertTableRowIDFromStruct_safe p _ s labels) ?_
    
      intro _ s1 labels1 _ hl1
      exact fun _ _ => hl1

theorem profileTableWithColumnsData_safe (T : TargetDB) (p : ProfileStore)
    (tableName : String) (profileID : Int) (columnsData : List ColumnType) (s : Store)
    (labels : List (String × String)) :
    (Stepwise.profileTableWithColumnsData T p tableName profileID columnsData).safe p s
      (columnsData.map (fun c => (tableName, c.Name)) ++ labels)
      (fun out _ labels1 => ∀ a, out = .ok a → labels1 = labels) := by
  simp only [Stepwise.profileTableWithColumnsData]
  refine safe_bind_of_ok p _ _ _ _ _ _ (RegisterTable_safe p tableName s _) ?_
  intro tableNameID s1 labels1 hg1 h1
  obtain ⟨hl1, htid⟩ := h1
  rw [hl1]
  refine safe_bind_of_ok p _ _ _ _ _ _
    (recordTableRowCount_safe T p tableNameID tableName profileID s1 _) ?_
  intro _ s2 labels2 hg2 hl2
  rw [hl2]
  exact handleProfileTableColumns_safe T p tableNameID tableName profileID labels
    columnsData s2 (tableHasID_mono hg2.2 _ _ htid)

theorem profileTable_safe (T : TargetDB) (p : ProfileStore) (tableName : String)
    (profileID : Int) (s : Store) :
    (Stepwise.profileTable T p tableName profileID).safe p s
      ((sampledColumns T tableName).map (fun c => (tableName, c.Name)))
      (fun _ _ _ => True) := by
  simp only [Stepwise.profileTable, Prog.ofTarget, sampledColumns]
  cases T.GetSelectAllColumnsSingle tableName with
  | error e => trivial
  | ok rows =>
      simp only [Outcome.ofExcept]
      rw [Prog.ret_bind]
      cases rows.ColumnTypes with
      | error e => trivial
      | ok columnsData =>
          have h := profileTableWithColumnsData_safe T p tableName profileID columnsData s []
          rw [List.append_nil] at h
          exact safe_conseq p _ _ (fun _ _ _ _ => trivial) _ s _ h

theorem profileTableDefinedColumns_safe (T : TargetDB) (p : ProfileStore)
    (tableName : String) (profileID : Int) (columns : List String) (s : Store) :
    (Stepwise.profileTableDefinedColumns T p tableName profileID columns).safe p s
      ((definedColumns T tableName columns).map (fun c => (tableName, c.Name)))
      (fun _ _ _ => True) := by
  simp only [Stepwise.profileTableDefinedColumns, Prog.ofTarget, definedColumns]
  cases T.GetSelectSingle tableName columns with
  | error e => trivial
  | ok rows =>
      simp only [Outcome.ofExcept]
      rw [Prog.ret_bind]
      cases rows.ColumnTypes with
      | error e => trivial
      | ok columnsData =>
          have h := profileTableWithColumnsData_safe T p tableName profileID columnsData s []
          rw [List.append_nil] at h
          exact safe_conseq p _ _ (fun _ _ _ _ => trivial) _ s _ h

theorem customColumnsLoop_safe (p : ProfileStore) (tableDef : TableDefinition)
    (tableNameID : Int) (profileID : Int) (labels : List (String × String)) :
    ∀ (columns : List (ColumnType × GoInterface)) (s : Store),
      (Stepwise.customColumnsLoop p tableDef tableNameID profileID columns).safe p s labels
        (fun out _ labels1 => ∀ a, out = .ok a → labels1 = labels)
  | [], s => fun _ _ => rfl
  | (columnData, profileValue) :: rest, s => by
      simp only [Stepwise.customColumnsLoop]
      refine safe_bind_of_ok p _ _ _ _ _ _
        (getOrInsertTableRowIDFromStruct_safe p _ s labels) ?_
    
      intro columnTypeID s1 labels1 _ hl1
      rw [hl1]
      refine safe_bind_of_ok p _ _ _ _ _ _
        (getOrInsertTableRowIDFromStruct_safe p _ s1 labels) ?_
    
      intro columnNamesID s2 labels2 _ hl2
      rw [hl2]
      refine safe_bind_of_ok p _ _ _ _ _ _
        (StoreCustomColumnProfileData_safe p columnNamesID columnData profileID
          profileValue s2 labels) ?_
    
      intro _ s3 labels3 _ hl3
      rw [hl3]
      exact customColumnsLoop_safe p tableDef tableNameID profileID labels rest s3

theorem profileTableCustomColumns_safe (T : TargetDB) (p : ProfileStore)
    (tableDef : TableDefinition) (profileID : Int) (s : Store) :
    (Stepwise.profileTableCustomColumns T p tableDef profileID).safe p s
      (Task.profiledColumns T (.profileTableCustomColumnsChannel tableDef profileID))
      (fun _ _ _ => True) := by
  simp only [Stepwise.profileTableCustomColumns]
  refine safe_bind_of_true p _ _ _ _ _
    (getOrInsertTableRowIDFromStruct_safe p _ s _) ?_
  intro tableNameID s1 labels1 _ hl1
  rw [hl1]
  cases T.GetRowsSelect tableDef.TableName
      (tableDef.CustomColumns.map
        (fun col => col.ColumnDefinition ++ " as " ++ col.ColumnName)) with
  | error e => trivial
  | panic msg => trivial
  | ok rows =>
      simp only
      cases rows.ColumnTypes with
      | error e => trivial
      | ok columnsData =>
          cases rows.data with
          | nil => trivial
          | cons row rest =>
              simp only
              refine safe_bind_of_true p _ _ _ _ _
                (customColumnsLoop_safe p tableDef tableNameID profileID _ _ s1) ?_
            
              intro _ s2 labels2 _ hl2
              rw [hl2]
              simp only [Task.profiledColumns]
              split_ifs
              · exact profileTableDefinedColumns_safe T p tableDef.TableName profileID
                  tableDef.Columns s2
              · trivial

/-- Every fact insert that a task makes, whatever the other tasks do in
between, carries a column-name id that stands for one of the columns that the
task profiles, in their order. -/
theorem Task_prog_safe (T : TargetDB) (p : ProfileStore) (task : Task) (s : Store) :
    (task.prog T p).safe p s (task.profiledColumns T) (fun _ _ _ => True) := by
  cases task with
  | profileTableChannel tableName profileID =>
      exact profileTable_safe T p tableName profileID s
  | profileTableCustomColumnsChannel tableDef profileID =>
      exact profileTableCustomColumns_safe T p tableDef profileID s

theorem flatten_set_perm {α : Type} :
    ∀ (ls : List (List α)) (i : Nat) (a b : List α), ls[i]? = some (a ++ b) →
      (a ++ (ls.set i b).flatten).Perm ls.flatten
  | [], i, a, b, h => by simp at h
  | l :: rest, 0, a, b, h => by
      simp only [List.getElem?_cons_zero, Option.some.injEq] at h
      simp only [List.set_cons_zero, List.flatten_cons, h, List.append_assoc]
      exact List.Perm.refl _
  | l :: rest, i + 1, a, b, h => by
      simp only [List.getElem?_cons_succ] at h
      simp only [List.set_cons_succ, List.flatten_cons]
      have ih := flatten_set_perm rest i a b h
      have e1 : ((a ++ l) ++ (rest.set i b).flatten).Perm
          ((l ++ a) ++ (rest.set i b).flatten) :=
        List.Perm.append_right _ List.perm_append_comm
      rw [← List.append_assoc]
      refine e1.trans ?_
      rw [List.append_assoc]
      exact List.Perm.append_left _ ih

/-- One step of a task: the task goes on with the pairs it has left, and the
fact pairs that the step inserted carry ids that stand for pairs it had. -/
theorem step_safe (p : ProfileStore) (task : Prog Unit) (s : Store)
    (labels : List (String × String))
    (h : task.safe p s labels (fun _ _ _ => True)) :
    ∃ (a b : List (String × String)) (new : List ((Int × Int) × (String × String))),
      labels = a ++ b ∧
      (task.step s).1.safe p (task.step s).2.1 b (fun _ _ _ => True) ∧
      (task.step s).2.2 = new.map Prod.fst ∧
      (new.map Prod.snd).Sublist a ∧
      ∀ x ∈ new, columnHasID p (task.step s).2.1 x.1.1 x.2.1 x.2.2 := by
  cases task with
  | ret out => exact ⟨[], labels, [], rfl, trivial, rfl, List.Sublist.refl _, by simp⟩
  | DoesTableExist tableName k =>
      exact ⟨[], labels, [], rfl, h s (grownTo_refl s), rfl, List.Sublist.refl _, by simp⟩
  | CreateTable tableName columns k =>
      exact ⟨[], labels, [], rfl, h s (grownTo_refl s), rfl, List.Sublist.refl _, by simp⟩
  | DoesTableColumnExist tableName columnName k =>
      exact ⟨[], labels, [], rfl, h s (grownTo_refl s), rfl, List.Sublist.refl _, by simp⟩
  | AddTableColumn tableName column k =>
      exact ⟨[], labels, [], rfl, h s (grownTo_refl s), rfl, List.Sublist.refl _, by simp⟩
  | GetRowsSelectWhere tableName selects wheres k =>
      exact ⟨[], labels, [], rfl, h s (grownTo_refl s), rfl, List.Sublist.refl _, by simp⟩
  | InsertRowAndReturnID tableName values fact k =>
      cases fact with
      | none =>
          have h1 := h s (grownTo_refl s)
          refine ⟨[], labels, [], rfl, ?_, ?_, List.Sublist.refl _, by simp⟩
          · simp only [Prog.step]
            cases hr : DBConn.InsertRowAndReturnID s tableName values with
            | mk o s2 =>
              rw [hr] at h1
              cases o with
              | ok id => exact h1
              | error e => trivial
              | panic msg => trivial
          · simp only [Prog.step]
            cases (DBConn.InsertRowAndReturnID s tableName values).1 <;> rfl
      | some pair =>
          obtain ⟨label, rest, hl, hc, h1⟩ := h s (grownTo_refl s)
          have hg := DBConn_InsertRowAndReturnID_grownTo s tableName values
          cases hr : DBConn.InsertRowAndReturnID s tableName values with
          | mk o s2 =>
            rw [hr] at h1 hg
            cases o with
            | ok id =>
                refine ⟨[label], rest, [(pair, label)], hl, ?_, ?_, List.Sublist.refl _, ?_⟩
                · simp only [Prog.step, hr]
                  exact h1
                · simp only [Prog.step, hr]
                  rfl
                · intro x hx
                  rw [List.mem_singleton.mp hx]
                  simp only [Prog.step, hr]
                  exact columnHasID_mono hg.2 _ _ _ hc
            | error e =>
                refine ⟨[label], rest, [], hl, ?_, ?_, List.nil_sublist _, by simp⟩
                · simp only [Prog.step, hr]
                  trivial
                · simp only [Prog.step, hr]
                  rfl
            | panic msg =>
                refine ⟨[label], rest, [], hl, ?_, ?_, List.nil_sublist _, by simp⟩
                · simp only [Prog.step, hr]
                  trivial
                · simp only [Prog.step, hr]
                  rfl

/-- A step of the pool keeps it sound. -/
theorem Pool_step_sound (p : ProfileStore) (P : Pool) (i : Nat) (h : P.sound p) :
    (P.step i).sound p := by
  unfold Pool.step
  split_ifs
  · exact h
  · cases ht : P.tasks[i]? with
    | none => exact h
    | some task =>
        obtain ⟨hu, remaining, used, hlen, hsafe, hfacts, hused, hnd⟩ := h
        obtain ⟨hi, _⟩ := List.getElem?_eq_some.mp ht
        have hir : i < remaining.length := by
          rw [hlen]
          exact hi
        have hrem : remaining[i]? = some remaining[i] := List.getElem?_eq_getElem hir
        obtain ⟨a, b, new, hl, hsafe1, hev, hsub, hnew⟩ :=
          step_safe p task P.store remaining[i] (hsafe i task _ ht hrem)
        have hg := Prog_step_grownTo task P.store
        refine ⟨hg.1 hu, remaining.set i b, used ++ new, ?_, ?_, ?_, ?_, ?_⟩
        · simp only [List.length_set]
          exact hlen
        · intro j task1 labels1 h1 h2
          by_cases hj : i = j
          · subst hj
            simp only [List.getElem?_set_self hi, Option.some.injEq] at h1
            simp only [List.getElem?_set_self hir, Option.some.injEq] at h2
            rw [← h1, ← h2]
            exact hsafe1
          · simp only [List.getElem?_set_ne hj] at h1 h2
            exact safe_grown p task1 _ _ labels1 hg (hsafe j task1 labels1 h1 h2)
        · simp only [List.map_append, hfacts, hev]
        · intro x hx
          rcases List.mem_append.mp hx with hx | hx
          · exact columnHasID_mono hg.2 _ _ _ (hused x hx)
          · exact hnew x hx
        · have hperm := flatten_set_perm remaining i a b (by rw [hrem, hl])
          have h1 : (used.map Prod.snd ++ (a ++ (remaining.set i b).flatten)).Nodup :=
            (List.Perm.nodup_iff (List.Perm.append_left _ hperm)).mpr hnd
          refine List.Nodup.sublist ?_ h1
          rw [List.map_append, List.append_assoc]
          exact List.Sublist.append (List.Sublist.refl _)
            (List.Sublist.append hsub (List.Sublist.refl _))

theorem Pool_run_sound (p : ProfileStore) :
    ∀ (schedule : List Nat) (P : Pool), P.sound p → (P.run schedule).sound p
  | [], _, h => h
  | i :: rest, P, h => by
      simp only [Pool.run, List.foldl_cons]
      exact Pool_run_sound p rest (P.step i) (Pool_step_sound p P i h)

theorem Pool_start_sound (T : TargetDB) (p : ProfileStore) (tasks : List Task) (s : Store)
    (hu : s.idsUnique) (hl : (tasks.flatMap (Task.profiledColumns T)).Nodup) :
    (Pool.start T p tasks s).sound p := by
  refine ⟨hu, tasks.map (Task.profiledColumns T), [], ?_, ?_, rfl, by simp, ?_⟩
  · simp [Pool.start]
  · intro i task labels h1 h2
    simp only [Pool.start, List.getElem?_map] at h1 h2
    cases ht : tasks[i]? with
    | none =>
        rw [ht] at h1
        cases h1
    | some t =>
        rw [ht] at h1 h2
        simp only [Option.map_some', Option.some.injEq] at h1 h2
        rw [← h1, ← h2]
        exact Task_prog_safe T p t s
  · rw [List.flatMap_def] at hl
    simpa using hl

/-- The fact pairs of a sound pool are pairwise distinct. -/
theorem Pool_sound_facts (p : ProfileStore) (P : Pool) (h : P.sound p) : P.facts.Nodup := by
  obtain ⟨hu, remaining, used, _, _, hfacts, hused, hnd⟩ := h
  rw [hfacts]
  have hlabels : (used.map Prod.snd).Nodup := (List.nodup_append.mp hnd).1
  have hids : (used.map (fun x => x.1.1)).Nodup := by
    apply nodup_map_of_nodup_map (fun x => x.1.1) Prod.snd used hlabels
    intro x hx y hy hxy
    have hx1 := hused x hx
    have hy1 := hused y hy
    rw [hxy] at hx1
    obtain ⟨e1, e2⟩ := columnHasID_unique p P.store hu _ _ _ _ _ hx1 hy1
    exact Prod.ext e1 e2
  have : (used.map (fun x => x.1.1)) = (used.map Prod.fst).map Prod.fst := by
    rw [List.map_map]
    rfl
  rw [this] at hids
  exact List.Nodup.of_map _ hids

/-! ## Theorems on `RecordTableProfile` -/

/-- C12 (the claim at two different row counts): on the scaffolded store, which
holds no `table_profiles` row, recording the row counts 10 and 11 for table 1
in run 1 leaves two `table_profiles` rows for the pair (1, 1). -/
theorem C12_two_rows_for_one_pair :
    scaffoldedStore.rowsOf "table_profiles" = [] ∧
    (((RecordTableProfile (sampleProfileStore false) 1 11 1
        (RecordTableProfile (sampleProfileStore false) 1 10 1 scaffoldedStore).2).2.rowsOf
          "table_profiles").filter
        (specTableProfileRowFor (sampleProfileStore false) 1 1)).length = 2 := by
  decide

/-- C12 (amended): on a store whose `table_profiles` table has the key columns
and holds no row for the pair (t, r), the calls `RecordTableProfile(t, c1, r)`
and `RecordTableProfile(t, c2, r)` in sequence both return an id, and they
leave exactly one `table_profiles` row for the pair when `c1 = c2` and exactly
two rows when `c1 ≠ c2`: the row count is part of the key of the lookup. -/
theorem C12_table_profile_rows (p : ProfileStore) (t r c1 c2 : Int) (s : Store)
    (tbl : PgTable)
    (htbl : s.table (handleNamingConvention p "table_profiles") = some tbl)
    (hcols : ∀ c ∈ ["id", handleNamingConvention p "table_name_id",
        handleNamingConvention p "table_row_count",
        handleNamingConvention p "profile_record_id"], ToLower c ∈ tbl.columns)
    (hnone : ∀ row ∈ tbl.rows, specTableProfileRowFor p t r row = false) :
    ∃ id1 id2 s1 s2,
      RecordTableProfile p t c1 r s = (.ok id1, s1) ∧
      RecordTableProfile p t c2 r s1 = (.ok id2, s2) ∧
      ((s2.rowsOf (handleNamingConvention p "table_profiles")).filter
          (specTableProfileRowFor p t r)).length
        = if c1 = c2 then 1 else 2 := by
  have hid := hcols "id" (by simp)
  have h1 := hcols (handleNamingConvention p "table_name_id") (by simp)
  have h2 := hcols (handleNamingConvention p "table_row_count") (by simp)
  have h3 := hcols (handleNamingConvention p "profile_record_id") (by simp)
  cases hp : p.UsePascalCase with
  | false =>
      have hconv : ∀ x, handleNamingConvention p x = x := by
        intro x
        simp [handleNamingConvention, hp]
      rw [hconv] at htbl h1 h2 h3 ⊢
      exact RecordTableProfile_twice p "table_profiles" "table_name_id" "table_row_count"
        "profile_record_id" (hconv _) (hconv _) (hconv _) (hconv _) (hconv _) (hconv _)
        (hconv _) (hconv _) (by decide) (by decide) (by decide) t r c1 c2 s tbl htbl hid
        h1 h2 h3 hnone
  | true =>
      have hconv : ∀ x, handleNamingConvention p x = convertSnakeCaseToPascalCase p x := by
        intro x
        simp [handleNamingConvention, hp]
      have eT : handleNamingConvention p "table_profiles" = "TableProfiles" := by
        rw [hconv]; rfl
      have e1 : handleNamingConvention p "table_name_id" = "TableNameId" := by
        rw [hconv]; rfl
      have e2 : handleNamingConvention p "table_row_count" = "TableRowCount" := by
        rw [hconv]; rfl
      have e3 : handleNamingConvention p "profile_record_id" = "ProfileRecordId" := by
        rw [hconv]; rfl
      rw [eT] at htbl ⊢
      rw [e1] at h1
      rw [e2] at h2
      rw [e3] at h3
      exact RecordTableProfile_twice p "TableProfiles" "TableNameId" "TableRowCount"
        "ProfileRecordId" eT (by rw [hconv]; rfl) e1 e2 e3 (by rw [hconv]; rfl)
        (by rw [hconv]; rfl) (by rw [hconv]; rfl) (by decide) (by decide) (by decide)
        t r c1 c2 s tbl htbl hid h1 h2 h3 hnone

/-- Witness of C12 (amended): the row counts 10 and 11 for table 1 in run 1 on
the scaffolded store. -/
theorem C12_table_profile_rows_witness :
    ∃ id1 id2 s1 s2,
      RecordTableProfile (sampleProfileStore false) 1 10 1 scaffoldedStore = (.ok id1, s1) ∧
      RecordTableProfile (sampleProfileStore false) 1 11 1 s1 = (.ok id2, s2) ∧
      ((s2.rowsOf (handleNamingConvention (sampleProfileStore false) "table_profiles")).filter
          (specTableProfileRowFor (sampleProfileStore false) 1 1)).length
        = if (10 : Int) = 11 then 1 else 2 :=
  C12_table_profile_rows (sampleProfileStore false) 1 1 10 11 scaffoldedStore
    { columns := ["id", "table_name_id", "table_row_count", "profile_record_id"],
      rows := [], serial := 0 }
    (by decide) (by decide) (by decide)

/-! ## Theorems on the orchestrator -/

/-- C18 (the code at the failing input): for the empty list of table names
`ProfileTablesByName` starts no task and then waits on the channel forever,
where `RunProfile`, which guards each join by the length of its list, returns
nil for a profile definition without tables. -/
theorem C18_empty_list_blocks :
    (ProfileTablesByName (sampleProfileStore false) [] 0 scaffoldedStore []).started = [] ∧
    (ProfileTablesByName (sampleProfileStore false) [] 0 scaffoldedStore []).outcome
      = .blocked ∧
    (RunProfile (sampleProfileStore false) { FullProfileTables := [], CustomProfileTables := [] }
      0 scaffoldedStore [] []).outcome = .returned none := by
  decide

/-- C14 (the claim at a failing full-table task): when the join of the
full-table tasks returns an error, `RunProfile` returns it and starts no task
for the custom table of the profile definition. -/
theorem C14_custom_tasks_not_started_after_error :
    (RunProfile (sampleProfileStore false) sampleProfileDefinition 0 scaffoldedStore
        [some "pq: relation does not exist"] [none]).started
      = [Task.profileTableChannel "missing" 1] ∧
    (RunProfile (sampleProfileStore false) sampleProfileDefinition 0 scaffoldedStore
        [some "pq: relation does not exist"] [none]).outcome
      = .returned (some "pq: relation does not exist") := by
  decide

/-- C14 (amended): when `NewProfile` returns the id of the run, `RunProfile`
makes no other call on the profile store itself, starts exactly one task per
entry of `FullProfileTables`, and starts exactly one task per entry of
`CustomProfileTables` when the list of full tables is empty or the join of the
full-table tasks returned nil, and none otherwise; every task carries the id
of the run. -/
theorem C14_started_tasks (p : ProfileStore) (profile : ProfileDefinition) (now : Int)
    (s s1 : Store) (fullArrivals customArrivals : List GoError) (profileID : Int)
    (hnew : NewProfile p now s = (.ok profileID, s1)) :
    (RunProfile p profile now s fullArrivals customArrivals).store = s1 ∧
    (RunProfile p profile now s fullArrivals customArrivals).started
      = profile.FullProfileTables.map
          (fun tableName => Task.profileTableChannel tableName profileID)
        ++ (if profile.FullProfileTables = []
              ∨ (waitForTableChannels fullArrivals
                  profile.FullProfileTables.length).returnedNil = true then
            profile.CustomProfileTables.map
              (fun table => Task.profileTableCustomColumnsChannel table profileID)
          else []) := by
  simp only [RunProfile, hnew]
  by_cases hfull : profile.FullProfileTables = []
  · simp only [hfull, List.length_nil, gt_iff_lt, lt_self_iff_false, if_false, List.map_nil,
      List.nil_append, true_or, if_true]
    by_cases hc : profile.CustomProfileTables.length > 0
    · simp only [hc, if_true]
      cases waitForTableChannels customArrivals profile.CustomProfileTables.length <;> simp
    · have hnil : profile.CustomProfileTables = [] := by
        cases h : profile.CustomProfileTables with
        | nil => rfl
        | cons a l => simp [h] at hc
      simp [hnil]
  · have hlen : profile.FullProfileTables.length > 0 := by
      cases h : profile.FullProfileTables with
      | nil => exact absurd h hfull
      | cons a l => simp
    simp only [hlen, if_true, hfull, false_or]
    cases hj : waitForTableChannels fullArrivals profile.FullProfileTables.length with
    | blocked k => simp [JoinResult.returnedNil]
    | returned err k pending =>
        cases err with
        | some e => simp [JoinResult.returnedNil]
        | none =>
            simp only [JoinResult.returnedNil, if_true]
            by_cases hc : profile.CustomProfileTables.length > 0
            · simp only [hc, if_true]
              cases waitForTableChannels customArrivals
                profile.CustomProfileTables.length <;> simp
            · have hnil : profile.CustomProfileTables = [] := by
                cases h : profile.CustomProfileTables with
                | nil => rfl
                | cons a l => simp [h] at hc
              simp [hnil]

/-- Witness of C14 (amended): a run whose full-table task succeeds. -/
theorem C14_started_tasks_witness :
    NewProfile (sampleProfileStore false) 0 scaffoldedStore
      = (.ok 1, (NewProfile (sampleProfileStore false) 0 scaffoldedStore).2) ∧
    (RunProfile (sampleProfileStore false) sampleProfileDefinition 0 scaffoldedStore
        [none] [none]).started
      = sampleProfileDefinition.FullProfileTables.map
          (fun tableName => Task.profileTableChannel tableName 1)
        ++ (if sampleProfileDefinition.FullProfileTables = []
              ∨ (waitForTableChannels [none]
                  sampleProfileDefinition.FullProfileTables.length).returnedNil = true then
            sampleProfileDefinition.CustomProfileTables.map
              (fun table => Task.profileTableCustomColumnsChannel table 1)
          else []) :=
  ⟨by decide,
    (C14_started_tasks (sampleProfileStore false) sampleProfileDefinition 0 scaffoldedStore
      (NewProfile (sampleProfileStore false) 0 scaffoldedStore).2
      [none] [none] 1 (by decide)).2⟩

/-! ## Theorems on the tasks -/

/-- C17 (counterexample): the task of the sample table `orders` writes the
row count of the table (`RecordTableProfile`) before any column is registered,
queried or stored, and it registers the table before any aggregate query. -/
theorem C17_row_count_written_before_columns :
    (profileTable sampleTarget (sampleProfileStore false) "orders" 1 sampleWorld).1 = .ok () ∧
    (profileTable sampleTarget (sampleProfileStore false) "orders" 1 sampleWorld).2.steps.map
        (fun st => st.call.name)
      = ["GetSelectAllColumnsSingle", "RegisterTable", "GetTableRowCount",
         "RecordTableProfile",
         "RegisterTableColumnType", "RegisterTableColumn", "GetRowsSelect",
         "StoreColumnProfileData",
         "RegisterTableColumnType", "RegisterTableColumn", "GetRowsSelect",
         "StoreColumnProfileData"] := by
  decide

/-- C17 (amended): the calls that a full-table task adds are, in order and with
their arguments, the first calls of the list `specFullTableCalls`: the one-row
sample of the table, the registration of the table, the row-count query, the
row-count write under the id of the table, and then for each sampled column in
turn the registration of its type, the registration of the column under the
ids of the table and of the type, the aggregate query of the column and the
fact write under the id of the column.  A call that fails is the last call and
its result is the outcome of the task, and a task that returns nil has made
all the calls of the list, each without error. -/
theorem C17_full_table_task_order (T : TargetDB) (p : ProfileStore) (tableName : String)
    (profileID : Int) (w : World) :
    ∃ new : List Step,
      (profileTable T p tableName profileID w).2.steps = w.steps ++ new ∧
      new.map (fun st => st.call)
        <+: specFullTableCalls T p tableName profileID w.store ∧
      (∀ pre step post, new = pre ++ step :: post → step.result ≠ .ok () →
        post = [] ∧ (profileTable T p tableName profileID w).1 = step.result) ∧
      ((profileTable T p tableName profileID w).1 ≠ .ok () ∨
        (new.map (fun st => st.call)
            = specFullTableCalls T p tableName profileID w.store ∧
          ∀ st ∈ new, st.result = .ok ())) := by
  obtain ⟨new, h1, h2, _⟩ := profileTable_exactly T p tableName profileID w
  refine ⟨new, h1, Follows_prefix h2, Follows_propagates h2, ?_⟩
  by_cases hout : (profileTable T p tableName profileID w).1 = .ok ()
  · exact Or.inr (Follows_ok h2 hout)
  · exact Or.inl hout

/-- C11 (counterexample): on a store whose `NUMERIC` fact table lacks the id
columns the fact insert of the first column fails, and the task panics with
the error of the insert instead of returning it. -/
theorem C11_fact_insert_failure_panics :
    (profileTable sampleTarget (sampleProfileStore false) "orders" 1
        ⟨storeWithForeignFactTable, []⟩).1 = .panic "pq: column does not exist" ∧
    ((profileTable sampleTarget (sampleProfileStore false) "orders" 1
        ⟨storeWithForeignFactTable, []⟩).2.steps.map
          (fun st => (st.call.name, st.result))).getLast?
      = some ("StoreColumnProfileData", .panic "pq: column does not exist") := by
  decide

/-- C11 (amended): in a full-table task, and in a custom-table task whose
sample query did not return an error, a call that fails is the last call of
the task and the task ends as that call ended: with the error of the call when
the call returned an error, and with its panic when the call panicked. -/
theorem C11_failed_call_ends_the_task (T : TargetDB) (p : ProfileStore) :
    (∀ (tableName : String) (profileID : Int) (w : World) (pre : List Step) (step : Step)
        (post : List Step),
        (profileTable T p tableName profileID w).2.steps = w.steps ++ (pre ++ step :: post) →
        step.result ≠ .ok () →
        post = [] ∧ (profileTable T p tableName profileID w).1 = step.result) ∧
    (∀ (tableDef : TableDefinition) (profileID : Int) (w : World) (pre : List Step)
        (step : Step) (post : List Step),
        (∀ e, T.GetRowsSelect tableDef.TableName
          (tableDef.CustomColumns.map
            (fun col => col.ColumnDefinition ++ " as " ++ col.ColumnName)) ≠ .error e) →
        (profileTableCustomColumns T p tableDef profileID w).2.steps
          = w.steps ++ (pre ++ step :: post) →
        step.result ≠ .ok () →
        post = [] ∧ (profileTableCustomColumns T p tableDef profileID w).1 = step.result) := by
  constructor
  · intro tableName profileID w pre step post hsteps hfail
    obtain ⟨new, h1, h2⟩ := profileTable_runs T p tableName profileID w
    rw [h1] at hsteps
    exact Calls_propagates h2 pre step post (List.append_cancel_left hsteps) hfail
  · intro tableDef profileID w pre step post hsample hsteps hfail
    rcases profileTableCustomColumns_runs T p tableDef profileID w with
      ⟨names, new, h1, h2⟩ | ⟨e, he, _, _⟩
    · rw [h1] at hsteps
      exact Calls_propagates h2 pre step post (List.append_cancel_left hsteps) hfail
    · exact absurd he (hsample e)

theorem C11_failed_call_ends_the_task_witness :
    (profileTable sampleTarget (sampleProfileStore false) "orders" 1
        ⟨storeWithForeignFactTable, []⟩).1 = .panic "pq: column does not exist" :=
  ((C11_failed_call_ends_the_task sampleTarget (sampleProfileStore false)).1 "orders" 1
    ⟨storeWithForeignFactTable, []⟩
    ((profileTable sampleTarget (sampleProfileStore false) "orders" 1
        ⟨storeWithForeignFactTable, []⟩).2.steps.take 7)
    ⟨.StoreColumnProfileData 1 "NUMERIC" 1
        [ { data := some (.bytes [57, 57]), name := "maximum",
            scanType := some (.interface "") },
          { data := some (.bytes [49]), name := "minimum",
            scanType := some (.interface "") },
          { data := some (.bytes [49, 50]), name := "average",
            scanType := some (.interface "") } ],
      .panic "pq: column does not exist"⟩
    [] (by decide) (by decide)).2

/-- C16 (counterexample): for the column `paid` of driver type `BOOL`, whose
aggregate set is empty, `handleProfileTableColumn` returns nil and has put a
row in the fact table of the type, which had none. -/
theorem C16_fact_row_without_aggregates :
    ProfilesByType "BOOL" = [] ∧
    (handleProfileTableColumn sampleTarget (sampleProfileStore false) 1 "orders" 1
        samplePaidColumn sampleWorld).1 = .ok () ∧
    sampleWorld.store.rowsOf "table_column_profile_BOOL" = [] ∧
    (handleProfileTableColumn sampleTarget (sampleProfileStore false) 1 "orders" 1
        samplePaidColumn sampleWorld).2.store.rowsOf "table_column_profile_BOOL"
      = [PgRow.mk 1 [("table_column_name_id", some (.int 1)),
                     ("profile_record_id", some (.int 1))]] := by
  decide

/-- C16 (amended): for a column whose driver type has an empty aggregate set,
a `handleProfileTableColumn` that returns nil has registered the type and the
column, has run the aggregate query with an empty select list, and has written
the results with `StoreColumnProfileData`, which has added one row to the fact
table of the type: the row of the column-name id and the profile-record id. -/
theorem C16_empty_aggregate_set_writes_fact_row (T : TargetDB) (p : ProfileStore)
    (tableNameID : Int) (tableName : String) (profileID : Int) (columnData : ColumnType)
    (w : World)
    (hty : ProfilesByType columnData.DatabaseTypeName = [])
    (hok : (handleProfileTableColumn T p tableNameID tableName profileID columnData w).1
      = .ok ()) :
    ∃ (columnTypeID columnNamesID : Int) (rows : Rows) (aggregateColumns : List ColumnType)
      (s1 s2 : Store),
      RegisterTableColumnType p columnData.DatabaseTypeName w.store = (.ok columnTypeID, s1) ∧
      RegisterTableColumn p tableNameID columnTypeID columnData.Name s1
        = (.ok columnNamesID, s2) ∧
      T.GetRowsSelect tableName [] = .ok rows ∧
      rows.ColumnTypes = .ok aggregateColumns ∧
      (handleProfileTableColumn T p tableNameID tableName profileID columnData w).2.steps
        = w.steps ++
          [⟨.RegisterTableColumnType columnData.DatabaseTypeName, .ok ()⟩,
           ⟨.RegisterTableColumn tableNameID columnTypeID columnData.Name, .ok ()⟩,
           ⟨.GetRowsSelect tableName [], .ok ()⟩,
           ⟨.StoreColumnProfileData columnNamesID columnData.DatabaseTypeName profileID
              (profileResultsOf aggregateColumns
                (scanFirstRow aggregateColumns.length rows.data)), .ok ()⟩] ∧
      ∃ id,
        (handleProfileTableColumn T p tableNameID tableName profileID columnData
            w).2.store.rowsOf (getColumnProfileTableName p columnData.DatabaseTypeName)
          = s2.rowsOf (getColumnProfileTableName p columnData.DatabaseTypeName)
            ++ [PgRow.mk id ((handleColumnDataNamingConvention p
                (profileColumnData p columnNamesID profileID
                  (profileResultsOf aggregateColumns
                    (scanFirstRow aggregateColumns.length rows.data)))).map
                  (fun kv => (ToLower kv.1, kv.2)))] := by
  unfold handleProfileTableColumn at hok ⊢
  simp only [hty, List.map_nil] at hok ⊢
  obtain ⟨columnTypeID, h1, e1⟩ := callStore_ok w _ _ _ hok
  rw [e1] at hok ⊢
  obtain ⟨columnNamesID, h2, e2⟩ := callStore_ok _ _ _ _ hok
  rw [e2] at hok ⊢
  obtain ⟨rows, h3, e3⟩ := callTarget_ok _ _ _ _ hok
  rw [e3] at hok ⊢
  cases hct : rows.ColumnTypes with
  | error e =>
      simp only [hct] at hok
      cases hok
  | ok aggregateColumns =>
      simp only [hct] at hok ⊢
      obtain ⟨u, h4, e4⟩ := callStore_ok _ _ _ _ hok
      rw [e4]
      obtain ⟨_, id, hrows⟩ := StoreColumnProfileData_ok_rows p columnNamesID
        columnData.DatabaseTypeName profileID _ _ h4
      refine ⟨columnTypeID, columnNamesID, rows, aggregateColumns, _, _,
        Prod.ext h1 rfl, Prod.ext h2 rfl, h3, hct, ?_, id, hrows⟩
      simp

theorem C16_empty_aggregate_set_writes_fact_row_witness :
    ProfilesByType samplePaidColumn.DatabaseTypeName = [] ∧
    (handleProfileTableColumn sampleTarget (sampleProfileStore false) 1 "orders" 1
        samplePaidColumn sampleWorld).1 = .ok () ∧
    (∃ (columnTypeID columnNamesID : Int) (rows : Rows) (aggregateColumns : List ColumnType)
      (s1 s2 : Store),
      RegisterTableColumnType (sampleProfileStore false) samplePaidColumn.DatabaseTypeName sampleWorld.store = (.ok columnTypeID, s1) ∧
      RegisterTableColumn (sampleProfileStore false) 1 columnTypeID samplePaidColumn.Name s1
        = (.ok columnNamesID, s2) ∧
      sampleTarget.GetRowsSelect "orders" [] = .ok rows ∧
      rows.ColumnTypes = .ok aggregateColumns ∧
      (handleProfileTableColumn sampleTarget (sampleProfileStore false) 1 "orders" 1
          samplePaidColumn sampleWorld).2.steps
        = sampleWorld.steps ++
          [⟨.RegisterTableColumnType samplePaidColumn.DatabaseTypeName, .ok ()⟩,
           ⟨.RegisterTableColumn 1 columnTypeID samplePaidColumn.Name, .ok ()⟩,
           ⟨.GetRowsSelect "orders" [], .ok ()⟩,
           ⟨.StoreColumnProfileData columnNamesID samplePaidColumn.DatabaseTypeName 1
              (profileResultsOf aggregateColumns
                (scanFirstRow aggregateColumns.length rows.data)), .ok ()⟩] ∧
      ∃ id,
        (handleProfileTableColumn sampleTarget (sampleProfileStore false) 1 "orders" 1
            samplePaidColumn sampleWorld).2.store.rowsOf (getColumnProfileTableName (sampleProfileStore false) samplePaidColumn.DatabaseTypeName)
          = s2.rowsOf (getColumnProfileTableName (sampleProfileStore false) samplePaidColumn.DatabaseTypeName)
            ++ [PgRow.mk id ((handleColumnDataNamingConvention (sampleProfileStore false)
                (profileColumnData (sampleProfileStore false) columnNamesID 1
                  (profileResultsOf aggregateColumns
                    (scanFirstRow aggregateColumns.length rows.data)))).map
                  (fun kv => (ToLower kv.1, kv.2)))]) :=
  ⟨by decide, by decide,
    C16_empty_aggregate_set_writes_fact_row sampleTarget (sampleProfileStore false) 1
      "orders" 1 samplePaidColumn sampleWorld (by decide) (by decide)⟩

/-! ## Theorems on two fact writes at once -/

/-- C15: two tasks that meet the unseen type `NUMERIC` leave one row in
`table_column_types`, as the registration is one step under the mutex; but when
both fact writes test for the fact table before either creates it, both call
`CreateTable`: the second creation fails, the second write returns that error,
and the fact table holds the row of the first write only. -/
theorem C15_fact_table_creation_requested_twice :
    (RegisterTableColumnType (sampleProfileStore false) "NUMERIC" scaffoldedStore).1 = .ok 1 ∧
    (RegisterTableColumnType (sampleProfileStore false) "NUMERIC"
      (RegisterTableColumnType (sampleProfileStore false) "NUMERIC" scaffoldedStore).2).1
      = .ok 1 ∧
    (storeWithTypeRegistered.rowsOf "table_column_types").length = 1 ∧
    (storeWithTypeRegistered.table "table_column_profile_NUMERIC").isSome = false ∧
    (interleavedFactWrites (sampleProfileStore false) "NUMERIC" 1
        1 sampleResultsB 2 sampleResultsB storeWithTypeRegistered).1
      = (.ok (), .error "pq: relation already exists") ∧
    (createTableCalls
      (interleavedFactWrites (sampleProfileStore false) "NUMERIC" 1
        1 sampleResultsB 2 sampleResultsB storeWithTypeRegistered).2.calls
      "table_column_profile_NUMERIC").length = 2 ∧
    ((interleavedFactWrites (sampleProfileStore false) "NUMERIC" 1
        1 sampleResultsB 2 sampleResultsB storeWithTypeRegistered).2.rowsOf
      "table_column_profile_NUMERIC").map (fun row => row.cells.lookup "table_column_name_id")
      = [some (some (.int 1))] := by
  decide

/-! ## Theorems on the fact writes of a run -/

/-- C13 (counterexample): for a profile definition that lists the table
`orders` twice, the two tasks that `RunProfile` starts each write the facts of
the column `total` under the same (column-name id, profile-record id) pair, and
the `NUMERIC` fact table ends with two rows for that pair; the same pairs are
inserted twice when the calls of the first task all come before the calls of
the second. -/
theorem C13_repeated_table_repeats_pairs :
    (RunProfile (sampleProfileStore false) profileWithRepeatedTable 0 scaffoldedStore
        [none, none] []).started
      = [.profileTableChannel "orders" 1, .profileTableChannel "orders" 1] ∧
    factPairs
      (runTasksInTurn sampleTarget (sampleProfileStore false)
        (RunProfile (sampleProfileStore false) profileWithRepeatedTable 0 scaffoldedStore
          [none, none] []).started
        ⟨(RunProfile (sampleProfileStore false) profileWithRepeatedTable 0 scaffoldedStore
          [none, none] []).store, []⟩).steps
      = [(1, 1), (2, 1), (1, 1), (2, 1)] ∧
    ((runTasksInTurn sampleTarget (sampleProfileStore false)
        (RunProfile (sampleProfileStore false) profileWithRepeatedTable 0 scaffoldedStore
          [none, none] []).started
        ⟨(RunProfile (sampleProfileStore false) profileWithRepeatedTable 0 scaffoldedStore
          [none, none] []).store, []⟩).store.rowsOf "table_column_profile_NUMERIC").map
        (fun row => (row.cells.lookup "table_column_name_id",
          row.cells.lookup "profile_record_id"))
      = [(some (some (.int 1)), some (some (.int 1))),
         (some (some (.int 1)), some (some (.int 1)))] ∧
    ((Pool.start sampleTarget (sampleProfileStore false)
        (RunProfile (sampleProfileStore false) profileWithRepeatedTable 0 scaffoldedStore
          [none, none] []).started
        (RunProfile (sampleProfileStore false) profileWithRepeatedTable 0 scaffoldedStore
          [none, none] []).store).run
        (List.replicate 18 0 ++ List.replicate 18 1)).facts
      = [(1, 1), (2, 1), (1, 1), (2, 1)] := by
  decide

/-- C13 (amended): on a profile store whose tables have unique ids, when no
(table name, column name) pair is profiled twice by the tasks of a run, then
in every interleaving of the calls that the tasks make on the store, in either
casing mode, the fact pairs inserted are pairwise distinct: no (column-name
id, profile-record id) pair is inserted more than once into the per-type fact
tables. -/
theorem C13_distinct_columns_distinct_pairs (T : TargetDB) (p : ProfileStore)
    (tasks : List Task) (s : Store) (schedule : List Nat)
    (hu : s.idsUnique)
    (hl : (tasks.flatMap (Task.profiledColumns T)).Nodup) :
    ((Pool.start T p tasks s).run schedule).facts.Nodup :=
  Pool_sound_facts p _ (Pool_run_sound p schedule _ (Pool_start_sound T p tasks s hu hl))

theorem C13_distinct_columns_distinct_pairs_witness :
    (RunProfile (sampleProfileStore false) sampleOrdersProfile 0 scaffoldedStore
        [none] []).store.idsUnique ∧
    (((RunProfile (sampleProfileStore false) sampleOrdersProfile 0 scaffoldedStore
        [none] []).started).flatMap (Task.profiledColumns sampleTarget)).Nodup ∧
    ((Pool.start sampleTarget (sampleProfileStore false)
        (RunProfile (sampleProfileStore false) sampleOrdersProfile 0 scaffoldedStore
          [none] []).started
        (RunProfile (sampleProfileStore false) sampleOrdersProfile 0 scaffoldedStore
          [none] []).store).run (List.replicate 18 0)).facts.Nodup :=
  ⟨by decide, by decide,
    C13_distinct_columns_distinct_pairs sampleTarget (sampleProfileStore false)
      (RunProfile (sampleProfileStore false) sampleOrdersProfile 0 scaffoldedStore
        [none] []).started
      (RunProfile (sampleProfileStore false) sampleOrdersProfile 0 scaffoldedStore
        [none] []).store (List.replicate 18 0) (by decide) (by decide)⟩

end Profiler
